import Mathlib

/-!
# Command protocol of the vehicle controller (`common/commands.c`)

A shallow embedding of `commands_process_packet` and of the helpers it uses,
followed by theorems about the embedded functions.

Conventions of the embedding.

* A pointer to bytes is a `Mem`, the byte stored at every offset from the
  pointer; a store truncates to eight bits.  A length travels separately, as in
  the C code, so a read past the length is visible as a dependence on memory
  the caller did not hand over.
* Calls into other modules (position, autopilot, log, configuration store,
  terminal, the vehicle-specific dispatcher) and calls of a send function are
  recorded, oldest first, in `State.trace`.  What such a call returns is given
  by a `Collab`, as a function of the calls made before it.
* Floating-point values are kept abstract (type `F`); the conversions between
  them and the integers on the wire are fields of `FloatOps`.
-/

namespace Commands

/-! ## Memory -/

/-- Bytes reachable through a pointer, by offset. -/
abbrev Mem := Nat → Nat

/-- Store into an `uint8_t` cell: `m[i] = v`. -/
def Mem.write (m : Mem) (i v : Nat) : Mem := fun j => if j = i then v % 256 else m j

/-- Pointer arithmetic: `m + k`. -/
def Mem.shift (m : Mem) (k : Nat) : Mem := fun j => m (k + j)

/-- The first `n` bytes behind the pointer. -/
def Mem.bytes (m : Mem) (n : Nat) : List Nat := (List.range n).map m

/-- A memory that starts with the bytes of `l` (and holds zero after them). -/
def Mem.ofList (l : List Nat) : Mem := fun i => l.getD i 0

/-- The C string at offset `i`: the bytes before the first NUL.  The scan is
cut after `fuel` bytes; callers pass the size of the 32-bit address space. -/
def cstring (m : Mem) : Nat → Nat → List Nat
  | _, 0 => []
  | i, fuel + 1 => if m i = 0 then [] else m i :: cstring m (i + 1) fuel

/-- Size of the address space, the bound of every string scan. -/
def ADDR_SPACE : Nat := 2 ^ 32

/-- `strlen` of a character array given by its contents. -/
def strlen (s : List Nat) : Nat := (s.takeWhile (fun c => c ≠ 0)).length

/-! ## Integer conversions -/

/-- Value of a 32-bit pattern read as `int32_t`. -/
def toInt32 (n : Nat) : Int :=
  if n % 2 ^ 32 < 2 ^ 31 then ((n % 2 ^ 32 : Nat) : Int) else ((n % 2 ^ 32 : Nat) : Int) - 2 ^ 32

/-- Value of a 16-bit pattern read as `int16_t`. -/
def toInt16 (n : Nat) : Int :=
  if n % 2 ^ 16 < 2 ^ 15 then ((n % 2 ^ 16 : Nat) : Int) else ((n % 2 ^ 16 : Nat) : Int) - 2 ^ 16

/-- Value of a 64-bit pattern read as `int64_t`. -/
def toInt64 (n : Nat) : Int :=
  if n % 2 ^ 64 < 2 ^ 63 then ((n % 2 ^ 64 : Nat) : Int) else ((n % 2 ^ 64 : Nat) : Int) - 2 ^ 64

/-- Two-complement pattern of an integer in `w` bits. -/
def toBits (w : Nat) (z : Int) : Nat := (z % (2 ^ w : Int)).toNat

/-! ## The send buffer under construction -/

/-- The buffer `m_send_buffer` together with the running `send_index`. -/
structure SendBuf where
  buf : Mem
  send_index : Nat

/-- The statement `buf[send_index++] = v`. -/
def SendBuf.put (v : Nat) (w : SendBuf) : SendBuf :=
  ⟨w.buf.write w.send_index v, w.send_index + 1⟩

/-- Consecutive stores of the bytes of `l`. -/
def SendBuf.puts : List Nat → SendBuf → SendBuf
  | [], w => w
  | v :: l, w => SendBuf.puts l (w.put v)

/-- The bytes written so far: `buf[0 .. send_index)`. -/
def SendBuf.bytes (w : SendBuf) : List Nat := w.buf.bytes w.send_index

/-! ## Numeric codec (`buffer.c`) -/

/-- Modelled from the spec: `buffer.c` is not among the sources.  The spec
(4.1) fixes one byte order for integers of 16 and 32 bits; it is taken most
significant byte first.  Reads two bytes at `index` and advances it. -/
def buffer_get_uint16 (buffer : Mem) (index : Nat) : Nat × Nat :=
  (buffer index * 2 ^ 8 + buffer (index + 1), index + 2)

/-- Modelled from the spec: `buffer.c` is not among the sources; the signed
reading of `buffer_get_uint16`. -/
def buffer_get_int16 (buffer : Mem) (index : Nat) : Int × Nat :=
  (toInt16 (buffer_get_uint16 buffer index).1, index + 2)

/-- Modelled from the spec: `buffer.c` is not among the sources; four bytes,
most significant first. -/
def buffer_get_uint32 (buffer : Mem) (index : Nat) : Nat × Nat :=
  (buffer index * 2 ^ 24 + buffer (index + 1) * 2 ^ 16 + buffer (index + 2) * 2 ^ 8
    + buffer (index + 3), index + 4)

/-- Modelled from the spec: `buffer.c` is not among the sources; the signed
reading of `buffer_get_uint32`. -/
def buffer_get_int32 (buffer : Mem) (index : Nat) : Int × Nat :=
  (toInt32 (buffer_get_uint32 buffer index).1, index + 4)

/-- Modelled from the spec: `buffer.c` is not among the sources; eight bytes,
most significant first, read as `int64_t`. -/
def buffer_get_int64 (buffer : Mem) (index : Nat) : Int × Nat :=
  (toInt64 ((buffer_get_uint32 buffer index).1 * 2 ^ 32 + (buffer_get_uint32 buffer (index + 4)).1),
    index + 8)

/-- Modelled from the spec: `buffer.c` is not among the sources; two bytes at
`send_index`, most significant first. -/
def buffer_append_uint16 (number : Nat) (w : SendBuf) : SendBuf :=
  (w.put (number / 2 ^ 8)).put number

/-- Modelled from the spec: `buffer.c` is not among the sources. -/
def buffer_append_int16 (number : Int) (w : SendBuf) : SendBuf :=
  buffer_append_uint16 (toBits 16 number) w

/-- Modelled from the spec: `buffer.c` is not among the sources; four bytes at
`send_index`, most significant first. -/
def buffer_append_uint32 (number : Nat) (w : SendBuf) : SendBuf :=
  (((w.put (number / 2 ^ 24)).put (number / 2 ^ 16)).put (number / 2 ^ 8)).put number

/-- Modelled from the spec: `buffer.c` is not among the sources. -/
def buffer_append_int32 (number : Int) (w : SendBuf) : SendBuf :=
  buffer_append_uint32 (toBits 32 number) w

/-- Modelled from the spec: `buffer.c` is not among the sources; eight bytes. -/
def buffer_append_int64 (number : Int) (w : SendBuf) : SendBuf :=
  buffer_append_uint32 (toBits 64 number) (buffer_append_uint32 (toBits 64 number / 2 ^ 32) w)

/-- Modelled from the spec: `buffer.c` is not among the sources.  The
floating-point side of the codec: the conversions between a value and the
fixed-point integer `value * scale` (spec 4.1), and the adaptive encoding,
whose bytes are written at the cursor and whose decoder tells where it
stopped. -/
structure FloatOps (F : Type) where
  float32_of_fixed : Int → Nat → F
  fixed_of_float32 : F → Nat → Int
  double64_of_fixed : Int → Nat → F
  fixed_of_double64 : F → Nat → Int
  append_float32_auto : F → List Nat
  get_float32_auto : Mem → Nat → F × Nat

variable {F : Type}

/-- Modelled from the spec: `buffer.c` is not among the sources; a 32-bit
fixed-point value, `raw / scale`. -/
def buffer_get_float32 (X : FloatOps F) (buffer : Mem) (scale : Nat) (index : Nat) : F × Nat :=
  (X.float32_of_fixed (buffer_get_int32 buffer index).1 scale, index + 4)

/-- Modelled from the spec: `buffer.c` is not among the sources; a 64-bit
fixed-point value, `raw / scale`. -/
def buffer_get_double64 (X : FloatOps F) (buffer : Mem) (scale : Nat) (index : Nat) : F × Nat :=
  (X.double64_of_fixed (buffer_get_int64 buffer index).1 scale, index + 8)

/-- Modelled from the spec: `buffer.c` is not among the sources. -/
def buffer_get_float32_auto (X : FloatOps F) (buffer : Mem) (index : Nat) : F × Nat :=
  X.get_float32_auto buffer index

/-- Modelled from the spec: `buffer.c` is not among the sources. -/
def buffer_append_float32 (X : FloatOps F) (number : F) (scale : Nat) (w : SendBuf) : SendBuf :=
  buffer_append_int32 (X.fixed_of_float32 number scale) w

/-- Modelled from the spec: `buffer.c` is not among the sources. -/
def buffer_append_double64 (X : FloatOps F) (number : F) (scale : Nat) (w : SendBuf) : SendBuf :=
  buffer_append_int64 (X.fixed_of_double64 number scale) w

/-- Modelled from the spec: `buffer.c` is not among the sources. -/
def buffer_append_float32_auto (X : FloatOps F) (number : F) (w : SendBuf) : SendBuf :=
  w.puts (X.append_float32_auto number)

/-! ## Data types (`datatypes.h`) -/

/-- One point of a route. -/
structure ROUTE_POINT (F : Type) where
  px : F
  py : F
  pz : F
  speed : F
  time : Int
  attributes : Nat
deriving DecidableEq

/-- Modelled from the spec: `datatypes.h` is not among the sources.  The
wheeled-vehicle part of the configuration; a field carried in one byte holds
that byte. -/
structure MAIN_CONFIG_CAR (F : Type) where
  yaw_use_odometry : Nat
  yaw_imu_gain : F
  disable_motor : Nat
  simulate_motor : Nat
  clamp_imu_yaw_stationary : Nat
  use_uwb_pos : Nat
  gear_ratio : F
  wheel_diam : F
  motor_poles : F
  steering_max_angle_rad : F
  steering_center : F
  steering_range : F
  steering_ramp_time : F
  axis_distance : F
deriving DecidableEq

/-- Modelled from the spec: `datatypes.h` is not among the sources.  The
multirotor part of the configuration. -/
structure MAIN_CONFIG_MULTIROTOR (F : Type) where
  vel_decay_e : F
  vel_decay_l : F
  vel_max : F
  map_min_x : F
  map_max_x : F
  map_min_y : F
  map_max_y : F
  vel_gain_p : F
  vel_gain_i : F
  vel_gain_d : F
  tilt_gain_p : F
  tilt_gain_i : F
  tilt_gain_d : F
  max_corr_error : F
  max_tilt_error : F
  ctrl_gain_roll_p : F
  ctrl_gain_roll_i : F
  ctrl_gain_roll_dp : F
  ctrl_gain_roll_de : F
  ctrl_gain_pitch_p : F
  ctrl_gain_pitch_i : F
  ctrl_gain_pitch_dp : F
  ctrl_gain_pitch_de : F
  ctrl_gain_yaw_p : F
  ctrl_gain_yaw_i : F
  ctrl_gain_yaw_dp : F
  ctrl_gain_yaw_de : F
  ctrl_gain_pos_p : F
  ctrl_gain_pos_i : F
  ctrl_gain_pos_d : F
  ctrl_gain_alt_p : F
  ctrl_gain_alt_i : F
  ctrl_gain_alt_d : F
  js_gain_tilt : F
  js_gain_yaw : F
  js_mode_rate : Nat
  motor_fl_f : Nat
  motor_bl_l : Nat
  motor_fr_r : Nat
  motor_br_b : Nat
  motors_x : Nat
  motors_cw : Nat
  motor_pwm_min_us : Nat
  motor_pwm_max_us : Nat
deriving DecidableEq

/-- Modelled from the spec: `datatypes.h` is not among the sources.  The
configuration record, with the fields `commands.c` reads and writes;
`log_name` is the contents of the character array. -/
structure MAIN_CONFIG (F : Type) where
  mag_use : Nat
  mag_comp : Nat
  yaw_mag_gain : F
  mag_cal_cx : F
  mag_cal_cy : F
  mag_cal_cz : F
  mag_cal_xx : F
  mag_cal_xy : F
  mag_cal_xz : F
  mag_cal_yx : F
  mag_cal_yy : F
  mag_cal_yz : F
  mag_cal_zx : F
  mag_cal_zy : F
  mag_cal_zz : F
  gps_ant_x : F
  gps_ant_y : F
  gps_comp : Nat
  gps_req_rtk : Nat
  gps_use_rtcm_base_as_enu_ref : Nat
  gps_corr_gain_stat : F
  gps_corr_gain_dyn : F
  gps_corr_gain_yaw : F
  gps_send_nmea : Nat
  gps_use_ubx_info : Nat
  gps_ubx_max_acc : F
  uwb_max_corr : F
  ap_repeat_routes : Nat
  ap_base_rad : F
  ap_rad_time_ahead : F
  ap_mode_time : Nat
  ap_max_speed : F
  ap_time_add_repeat_ms : Int
  log_rate_hz : Int
  log_en : Nat
  log_name : List Nat
  log_mode_ext : Nat
  log_uart_baud : Nat
  car : MAIN_CONFIG_CAR F
  mr : MAIN_CONFIG_MULTIROTOR F
deriving DecidableEq

/-- Modelled from the spec: `datatypes.h` is not among the sources.  The
command identifiers named in `commands.c`. -/
inductive CMD_PACKET where
  | CMD_PRINTF
  | CMD_HEARTBEAT
  | CMD_TERMINAL_CMD
  | CMD_SET_POS
  | CMD_SET_POS_ACK
  | CMD_SET_ENU_REF
  | CMD_GET_ENU_REF
  | CMD_AP_ADD_POINTS
  | CMD_AP_REMOVE_LAST_POINT
  | CMD_AP_CLEAR_POINTS
  | CMD_AP_GET_ROUTE_PART
  | CMD_AP_SET_ACTIVE
  | CMD_AP_REPLACE_ROUTE
  | CMD_AP_SYNC_POINT
  | CMD_SEND_RTCM_USB
  | CMD_SET_YAW_OFFSET
  | CMD_SET_YAW_OFFSET_ACK
  | CMD_SET_MAIN_CONFIG
  | CMD_GET_MAIN_CONFIG
  | CMD_GET_MAIN_CONFIG_DEFAULT
  | CMD_SEND_NMEA_RADIO
  | CMD_LOG_LINE_USB
  | CMD_PLOT_INIT
  | CMD_PLOT_ADD_GRAPH
  | CMD_PLOT_SET_GRAPH
  | CMD_PLOT_DATA
deriving DecidableEq

/-- The case labels of the switch in `commands_process_packet`, in source order. -/
def CMD_PACKET.caseLabels : List CMD_PACKET :=
  [.CMD_HEARTBEAT, .CMD_TERMINAL_CMD, .CMD_SET_POS, .CMD_SET_POS_ACK, .CMD_SET_ENU_REF,
   .CMD_GET_ENU_REF, .CMD_AP_ADD_POINTS, .CMD_AP_REMOVE_LAST_POINT, .CMD_AP_CLEAR_POINTS,
   .CMD_AP_GET_ROUTE_PART, .CMD_AP_SET_ACTIVE, .CMD_AP_REPLACE_ROUTE, .CMD_AP_SYNC_POINT,
   .CMD_SEND_RTCM_USB, .CMD_SET_YAW_OFFSET, .CMD_SET_YAW_OFFSET_ACK, .CMD_SET_MAIN_CONFIG,
   .CMD_GET_MAIN_CONFIG, .CMD_GET_MAIN_CONFIG_DEFAULT]

/-- Modelled from the spec: the headers that declare them are not among the
sources.  The node id `main_id`, the two reserved receiver ids and the numeric
value of every command identifier. -/
structure Env where
  main_id : Nat
  ID_ALL : Nat
  ID_CAR_CLIENT : Nat
  code : CMD_PACKET → Nat

/-- The case label selected by `switch (packet_id)`, if any. -/
def Env.cmd (K : Env) (packet_id : Nat) : Option CMD_PACKET :=
  CMD_PACKET.caseLabels.find? (fun c => K.code c = packet_id)

/-- The preamble byte of an RTCM3 frame. -/
def RTCM3PREAMB : Nat := 0xD3

/-! ## Collaborators and state -/

/-- A call that leaves this module: into a collaborator, or of a send
function (`send func data` is the call `func(data, len)`, `data` being the
`len` bytes handed over). -/
inductive Event (F : Type) where
  | timeout_reset
  | terminal_process_string (str : List Nat)
  | pos_set_xya (x y angle : F)
  | pos_gnss_set_enu_ref (lat lon height : F)
  | pos_gnss_get_enu_ref
  | autopilot_add_point (p : ROUTE_POINT F) (first : Bool) (res : Bool)
  | autopilot_remove_last_point
  | autopilot_clear_route
  | autopilot_get_route_len
  | autopilot_get_route_point (i : Int)
  | autopilot_set_active (active : Nat)
  | autopilot_reset_state
  | autopilot_replace_route (p : ROUTE_POINT F) (res : Bool)
  | autopilot_sync_point (point time min_diff : Int)
  | pos_gnss_input_rtcm3 (data : List Nat) (len : Nat)
  | pos_set_yaw_offset (angle : F)
  | log_set_rate (rate_hz : Int)
  | log_set_enabled (en : Nat)
  | log_set_name (name : List Nat)
  | motor_sim_set_running (running : Nat)
  | conf_general_store_main_config (conf : MAIN_CONFIG F)
  | conf_general_get_default_main_config
  | commands_specific_process_packet (packet_id : Nat) (data : List Nat) (len : Nat)
      (id_ret : Nat) (func : Nat)
  | send (func : Nat) (data : List Nat)
deriving DecidableEq

/-- What the collaborators return, as a function of the calls made so far. -/
structure Collab (F : Type) where
  autopilot_add_point : List (Event F) → ROUTE_POINT F → Bool → Bool
  autopilot_replace_route : List (Event F) → ROUTE_POINT F → Bool
  autopilot_get_route_len : List (Event F) → Int
  autopilot_get_route_point : List (Event F) → Int → ROUTE_POINT F
  pos_gnss_get_enu_ref : List (Event F) → F × F × F
  conf_general_get_default_main_config : List (Event F) → MAIN_CONFIG F

/-- The variables of `commands.c` and the record of calls.  A send function is
a code address; `0` is the null pointer. -/
structure State (F : Type) where
  m_send_buffer : Mem
  m_send_func : Nat
  print_buffer : Mem
  main_config : MAIN_CONFIG F
  trace : List (Event F)

/-- Record a call. -/
def State.call (e : Event F) (s : State F) : State F :=
  { s with trace := s.trace ++ [e] }

/-! ## `commands.c` -/

/-- `commands_set_send_func`. -/
def commands_set_send_func (func : Nat) (s : State F) : State F :=
  { s with m_send_func := func }

/-- `commands_send_packet`: hand `len` bytes at `data` to the active send
function, if there is one. -/
def commands_send_packet (data : Mem) (len : Nat) (s : State F) : State F :=
  if s.m_send_func ≠ 0 then s.call (.send s.m_send_func (data.bytes len)) else s

/-- The tail common to the handlers: store the buffer built in `w` into
`m_send_buffer` and send its first `send_index` bytes. -/
def send_buffer (w : SendBuf) (s : State F) : State F :=
  commands_send_packet w.buf w.send_index { s with m_send_buffer := w.buf }

/-- The block marked "Send ack": `[id_ret, packet_id]` through the active
send function. -/
def send_ack (id_ret packet_id : Nat) (s : State F) : State F :=
  send_buffer (((SendBuf.mk s.m_send_buffer 0).put id_ret).put packet_id) s

/-- The C library's `vsnprintf(buf + off, n, ..)`, given the text the format
expands to: it stores the first `n - 1` characters of the text and a NUL, and
returns the length of the whole text. -/
def vsnprintf (buf : Mem) (off n : Nat) (text : List Nat) : Mem × Nat :=
  (((SendBuf.mk buf off).puts (text.take (n - 1))).put 0 |>.buf, text.length)

/-- `commands_vprintf`, given the text the format expands to. -/
def commands_vprintf (K : Env) (text : List Nat) (s : State F) : State F :=
  let print_buffer := (s.print_buffer.write 0 K.main_id).write 1 (K.code .CMD_PRINTF)
  let r := vsnprintf print_buffer 2 509 text
  let s := { s with print_buffer := r.1 }
  let len := r.2
  if len > 0 then
    commands_send_packet s.print_buffer (if len < 509 then len + 2 else 512) s
  else s

/-- `commands_printf`. -/
def commands_printf (K : Env) (text : List Nat) (s : State F) : State F :=
  commands_vprintf K text s

/-- `strcpy(dst + off, src)`: the characters of `src` before its first NUL,
then a NUL. -/
def strcpy (dst : Mem) (off : Nat) (src : List Nat) : Mem :=
  ((SendBuf.mk dst off).puts (src.takeWhile (fun c => c ≠ 0) ++ [0])).buf

/-- The six reads that fill a `ROUTE_POINT` in the loops of `CMD_AP_ADD_POINTS`
and `CMD_AP_REPLACE_ROUTE`. -/
def get_route_point (X : FloatOps F) (data : Mem) (ind : Nat) : ROUTE_POINT F × Nat :=
  let r := buffer_get_float32 X data (10 ^ 4) ind
  let px := r.1
  let ind := r.2
  let r := buffer_get_float32 X data (10 ^ 4) ind
  let py := r.1
  let ind := r.2
  let r := buffer_get_float32 X data (10 ^ 4) ind
  let pz := r.1
  let ind := r.2
  let r := buffer_get_float32 X data (10 ^ 6) ind
  let speed := r.1
  let ind := r.2
  let r := buffer_get_int32 data ind
  let time := r.1
  let ind := r.2
  let r := buffer_get_uint32 data ind
  let attributes := r.1
  let ind := r.2
  (⟨px, py, pz, speed, time, attributes⟩, ind)

/-- The loop of `CMD_AP_ADD_POINTS`: `while (ind < (int32_t)len)`, left at the
first rejected point.  Every turn advances `ind`, so `fuel = len` turns are
never used up. -/
def ap_add_points_loop (X : FloatOps F) (C : Collab F) (data : Mem) (len : Nat) :
    Nat → Nat → Bool → State F → State F
  | 0, _, _, s => s
  | fuel + 1, ind, first, s =>
    if (ind : Int) < toInt32 len then
      let r := get_route_point X data ind
      let p := r.1
      let ind := r.2
      let res := C.autopilot_add_point s.trace p first
      let s := s.call (.autopilot_add_point p first res)
      let first := false
      if !res then s else ap_add_points_loop X C data len fuel ind first s
    else s

/-- The loop of `CMD_AP_REPLACE_ROUTE`. -/
def ap_replace_route_loop (X : FloatOps F) (C : Collab F) (data : Mem) (len : Nat) :
    Nat → Nat → Bool → State F → State F
  | 0, _, _, s => s
  | fuel + 1, ind, first, s =>
    if (ind : Int) < toInt32 len then
      let r := get_route_point X data ind
      let p := r.1
      let ind := r.2
      if first then
        let res := C.autopilot_replace_route s.trace p
        let s := s.call (.autopilot_replace_route p res)
        ap_replace_route_loop X C data len fuel ind (!res) s
      else
        let res := C.autopilot_add_point s.trace p false
        let s := s.call (.autopilot_add_point p false res)
        ap_replace_route_loop X C data len fuel ind first s
    else s

/-- The loop of `CMD_AP_GET_ROUTE_PART`: `for (i = first; i < first + num; i++)`.
It makes at most `num` turns. -/
def ap_get_route_part_loop (X : FloatOps F) (C : Collab F) (bound : Int) :
    Nat → Int → SendBuf → State F → SendBuf × State F
  | 0, _, w, s => (w, s)
  | fuel + 1, i, w, s =>
    if i < bound then
      let rp := C.autopilot_get_route_point s.trace i
      let s := s.call (.autopilot_get_route_point i)
      let w := buffer_append_float32_auto X rp.px w
      let w := buffer_append_float32_auto X rp.py w
      let w := buffer_append_float32_auto X rp.pz w
      let w := buffer_append_float32_auto X rp.speed w
      let w := buffer_append_int32 rp.time w
      let w := buffer_append_uint32 rp.attributes w
      ap_get_route_part_loop X C bound fuel (i + 1) w s
    else (w, s)

/-- `case CMD_TERMINAL_CMD`; also returns the receive buffer, which it writes. -/
def cmd_terminal_cmd (data : Mem) (len func : Nat) (s : State F) : State F × Mem :=
  let s := commands_set_send_func func s
  let data := data.write len 0
  (s.call (.terminal_process_string (cstring data 0 ADDR_SPACE)), data)

/-- `case CMD_SET_POS: case CMD_SET_POS_ACK`. -/
def cmd_set_pos (X : FloatOps F) (K : Env) (data : Mem) (id_ret packet_id func : Nat)
    (s : State F) : State F :=
  let ind := 0
  let r := buffer_get_float32 X data (10 ^ 4) ind
  let x := r.1
  let ind := r.2
  let r := buffer_get_float32 X data (10 ^ 4) ind
  let y := r.1
  let ind := r.2
  let r := buffer_get_float32 X data (10 ^ 6) ind
  let angle := r.1
  let s := s.call (.pos_set_xya x y angle)
  if packet_id = K.code .CMD_SET_POS_ACK then
    let s := commands_set_send_func func s
    send_ack id_ret packet_id s
  else s

/-- `case CMD_SET_ENU_REF`. -/
def cmd_set_enu_ref (X : FloatOps F) (data : Mem) (id_ret packet_id func : Nat)
    (s : State F) : State F :=
  let s := commands_set_send_func func s
  let ind := 0
  let r := buffer_get_double64 X data (10 ^ 16) ind
  let lat := r.1
  let ind := r.2
  let r := buffer_get_double64 X data (10 ^ 16) ind
  let lon := r.1
  let ind := r.2
  let r := buffer_get_float32 X data (10 ^ 3) ind
  let height := r.1
  let s := s.call (.pos_gnss_set_enu_ref lat lon height)
  send_ack id_ret packet_id s

/-- `case CMD_GET_ENU_REF`. -/
def cmd_get_enu_ref (X : FloatOps F) (K : Env) (C : Collab F) (id_ret func : Nat)
    (s : State F) : State F :=
  let s := s.call .timeout_reset
  let s := commands_set_send_func func s
  let llh := C.pos_gnss_get_enu_ref s.trace
  let s := s.call .pos_gnss_get_enu_ref
  let w := SendBuf.mk s.m_send_buffer 0
  let w := w.put id_ret
  let w := w.put (K.code .CMD_GET_ENU_REF)
  let w := buffer_append_double64 X llh.1 (10 ^ 16) w
  let w := buffer_append_double64 X llh.2.1 (10 ^ 16) w
  let w := buffer_append_float32 X llh.2.2 (10 ^ 3) w
  send_buffer w s

/-- `case CMD_AP_ADD_POINTS`. -/
def cmd_ap_add_points (X : FloatOps F) (C : Collab F) (data : Mem)
    (len id_ret packet_id func : Nat) (s : State F) : State F :=
  let s := commands_set_send_func func s
  let s := ap_add_points_loop X C data len len 0 true s
  send_ack id_ret packet_id s

/-- `case CMD_AP_REMOVE_LAST_POINT`. -/
def cmd_ap_remove_last_point (id_ret packet_id func : Nat) (s : State F) : State F :=
  let s := commands_set_send_func func s
  let s := s.call .autopilot_remove_last_point
  send_ack id_ret packet_id s

/-- `case CMD_AP_CLEAR_POINTS`. -/
def cmd_ap_clear_points (id_ret packet_id func : Nat) (s : State F) : State F :=
  let s := commands_set_send_func func s
  let s := s.call .autopilot_clear_route
  send_ack id_ret packet_id s

/-- `case CMD_AP_GET_ROUTE_PART`.  The sum `first + num` is taken in 32 bits. -/
def cmd_ap_get_route_part (X : FloatOps F) (K : Env) (C : Collab F) (data : Mem)
    (id_ret : Nat) (s : State F) : State F :=
  let ind := 0
  let r := buffer_get_int32 data ind
  let first := r.1
  let ind := r.2
  let num := data ind
  if num > 20 then s
  else
    let w := SendBuf.mk s.m_send_buffer 0
    let w := w.put id_ret
    let w := w.put (K.code .CMD_AP_GET_ROUTE_PART)
    let route_len := C.autopilot_get_route_len s.trace
    let s := s.call .autopilot_get_route_len
    let w := buffer_append_int32 route_len w
    let r := ap_get_route_part_loop X C (toInt32 (toBits 32 (first + num))) num first w s
    send_buffer r.1 r.2

/-- `case CMD_AP_SET_ACTIVE`. -/
def cmd_ap_set_active (data : Mem) (id_ret packet_id func : Nat) (s : State F) : State F :=
  let s := commands_set_send_func func s
  let s := s.call (.autopilot_set_active (data 0))
  let s := if data 1 ≠ 0 then s.call .autopilot_reset_state else s
  send_ack id_ret packet_id s

/-- `case CMD_AP_REPLACE_ROUTE`. -/
def cmd_ap_replace_route (X : FloatOps F) (C : Collab F) (data : Mem)
    (len id_ret packet_id func : Nat) (s : State F) : State F :=
  let s := commands_set_send_func func s
  let s := ap_replace_route_loop X C data len len 0 true s
  send_ack id_ret packet_id s

/-- `case CMD_AP_SYNC_POINT`. -/
def cmd_ap_sync_point (data : Mem) (id_ret packet_id func : Nat) (s : State F) : State F :=
  let s := commands_set_send_func func s
  let ind := 0
  let r := buffer_get_int32 data ind
  let point := r.1
  let ind := r.2
  let r := buffer_get_int32 data ind
  let time := r.1
  let ind := r.2
  let r := buffer_get_int32 data ind
  let min_diff := r.1
  let s := s.call (.autopilot_sync_point point time min_diff)
  send_ack id_ret packet_id s

/-- `case CMD_SEND_RTCM_USB`. -/
def cmd_send_rtcm_usb (data : Mem) (len : Nat) (s : State F) : State F :=
  s.call (.pos_gnss_input_rtcm3 (data.bytes len) len)

/-- `case CMD_SET_YAW_OFFSET: case CMD_SET_YAW_OFFSET_ACK`. -/
def cmd_set_yaw_offset (X : FloatOps F) (K : Env) (data : Mem) (id_ret packet_id func : Nat)
    (s : State F) : State F :=
  let ind := 0
  let r := buffer_get_float32 X data (10 ^ 6) ind
  let angle := r.1
  let s := s.call (.pos_set_yaw_offset angle)
  if packet_id = K.code .CMD_SET_YAW_OFFSET_ACK then
    let s := commands_set_send_func func s
    send_ack id_ret packet_id s
  else s

/-- `CMD_SET_MAIN_CONFIG`, the assignments of the magnetometer, GPS, UWB and autopilot fields:
each reads at `ind` and advances it. -/
def set_main_config_general (X : FloatOps F) (data : Mem) (c : MAIN_CONFIG F) (ind : Nat) :
    MAIN_CONFIG F × Nat :=
  let c : MAIN_CONFIG F := { c with mag_use := data ind }
  let ind : Nat := ind + 1
  let c : MAIN_CONFIG F := { c with mag_comp := data ind }
  let ind : Nat := ind + 1
  let r : F × Nat := buffer_get_float32_auto X data ind
  let c : MAIN_CONFIG F := { c with yaw_mag_gain := r.1 }
  let ind : Nat := r.2
  let r : F × Nat := buffer_get_float32_auto X data ind
  let c : MAIN_CONFIG F := { c with mag_cal_cx := r.1 }
  let ind : Nat := r.2
  let r : F × Nat := buffer_get_float32_auto X data ind
  let c : MAIN_CONFIG F := { c with mag_cal_cy := r.1 }
  let ind : Nat := r.2
  let r : F × Nat := buffer_get_float32_auto X data ind
  let c : MAIN_CONFIG F := { c with mag_cal_cz := r.1 }
  let ind : Nat := r.2
  let r : F × Nat := buffer_get_float32_auto X data ind
  let c : MAIN_CONFIG F := { c with mag_cal_xx := r.1 }
  let ind : Nat := r.2
  let r : F × Nat := buffer_get_float32_auto X data ind
  let c : MAIN_CONFIG F := { c with mag_cal_xy := r.1 }
  let ind : Nat := r.2
  let r : F × Nat := buffer_get_float32_auto X data ind
  let c : MAIN_CONFIG F := { c with mag_cal_xz := r.1 }
  let ind : Nat := r.2
  let r : F × Nat := buffer_get_float32_auto X data ind
  let c : MAIN_CONFIG F := { c with mag_cal_yx := r.1 }
  let ind : Nat := r.2
  let r : F × Nat := buffer_get_float32_auto X data ind
  let c : MAIN_CONFIG F := { c with mag_cal_yy := r.1 }
  let ind : Nat := r.2
  let r : F × Nat := buffer_get_float32_auto X data ind
  let c : MAIN_CONFIG F := { c with mag_cal_yz := r.1 }
  let ind : Nat := r.2
  let r : F × Nat := buffer_get_float32_auto X data ind
  let c : MAIN_CONFIG F := { c with mag_cal_zx := r.1 }
  let ind : Nat := r.2
  let r : F × Nat := buffer_get_float32_auto X data ind
  let c : MAIN_CONFIG F := { c with mag_cal_zy := r.1 }
  let ind : Nat := r.2
  let r : F × Nat := buffer_get_float32_auto X data ind
  let c : MAIN_CONFIG F := { c with mag_cal_zz := r.1 }
  let ind : Nat := r.2
  let r : F × Nat := buffer_get_float32_auto X data ind
  let c : MAIN_CONFIG F := { c with gps_ant_x := r.1 }
  let ind : Nat := r.2
  let r : F × Nat := buffer_get_float32_auto X data ind
  let c : MAIN_CONFIG F := { c with gps_ant_y := r.1 }
  let ind : Nat := r.2
  let c : MAIN_CONFIG F := { c with gps_comp := data ind }
  let ind : Nat := ind + 1
  let c : MAIN_CONFIG F := { c with gps_req_rtk := data ind }
  let ind : Nat := ind + 1
  let c : MAIN_CONFIG F := { c with gps_use_rtcm_base_as_enu_ref := data ind }
  let ind : Nat := ind + 1
  let r : F × Nat := buffer_get_float32_auto X data ind
  let c : MAIN_CONFIG F := { c with gps_corr_gain_stat := r.1 }
  let ind : Nat := r.2
  let r : F × Nat := buffer_get_float32_auto X data ind
  let c : MAIN_CONFIG F := { c with gps_corr_gain_dyn := r.1 }
  let ind : Nat := r.2
  let r : F × Nat := buffer_get_float32_auto X data ind
  let c : MAIN_CONFIG F := { c with gps_corr_gain_yaw := r.1 }
  let ind : Nat := r.2
  let c : MAIN_CONFIG F := { c with gps_send_nmea := data ind }
  let ind : Nat := ind + 1
  let c : MAIN_CONFIG F := { c with gps_use_ubx_info := data ind }
  let ind : Nat := ind + 1
  let r : F × Nat := buffer_get_float32_auto X data ind
  let c : MAIN_CONFIG F := { c with gps_ubx_max_acc := r.1 }
  let ind : Nat := r.2
  let r : F × Nat := buffer_get_float32_auto X data ind
  let c : MAIN_CONFIG F := { c with uwb_max_corr := r.1 }
  let ind : Nat := r.2
  let c : MAIN_CONFIG F := { c with ap_repeat_routes := data ind }
  let ind : Nat := ind + 1
  let r : F × Nat := buffer_get_float32_auto X data ind
  let c : MAIN_CONFIG F := { c with ap_base_rad := r.1 }
  let ind : Nat := r.2
  let r : F × Nat := buffer_get_float32_auto X data ind
  let c : MAIN_CONFIG F := { c with ap_rad_time_ahead := r.1 }
  let ind : Nat := r.2
  let c : MAIN_CONFIG F := { c with ap_mode_time := data ind }
  let ind : Nat := ind + 1
  let r : F × Nat := buffer_get_float32_auto X data ind
  let c : MAIN_CONFIG F := { c with ap_max_speed := r.1 }
  let ind : Nat := r.2
  let r : Int × Nat := buffer_get_int32 data ind
  let c : MAIN_CONFIG F := { c with ap_time_add_repeat_ms := r.1 }
  let ind : Nat := r.2
  (c, ind)

/-- `CMD_SET_MAIN_CONFIG`, the assignments of the logging fields:
each reads at `ind` and advances it. -/
def set_main_config_log (data : Mem) (c : MAIN_CONFIG F) (ind : Nat) :
    MAIN_CONFIG F × Nat :=
  let r : Int × Nat := buffer_get_int16 data ind
  let c : MAIN_CONFIG F := { c with log_rate_hz := r.1 }
  let ind : Nat := r.2
  let c : MAIN_CONFIG F := { c with log_en := data ind }
  let ind : Nat := ind + 1
  let c : MAIN_CONFIG F := { c with log_name := cstring data ind ADDR_SPACE }
  let ind : Nat := ind + (strlen c.log_name + 1)
  let c : MAIN_CONFIG F := { c with log_mode_ext := data ind }
  let ind : Nat := ind + 1
  let r : Nat × Nat := buffer_get_uint32 data ind
  let c : MAIN_CONFIG F := { c with log_uart_baud := r.1 }
  let ind : Nat := r.2
  (c, ind)

/-- `CMD_SET_MAIN_CONFIG`, the assignments of the car settings: each reads at `ind`
and advances it. -/
def set_main_config_car (X : FloatOps F) (data : Mem) (c : MAIN_CONFIG F) (ind : Nat) :
    MAIN_CONFIG F × Nat :=
  let c : MAIN_CONFIG F := { c with car := { c.car with yaw_use_odometry := data ind } }
  let ind : Nat := ind + 1
  let r : F × Nat := buffer_get_float32_auto X data ind
  let c : MAIN_CONFIG F := { c with car := { c.car with yaw_imu_gain := r.1 } }
  let ind : Nat := r.2
  let c : MAIN_CONFIG F := { c with car := { c.car with disable_motor := data ind } }
  let ind : Nat := ind + 1
  let c : MAIN_CONFIG F := { c with car := { c.car with simulate_motor := data ind } }
  let ind : Nat := ind + 1
  let c : MAIN_CONFIG F := { c with car := { c.car with clamp_imu_yaw_stationary := data ind } }
  let ind : Nat := ind + 1
  let c : MAIN_CONFIG F := { c with car := { c.car with use_uwb_pos := data ind } }
  let ind : Nat := ind + 1
  let r : F × Nat := buffer_get_float32_auto X data ind
  let c : MAIN_CONFIG F := { c with car := { c.car with gear_ratio := r.1 } }
  let ind : Nat := r.2
  let r : F × Nat := buffer_get_float32_auto X data ind
  let c : MAIN_CONFIG F := { c with car := { c.car with wheel_diam := r.1 } }
  let ind : Nat := r.2
  let r : F × Nat := buffer_get_float32_auto X data ind
  let c : MAIN_CONFIG F := { c with car := { c.car with motor_poles := r.1 } }
  let ind : Nat := r.2
  let r : F × Nat := buffer_get_float32_auto X data ind
  let c : MAIN_CONFIG F := { c with car := { c.car with steering_max_angle_rad := r.1 } }
  let ind : Nat := r.2
  let r : F × Nat := buffer_get_float32_auto X data ind
  let c : MAIN_CONFIG F := { c with car := { c.car with steering_center := r.1 } }
  let ind : Nat := r.2
  let r : F × Nat := buffer_get_float32_auto X data ind
  let c : MAIN_CONFIG F := { c with car := { c.car with steering_range := r.1 } }
  let ind : Nat := r.2
  let r : F × Nat := buffer_get_float32_auto X data ind
  let c : MAIN_CONFIG F := { c with car := { c.car with steering_ramp_time := r.1 } }
  let ind : Nat := r.2
  let r : F × Nat := buffer_get_float32_auto X data ind
  let c : MAIN_CONFIG F := { c with car := { c.car with axis_distance := r.1 } }
  let ind : Nat := r.2
  (c, ind)

/-- `CMD_SET_MAIN_CONFIG`, the assignments of the multirotor settings: each reads at `ind`
and advances it. -/
def set_main_config_mr (X : FloatOps F) (data : Mem) (c : MAIN_CONFIG F) (ind : Nat) :
    MAIN_CONFIG F × Nat :=
  let r : F × Nat := buffer_get_float32_auto X data ind
  let c : MAIN_CONFIG F := { c with mr := { c.mr with vel_decay_e := r.1 } }
  let ind : Nat := r.2
  let r : F × Nat := buffer_get_float32_auto X data ind
  let c : MAIN_CONFIG F := { c with mr := { c.mr with vel_decay_l := r.1 } }
  let ind : Nat := r.2
  let r : F × Nat := buffer_get_float32_auto X data ind
  let c : MAIN_CONFIG F := { c with mr := { c.mr with vel_max := r.1 } }
  let ind : Nat := r.2
  let r : F × Nat := buffer_get_float32_auto X data ind
  let c : MAIN_CONFIG F := { c with mr := { c.mr with map_min_x := r.1 } }
  let ind : Nat := r.2
  let r : F × Nat := buffer_get_float32_auto X data ind
  let c : MAIN_CONFIG F := { c with mr := { c.mr with map_max_x := r.1 } }
  let ind : Nat := r.2
  let r : F × Nat := buffer_get_float32_auto X data ind
  let c : MAIN_CONFIG F := { c with mr := { c.mr with map_min_y := r.1 } }
  let ind : Nat := r.2
  let r : F × Nat := buffer_get_float32_auto X data ind
  let c : MAIN_CONFIG F := { c with mr := { c.mr with map_max_y := r.1 } }
  let ind : Nat := r.2
  let r : F × Nat := buffer_get_float32_auto X data ind
  let c : MAIN_CONFIG F := { c with mr := { c.mr with vel_gain_p := r.1 } }
  let ind : Nat := r.2
  let r : F × Nat := buffer_get_float32_auto X data ind
  let c : MAIN_CONFIG F := { c with mr := { c.mr with vel_gain_i := r.1 } }
  let ind : Nat := r.2
  let r : F × Nat := buffer_get_float32_auto X data ind
  let c : MAIN_CONFIG F := { c with mr := { c.mr with vel_gain_d := r.1 } }
  let ind : Nat := r.2
  let r : F × Nat := buffer_get_float32_auto X data ind
  let c : MAIN_CONFIG F := { c with mr := { c.mr with tilt_gain_p := r.1 } }
  let ind : Nat := r.2
  let r : F × Nat := buffer_get_float32_auto X data ind
  let c : MAIN_CONFIG F := { c with mr := { c.mr with tilt_gain_i := r.1 } }
  let ind : Nat := r.2
  let r : F × Nat := buffer_get_float32_auto X data ind
  let c : MAIN_CONFIG F := { c with mr := { c.mr with tilt_gain_d := r.1 } }
  let ind : Nat := r.2
  let r : F × Nat := buffer_get_float32_auto X data ind
  let c : MAIN_CONFIG F := { c with mr := { c.mr with max_corr_error := r.1 } }
  let ind : Nat := r.2
  let r : F × Nat := buffer_get_float32_auto X data ind
  let c : MAIN_CONFIG F := { c with mr := { c.mr with max_tilt_error := r.1 } }
  let ind : Nat := r.2
  let r : F × Nat := buffer_get_float32_auto X data ind
  let c : MAIN_CONFIG F := { c with mr := { c.mr with ctrl_gain_roll_p := r.1 } }
  let ind : Nat := r.2
  let r : F × Nat := buffer_get_float32_auto X data ind
  let c : MAIN_CONFIG F := { c with mr := { c.mr with ctrl_gain_roll_i := r.1 } }
  let ind : Nat := r.2
  let r : F × Nat := buffer_get_float32_auto X data ind
  let c : MAIN_CONFIG F := { c with mr := { c.mr with ctrl_gain_roll_dp := r.1 } }
  let ind : Nat := r.2
  let r : F × Nat := buffer_get_float32_auto X data ind
  let c : MAIN_CONFIG F := { c with mr := { c.mr with ctrl_gain_roll_de := r.1 } }
  let ind : Nat := r.2
  let r : F × Nat := buffer_get_float32_auto X data ind
  let c : MAIN_CONFIG F := { c with mr := { c.mr with ctrl_gain_pitch_p := r.1 } }
  let ind : Nat := r.2
  let r : F × Nat := buffer_get_float32_auto X data ind
  let c : MAIN_CONFIG F := { c with mr := { c.mr with ctrl_gain_pitch_i := r.1 } }
  let ind : Nat := r.2
  let r : F × Nat := buffer_get_float32_auto X data ind
  let c : MAIN_CONFIG F := { c with mr := { c.mr with ctrl_gain_pitch_dp := r.1 } }
  let ind : Nat := r.2
  let r : F × Nat := buffer_get_float32_auto X data ind
  let c : MAIN_CONFIG F := { c with mr := { c.mr with ctrl_gain_pitch_de := r.1 } }
  let ind : Nat := r.2
  let r : F × Nat := buffer_get_float32_auto X data ind
  let c : MAIN_CONFIG F := { c with mr := { c.mr with ctrl_gain_yaw_p := r.1 } }
  let ind : Nat := r.2
  let r : F × Nat := buffer_get_float32_auto X data ind
  let c : MAIN_CONFIG F := { c with mr := { c.mr with ctrl_gain_yaw_i := r.1 } }
  let ind : Nat := r.2
  let r : F × Nat := buffer_get_float32_auto X data ind
  let c : MAIN_CONFIG F := { c with mr := { c.mr with ctrl_gain_yaw_dp := r.1 } }
  let ind : Nat := r.2
  let r : F × Nat := buffer_get_float32_auto X data ind
  let c : MAIN_CONFIG F := { c with mr := { c.mr with ctrl_gain_yaw_de := r.1 } }
  let ind : Nat := r.2
  let r : F × Nat := buffer_get_float32_auto X data ind
  let c : MAIN_CONFIG F := { c with mr := { c.mr with ctrl_gain_pos_p := r.1 } }
  let ind : Nat := r.2
  let r : F × Nat := buffer_get_float32_auto X data ind
  let c : MAIN_CONFIG F := { c with mr := { c.mr with ctrl_gain_pos_i := r.1 } }
  let ind : Nat := r.2
  let r : F × Nat := buffer_get_float32_auto X data ind
  let c : MAIN_CONFIG F := { c with mr := { c.mr with ctrl_gain_pos_d := r.1 } }
  let ind : Nat := r.2
  let r : F × Nat := buffer_get_float32_auto X data ind
  let c : MAIN_CONFIG F := { c with mr := { c.mr with ctrl_gain_alt_p := r.1 } }
  let ind : Nat := r.2
  let r : F × Nat := buffer_get_float32_auto X data ind
  let c : MAIN_CONFIG F := { c with mr := { c.mr with ctrl_gain_alt_i := r.1 } }
  let ind : Nat := r.2
  let r : F × Nat := buffer_get_float32_auto X data ind
  let c : MAIN_CONFIG F := { c with mr := { c.mr with ctrl_gain_alt_d := r.1 } }
  let ind : Nat := r.2
  let r : F × Nat := buffer_get_float32_auto X data ind
  let c : MAIN_CONFIG F := { c with mr := { c.mr with js_gain_tilt := r.1 } }
  let ind : Nat := r.2
  let r : F × Nat := buffer_get_float32_auto X data ind
  let c : MAIN_CONFIG F := { c with mr := { c.mr with js_gain_yaw := r.1 } }
  let ind : Nat := r.2
  let c : MAIN_CONFIG F := { c with mr := { c.mr with js_mode_rate := data ind } }
  let ind : Nat := ind + 1
  let c : MAIN_CONFIG F := { c with mr := { c.mr with motor_fl_f := data ind } }
  let ind : Nat := ind + 1
  let c : MAIN_CONFIG F := { c with mr := { c.mr with motor_bl_l := data ind } }
  let ind : Nat := ind + 1
  let c : MAIN_CONFIG F := { c with mr := { c.mr with motor_fr_r := data ind } }
  let ind : Nat := ind + 1
  let c : MAIN_CONFIG F := { c with mr := { c.mr with motor_br_b := data ind } }
  let ind : Nat := ind + 1
  let c : MAIN_CONFIG F := { c with mr := { c.mr with motors_x := data ind } }
  let ind : Nat := ind + 1
  let c : MAIN_CONFIG F := { c with mr := { c.mr with motors_cw := data ind } }
  let ind : Nat := ind + 1
  let r : Nat × Nat := buffer_get_uint16 data ind
  let c : MAIN_CONFIG F := { c with mr := { c.mr with motor_pwm_min_us := r.1 } }
  let ind : Nat := r.2
  let r : Nat × Nat := buffer_get_uint16 data ind
  let c : MAIN_CONFIG F := { c with mr := { c.mr with motor_pwm_max_us := r.1 } }
  let ind : Nat := r.2
  (c, ind)

/-- `CMD_GET_MAIN_CONFIG`, the stores of the magnetometer, GPS, UWB and autopilot fields of `main_cfg_tmp`. -/
def get_main_config_general (X : FloatOps F) (main_cfg_tmp : MAIN_CONFIG F)
    (w : SendBuf) : SendBuf :=
  let w : SendBuf := w.put main_cfg_tmp.mag_use
  let w : SendBuf := w.put main_cfg_tmp.mag_comp
  let w : SendBuf := buffer_append_float32_auto X main_cfg_tmp.yaw_mag_gain w
  let w : SendBuf := buffer_append_float32_auto X main_cfg_tmp.mag_cal_cx w
  let w : SendBuf := buffer_append_float32_auto X main_cfg_tmp.mag_cal_cy w
  let w : SendBuf := buffer_append_float32_auto X main_cfg_tmp.mag_cal_cz w
  let w : SendBuf := buffer_append_float32_auto X main_cfg_tmp.mag_cal_xx w
  let w : SendBuf := buffer_append_float32_auto X main_cfg_tmp.mag_cal_xy w
  let w : SendBuf := buffer_append_float32_auto X main_cfg_tmp.mag_cal_xz w
  let w : SendBuf := buffer_append_float32_auto X main_cfg_tmp.mag_cal_yx w
  let w : SendBuf := buffer_append_float32_auto X main_cfg_tmp.mag_cal_yy w
  let w : SendBuf := buffer_append_float32_auto X main_cfg_tmp.mag_cal_yz w
  let w : SendBuf := buffer_append_float32_auto X main_cfg_tmp.mag_cal_zx w
  let w : SendBuf := buffer_append_float32_auto X main_cfg_tmp.mag_cal_zy w
  let w : SendBuf := buffer_append_float32_auto X main_cfg_tmp.mag_cal_zz w
  let w : SendBuf := buffer_append_float32_auto X main_cfg_tmp.gps_ant_x w
  let w : SendBuf := buffer_append_float32_auto X main_cfg_tmp.gps_ant_y w
  let w : SendBuf := w.put main_cfg_tmp.gps_comp
  let w : SendBuf := w.put main_cfg_tmp.gps_req_rtk
  let w : SendBuf := w.put main_cfg_tmp.gps_use_rtcm_base_as_enu_ref
  let w : SendBuf := buffer_append_float32_auto X main_cfg_tmp.gps_corr_gain_stat w
  let w : SendBuf := buffer_append_float32_auto X main_cfg_tmp.gps_corr_gain_dyn w
  let w : SendBuf := buffer_append_float32_auto X main_cfg_tmp.gps_corr_gain_yaw w
  let w : SendBuf := w.put main_cfg_tmp.gps_send_nmea
  let w : SendBuf := w.put main_cfg_tmp.gps_use_ubx_info
  let w : SendBuf := buffer_append_float32_auto X main_cfg_tmp.gps_ubx_max_acc w
  let w : SendBuf := buffer_append_float32_auto X main_cfg_tmp.uwb_max_corr w
  let w : SendBuf := w.put main_cfg_tmp.ap_repeat_routes
  let w : SendBuf := buffer_append_float32_auto X main_cfg_tmp.ap_base_rad w
  let w : SendBuf := buffer_append_float32_auto X main_cfg_tmp.ap_rad_time_ahead w
  let w : SendBuf := w.put main_cfg_tmp.ap_mode_time
  let w : SendBuf := buffer_append_float32_auto X main_cfg_tmp.ap_max_speed w
  let w : SendBuf := buffer_append_int32 main_cfg_tmp.ap_time_add_repeat_ms w
  w

/-- `CMD_GET_MAIN_CONFIG`, the stores of the logging fields of `main_cfg_tmp`. -/
def get_main_config_log (main_config : MAIN_CONFIG F) (main_cfg_tmp : MAIN_CONFIG F)
    (w : SendBuf) : SendBuf :=
  let w : SendBuf := buffer_append_int16 main_cfg_tmp.log_rate_hz w
  let w : SendBuf := w.put main_cfg_tmp.log_en
  let w : SendBuf := { w with buf := strcpy w.buf w.send_index main_cfg_tmp.log_name }
  let w : SendBuf := { w with send_index := w.send_index + (strlen main_config.log_name + 1) }
  let w : SendBuf := w.put main_cfg_tmp.log_mode_ext
  let w : SendBuf := buffer_append_uint32 main_cfg_tmp.log_uart_baud w
  w

/-- `CMD_GET_MAIN_CONFIG`, the stores of the car settings of `main_cfg_tmp`. -/
def get_main_config_car (X : FloatOps F) (main_cfg_tmp : MAIN_CONFIG F)
    (w : SendBuf) : SendBuf :=
  let w : SendBuf := w.put main_cfg_tmp.car.yaw_use_odometry
  let w : SendBuf := buffer_append_float32_auto X main_cfg_tmp.car.yaw_imu_gain w
  let w : SendBuf := w.put main_cfg_tmp.car.disable_motor
  let w : SendBuf := w.put main_cfg_tmp.car.simulate_motor
  let w : SendBuf := w.put main_cfg_tmp.car.clamp_imu_yaw_stationary
  let w : SendBuf := w.put main_cfg_tmp.car.use_uwb_pos
  let w : SendBuf := buffer_append_float32_auto X main_cfg_tmp.car.gear_ratio w
  let w : SendBuf := buffer_append_float32_auto X main_cfg_tmp.car.wheel_diam w
  let w : SendBuf := buffer_append_float32_auto X main_cfg_tmp.car.motor_poles w
  let w : SendBuf := buffer_append_float32_auto X main_cfg_tmp.car.steering_max_angle_rad w
  let w : SendBuf := buffer_append_float32_auto X main_cfg_tmp.car.steering_center w
  let w : SendBuf := buffer_append_float32_auto X main_cfg_tmp.car.steering_range w
  let w : SendBuf := buffer_append_float32_auto X main_cfg_tmp.car.steering_ramp_time w
  let w : SendBuf := buffer_append_float32_auto X main_cfg_tmp.car.axis_distance w
  w

/-- `CMD_GET_MAIN_CONFIG`, the stores of the multirotor settings of `main_cfg_tmp`. -/
def get_main_config_mr (X : FloatOps F) (main_cfg_tmp : MAIN_CONFIG F)
    (w : SendBuf) : SendBuf :=
  let w : SendBuf := buffer_append_float32_auto X main_cfg_tmp.mr.vel_decay_e w
  let w : SendBuf := buffer_append_float32_auto X main_cfg_tmp.mr.vel_decay_l w
  let w : SendBuf := buffer_append_float32_auto X main_cfg_tmp.mr.vel_max w
  let w : SendBuf := buffer_append_float32_auto X main_cfg_tmp.mr.map_min_x w
  let w : SendBuf := buffer_append_float32_auto X main_cfg_tmp.mr.map_max_x w
  let w : SendBuf := buffer_append_float32_auto X main_cfg_tmp.mr.map_min_y w
  let w : SendBuf := buffer_append_float32_auto X main_cfg_tmp.mr.map_max_y w
  let w : SendBuf := buffer_append_float32_auto X main_cfg_tmp.mr.vel_gain_p w
  let w : SendBuf := buffer_append_float32_auto X main_cfg_tmp.mr.vel_gain_i w
  let w : SendBuf := buffer_append_float32_auto X main_cfg_tmp.mr.vel_gain_d w
  let w : SendBuf := buffer_append_float32_auto X main_cfg_tmp.mr.tilt_gain_p w
  let w : SendBuf := buffer_append_float32_auto X main_cfg_tmp.mr.tilt_gain_i w
  let w : SendBuf := buffer_append_float32_auto X main_cfg_tmp.mr.tilt_gain_d w
  let w : SendBuf := buffer_append_float32_auto X main_cfg_tmp.mr.max_corr_error w
  let w : SendBuf := buffer_append_float32_auto X main_cfg_tmp.mr.max_tilt_error w
  let w : SendBuf := buffer_append_float32_auto X main_cfg_tmp.mr.ctrl_gain_roll_p w
  let w : SendBuf := buffer_append_float32_auto X main_cfg_tmp.mr.ctrl_gain_roll_i w
  let w : SendBuf := buffer_append_float32_auto X main_cfg_tmp.mr.ctrl_gain_roll_dp w
  let w : SendBuf := buffer_append_float32_auto X main_cfg_tmp.mr.ctrl_gain_roll_de w
  let w : SendBuf := buffer_append_float32_auto X main_cfg_tmp.mr.ctrl_gain_pitch_p w
  let w : SendBuf := buffer_append_float32_auto X main_cfg_tmp.mr.ctrl_gain_pitch_i w
  let w : SendBuf := buffer_append_float32_auto X main_cfg_tmp.mr.ctrl_gain_pitch_dp w
  let w : SendBuf := buffer_append_float32_auto X main_cfg_tmp.mr.ctrl_gain_pitch_de w
  let w : SendBuf := buffer_append_float32_auto X main_cfg_tmp.mr.ctrl_gain_yaw_p w
  let w : SendBuf := buffer_append_float32_auto X main_cfg_tmp.mr.ctrl_gain_yaw_i w
  let w : SendBuf := buffer_append_float32_auto X main_cfg_tmp.mr.ctrl_gain_yaw_dp w
  let w : SendBuf := buffer_append_float32_auto X main_cfg_tmp.mr.ctrl_gain_yaw_de w
  let w : SendBuf := buffer_append_float32_auto X main_cfg_tmp.mr.ctrl_gain_pos_p w
  let w : SendBuf := buffer_append_float32_auto X main_cfg_tmp.mr.ctrl_gain_pos_i w
  let w : SendBuf := buffer_append_float32_auto X main_cfg_tmp.mr.ctrl_gain_pos_d w
  let w : SendBuf := buffer_append_float32_auto X main_cfg_tmp.mr.ctrl_gain_alt_p w
  let w : SendBuf := buffer_append_float32_auto X main_cfg_tmp.mr.ctrl_gain_alt_i w
  let w : SendBuf := buffer_append_float32_auto X main_cfg_tmp.mr.ctrl_gain_alt_d w
  let w : SendBuf := buffer_append_float32_auto X main_cfg_tmp.mr.js_gain_tilt w
  let w : SendBuf := buffer_append_float32_auto X main_cfg_tmp.mr.js_gain_yaw w
  let w : SendBuf := w.put main_cfg_tmp.mr.js_mode_rate
  let w : SendBuf := w.put main_cfg_tmp.mr.motor_fl_f
  let w : SendBuf := w.put main_cfg_tmp.mr.motor_bl_l
  let w : SendBuf := w.put main_cfg_tmp.mr.motor_fr_r
  let w : SendBuf := w.put main_cfg_tmp.mr.motor_br_b
  let w : SendBuf := w.put main_cfg_tmp.mr.motors_x
  let w : SendBuf := w.put main_cfg_tmp.mr.motors_cw
  let w : SendBuf := buffer_append_uint16 main_cfg_tmp.mr.motor_pwm_min_us w
  let w : SendBuf := buffer_append_uint16 main_cfg_tmp.mr.motor_pwm_max_us w
  w

/-- `case CMD_SET_MAIN_CONFIG`. -/
def cmd_set_main_config (X : FloatOps F) (data : Mem) (id_ret packet_id func : Nat)
    (s : State F) : State F :=
  let s := commands_set_send_func func s
  let ind := 0
  let r := set_main_config_general X data s.main_config ind
  let r := set_main_config_log data r.1 r.2
  let s := { s with main_config := r.1 }
  let s := s.call (.log_set_rate s.main_config.log_rate_hz)
  let s := s.call (.log_set_enabled s.main_config.log_en)
  let s := s.call (.log_set_name s.main_config.log_name)
  let r := set_main_config_car X data s.main_config r.2
  let s := { s with main_config := r.1 }
  let s := s.call (.motor_sim_set_running s.main_config.car.simulate_motor)
  let r := set_main_config_mr X data s.main_config r.2
  let s := { s with main_config := r.1 }
  let s := s.call (.conf_general_store_main_config s.main_config)
  send_ack id_ret packet_id s

/-- `case CMD_GET_MAIN_CONFIG: case CMD_GET_MAIN_CONFIG_DEFAULT`. -/
def cmd_get_main_config (X : FloatOps F) (K : Env) (C : Collab F) (id_ret packet_id func : Nat)
    (s : State F) : State F :=
  let s := commands_set_send_func func s
  let main_cfg_tmp :=
    if packet_id = K.code .CMD_GET_MAIN_CONFIG then s.main_config
    else C.conf_general_get_default_main_config s.trace
  let s :=
    if packet_id = K.code .CMD_GET_MAIN_CONFIG then s
    else s.call .conf_general_get_default_main_config
  let w := SendBuf.mk s.m_send_buffer 0
  let w := w.put id_ret
  let w := w.put packet_id
  let w := get_main_config_general X main_cfg_tmp w
  let w := get_main_config_log s.main_config main_cfg_tmp w
  let w := get_main_config_car X main_cfg_tmp w
  let w := get_main_config_mr X main_cfg_tmp w
  send_buffer w s

/-- The text of the warning printed for a stray RTCM3 preamble. -/
def rtcm3_warning : List Nat := "Warning: got unhandled RTCM3PREAMB".toList.map Char.toNat

/-- `commands_process_packet(data, len, func)`.  Returns the state and the
receive buffer after the call. -/
def commands_process_packet (X : FloatOps F) (K : Env) (C : Collab F)
    (data : Mem) (len func : Nat) (s : State F) : State F × Mem :=
  if len = 0 then (s, data)
  else if data 0 = RTCM3PREAMB then (commands_printf K rtcm3_warning s, data)
  else
    let data0 := data
    let receiver_id := data 0
    let packet_id := data 1
    let data := data.shift 2
    let len := (len + (2 ^ 32 - 2)) % 2 ^ 32
    if receiver_id = K.main_id ∨ receiver_id = K.ID_ALL ∨ receiver_id = K.ID_CAR_CLIENT then
      let id_ret := if receiver_id = K.ID_CAR_CLIENT then K.ID_CAR_CLIENT else K.main_id
      let r : State F × Mem :=
        match K.cmd packet_id with
        | some .CMD_HEARTBEAT => (s.call .timeout_reset, data)
        | some .CMD_TERMINAL_CMD => cmd_terminal_cmd data len func s
        | some .CMD_SET_POS => (cmd_set_pos X K data id_ret packet_id func s, data)
        | some .CMD_SET_POS_ACK => (cmd_set_pos X K data id_ret packet_id func s, data)
        | some .CMD_SET_ENU_REF => (cmd_set_enu_ref X data id_ret packet_id func s, data)
        | some .CMD_GET_ENU_REF => (cmd_get_enu_ref X K C id_ret func s, data)
        | some .CMD_AP_ADD_POINTS => (cmd_ap_add_points X C data len id_ret packet_id func s, data)
        | some .CMD_AP_REMOVE_LAST_POINT => (cmd_ap_remove_last_point id_ret packet_id func s, data)
        | some .CMD_AP_CLEAR_POINTS => (cmd_ap_clear_points id_ret packet_id func s, data)
        | some .CMD_AP_GET_ROUTE_PART => (cmd_ap_get_route_part X K C data id_ret s, data)
        | some .CMD_AP_SET_ACTIVE => (cmd_ap_set_active data id_ret packet_id func s, data)
        | some .CMD_AP_REPLACE_ROUTE =>
          (cmd_ap_replace_route X C data len id_ret packet_id func s, data)
        | some .CMD_AP_SYNC_POINT => (cmd_ap_sync_point data id_ret packet_id func s, data)
        | some .CMD_SEND_RTCM_USB => (cmd_send_rtcm_usb data len s, data)
        | some .CMD_SET_YAW_OFFSET => (cmd_set_yaw_offset X K data id_ret packet_id func s, data)
        | some .CMD_SET_YAW_OFFSET_ACK =>
          (cmd_set_yaw_offset X K data id_ret packet_id func s, data)
        | some .CMD_SET_MAIN_CONFIG => (cmd_set_main_config X data id_ret packet_id func s, data)
        | some .CMD_GET_MAIN_CONFIG => (cmd_get_main_config X K C id_ret packet_id func s, data)
        | some .CMD_GET_MAIN_CONFIG_DEFAULT =>
          (cmd_get_main_config X K C id_ret packet_id func s, data)
        | _ => (s, data)
      let s := r.1
      let data := r.2
      (s.call (.commands_specific_process_packet packet_id (data.bytes len) len id_ret func),
        fun j => if j < 2 then data0 j else data (j - 2))
    else (s, data0)

/-- `commands_send_nmea(data, len)` for a send buffer of `PACKET_MAX_PL_LEN`
bytes (`m_send_buffer[PACKET_MAX_PL_LEN]`; the constant is declared outside
`commands.c` and is a parameter here).  `memcpy` stores the `len` bytes at
`data` behind the two header bytes, and `len` is not compared with the size of
the buffer: when the header and the sentence do not fit, a store falls outside
the array and the call has no defined result (`none`).  The cursor is an
`int32_t` to which the `unsigned int` `len` is added; it is handed to
`commands_send_packet` as `unsigned int`. -/
def commands_send_nmea (K : Env) (PACKET_MAX_PL_LEN : Nat) (data : Mem) (len : Nat)
    (s : State F) : Option (State F) :=
  if s.main_config.gps_send_nmea ≠ 0 then
    let w := SendBuf.mk s.m_send_buffer 0
    let w := w.put K.main_id
    let w := w.put (K.code CMD_PACKET.CMD_SEND_NMEA_RADIO)
    if w.send_index + len ≤ PACKET_MAX_PL_LEN then
      let m := (w.puts (data.bytes len)).buf
      let send_index : Int := toInt32 (w.send_index + len)
      some (commands_send_packet m (toBits 32 send_index) { s with m_send_buffer := m })
    else none
  else some s

/-! ## Wire image of the configuration -/

/-- Memory `m` holds the bytes of `l` from offset `i` on. -/
def Holds (m : Mem) (i : Nat) (l : List Nat) : Prop :=
  ∀ j, j < l.length → m (i + j) = l.getD j 0

/-- The bytes stored by `buffer_append_uint16`. -/
def be16 (n : Nat) : List Nat := [n / 2 ^ 8 % 256, n % 256]

/-- The bytes stored by `buffer_append_uint32`. -/
def be32 (n : Nat) : List Nat := [n / 2 ^ 24 % 256, n / 2 ^ 16 % 256, n / 2 ^ 8 % 256, n % 256]

/-- The bytes stored by `buffer_append_float32_auto`. -/
def autoWire (X : FloatOps F) (x : F) : List Nat := (X.append_float32_auto x).map fun v => v % 256

/-- The bytes stored by `strcpy`. -/
def cstrWire (s : List Nat) : List Nat := (s.takeWhile (fun c => c ≠ 0) ++ [0]).map fun v => v % 256

/-- The adaptive decoder undoes the adaptive encoder: wherever the bytes of an
encoded value lie in memory, decoding there gives the value back and stops
behind them. -/
def AutoRoundTrip (X : FloatOps F) : Prop :=
  ∀ (x : F) (m : Mem) (i : Nat), Holds m i (autoWire X x) →
    X.get_float32_auto m i = (x, i + (X.append_float32_auto x).length)

/-! ## A concrete instance, for evaluation -/

/-- Floating-point values replaced by integers: a fixed-point value is its raw
integer and the adaptive encoding is the 32-bit integer encoding. -/
def demoOps : FloatOps Int where
  float32_of_fixed raw _ := raw
  fixed_of_float32 x _ := x
  double64_of_fixed raw _ := raw
  fixed_of_double64 x _ := x
  append_float32_auto x := (buffer_append_int32 x ⟨fun _ => 0, 0⟩).bytes
  get_float32_auto m i := buffer_get_int32 m i

/-- Node id 1, broadcast id 255, car-client id 254; the command identifiers
are numbered in the order of `CMD_PACKET`. -/
def demoEnv : Env := ⟨1, 255, 254, fun c => c.toCtorIdx⟩

/-- Number of points a route has accepted through `autopilot_add_point`. -/
def acceptedPoints : List (Event F) → Nat
  | [] => 0
  | .autopilot_add_point _ _ true :: t => acceptedPoints t + 1
  | _ :: t => acceptedPoints t

/-- A configuration with every floating-point field `z`, every other field
zero and an empty log name. -/
def zeroConfig (z : F) : MAIN_CONFIG F :=
  ⟨0, 0, z, z, z, z, z, z, z, z, z, z, z, z, z, z, z, 0, 0, 0, z, z, z, 0, 0, z, z, 0, z, z, 0, z,
    0, 0, 0, [], 0, 0, ⟨0, z, 0, 0, 0, 0, z, z, z, z, z, z, z, z⟩,
    ⟨z, z, z, z, z, z, z, z, z, z, z, z, z, z, z, z, z, z, z, z, z, z, z, z, z, z, z, z, z, z, z, z,
      z, z, z, 0, 0, 0, 0, 0, 0, 0, 0, 0⟩⟩

/-- The configuration `zeroConfig 0` over the integers. -/
def demoConfig : MAIN_CONFIG Int := zeroConfig 0

/-- Floating-point values replaced by their 32-bit patterns: the adaptive
encoding stores the pattern in four bytes, most significant first. -/
def patternOps : FloatOps (Fin (2 ^ 32)) where
  float32_of_fixed raw _ := ⟨toBits 32 raw % 2 ^ 32, Nat.mod_lt _ (by decide)⟩
  fixed_of_float32 x _ := toInt32 x.val
  double64_of_fixed raw _ := ⟨toBits 32 raw % 2 ^ 32, Nat.mod_lt _ (by decide)⟩
  fixed_of_double64 x _ := toInt32 x.val
  append_float32_auto x := be32 x.val
  get_float32_auto m i :=
    (⟨(buffer_get_uint32 m i).1 % 2 ^ 32, Nat.mod_lt _ (by decide)⟩, i + 4)

/-- A route that holds at most `cap` points and accepts a replacement when
`replace_ok`; route point `i` has every field equal to `i`; the default
configuration is `demoConfig`. -/
def demoCollab (cap : Nat) (replace_ok : Bool) : Collab Int where
  autopilot_add_point t _ _ := decide (acceptedPoints t < cap)
  autopilot_replace_route _ _ := replace_ok
  autopilot_get_route_len _ := 7
  autopilot_get_route_point _ i := ⟨i, i, i, i, i, i.toNat⟩
  pos_gnss_get_enu_ref _ := (1, 2, 3)
  conf_general_get_default_main_config _ := demoConfig

/-- A state with zeroed buffers, the given active send function and live
configuration, and no call recorded. -/
def demoState (send_func : Nat) (conf : MAIN_CONFIG Int) : State Int :=
  ⟨fun _ => 0, send_func, fun _ => 0, conf, []⟩

/-- The 24 bytes of a route point whose six fields are `n, n+1, .., n+5`
(for `n + 5 < 256`). -/
def demoPoint (n : Nat) : List Nat :=
  [0, 0, 0, n, 0, 0, 0, n + 1, 0, 0, 0, n + 2, 0, 0, 0, n + 3, 0, 0, 0, n + 4, 0, 0, 0, n + 5]

/-! ## Vocabulary of the statements -/

/-- The reply id chosen for a packet whose receiver id is `receiver_id`. -/
def replyId (K : Env) (receiver_id : Nat) : Nat :=
  if receiver_id = K.ID_CAR_CLIENT then K.ID_CAR_CLIENT else K.main_id

/-- The packet passes the address filter. -/
def Accepted (K : Env) (data : Mem) (len : Nat) : Prop :=
  len ≠ 0 ∧ data 0 ≠ RTCM3PREAMB ∧
    (data 0 = K.main_id ∨ data 0 = K.ID_ALL ∨ data 0 = K.ID_CAR_CLIENT)

/-- The payload length after the two header bytes are dropped (`len -= 2` on
an `unsigned int`). -/
def payloadLen (len : Nat) : Nat := (len + (2 ^ 32 - 2)) % 2 ^ 32

/-- The call of the vehicle-specific dispatcher that ends the processing of an
accepted packet. -/
def specificCall (K : Env) (data : Mem) (len func : Nat) : Event F :=
  .commands_specific_process_packet (data 1) ((data.shift 2).bytes (payloadLen len))
    (payloadLen len) (replyId K (data 0)) func

/-- The `i`-th route point of a payload made of 24-byte route points. -/
def pointAt (X : FloatOps F) (payload : Mem) (i : Nat) : ROUTE_POINT F :=
  (get_route_point X payload (24 * i)).1

/-- The calls by which points `0 .. n-1` of a payload were offered to
`autopilot_add_point` and accepted, the first of them flagged as first. -/
def appended (X : FloatOps F) (payload : Mem) (n : Nat) : List (Event F) :=
  (List.range n).map fun j => .autopilot_add_point (pointAt X payload j) (decide (j = 0)) true

/-- The calls by which points `0 .. n-1` of a payload were offered to
`autopilot_replace_route` and rejected. -/
def replaced (X : FloatOps F) (payload : Mem) (n : Nat) : List (Event F) :=
  (List.range n).map fun j => .autopilot_replace_route (pointAt X payload j) false

/-- The record of calls `t` extended by offering the `n` points from index `j`
on to `autopilot_add_point`, none flagged as first, whatever the results. -/
def addsFrom (X : FloatOps F) (C : Collab F) (payload : Mem) :
    Nat → Nat → List (Event F) → List (Event F)
  | 0, _, t => t
  | n + 1, j, t =>
    addsFrom X C payload n (j + 1)
      (t ++ [.autopilot_add_point (pointAt X payload j) false
              (C.autopilot_add_point t (pointAt X payload j) false)])

/-- State `s'` is reached from `s` by recording further calls, each of which
satisfies `P`. -/
def Extends (P : Event F → Prop) (s s' : State F) : Prop :=
  ∃ evs, s'.trace = s.trace ++ evs ∧ ∀ e ∈ evs, P e

/-- Buffer `w'` continues `w`: the cursor did not move back and the bytes
before the cursor of `w` are as they were. -/
def SendBuf.Keeps (w w' : SendBuf) : Prop :=
  w.send_index ≤ w'.send_index ∧ ∀ i, i < w.send_index → w'.buf i = w.buf i

/-- The event, if it is a call of a send function, hands over data whose first
byte is `b`. -/
def StartsWith (b : Nat) (e : Event F) : Prop :=
  ∀ f d, e = .send f d → d.head? = some b

/-- The packets handed to send functions, in order. -/
def sentPackets : List (Event F) → List (List Nat)
  | [] => []
  | .send _ d :: t => d :: sentPackets t
  | _ :: t => sentPackets t


/-- A collaborator that rejects every point, reports an empty route and
answers every query with `z` and `zeroConfig z`. -/
def idleCollab (z : F) : Collab F where
  autopilot_add_point _ _ _ := false
  autopilot_replace_route _ _ := false
  autopilot_get_route_len _ := 0
  autopilot_get_route_point _ _ := ⟨z, z, z, z, 0, 0⟩
  pos_gnss_get_enu_ref _ := (z, z, z)
  conf_general_get_default_main_config _ := zeroConfig z

/-- A configuration over 32-bit patterns with log rate 50, logging enabled and
log name "trip1". -/
def tripConfig : MAIN_CONFIG (Fin (2 ^ 32)) :=
  { zeroConfig 5 with
    yaw_mag_gain := 1000000, ap_time_add_repeat_ms := -3, log_rate_hz := 50, log_en := 1,
    log_name := [116, 114, 105, 112, 49], log_uart_baud := 115200 }

/-- The event is a call into a collaborator other than the vehicle-specific
dispatcher: neither a call of a send function nor a call of the dispatcher. -/
def IsCall (e : Event F) : Prop :=
  (∀ f d, e ≠ .send f d) ∧ ∀ p d l i f, e ≠ .commands_specific_process_packet p d l i f

/-- The event is not a call of the vehicle-specific dispatcher. -/
def NotSpecific (e : Event F) : Prop :=
  ∀ p d l i f, e ≠ .commands_specific_process_packet p d l i f

/-- The payload lengths handed to `pos_gnss_input_rtcm3` and to the
vehicle-specific dispatcher, in call order. -/
def handedLengths : List (Event F) → List Nat
  | [] => []
  | .pos_gnss_input_rtcm3 _ len :: t => len :: handedLengths t
  | .commands_specific_process_packet _ _ len _ _ :: t => len :: handedLengths t
  | _ :: t => handedLengths t

/-- The bytes of one route point in a reply: the four adaptive floats `px`,
`py`, `pz`, `speed`, then `time` as `int32` and `attributes` as `uint32`. -/
def pointWire (X : FloatOps F) (rp : ROUTE_POINT F) : List Nat :=
  autoWire X rp.px ++ autoWire X rp.py ++ autoWire X rp.pz ++ autoWire X rp.speed
    ++ be32 (toBits 32 rp.time) ++ be32 rp.attributes

/-- The bytes of the `n` route points queried from index `i` on, in ascending
order, when `t` is the record of calls before the first query. -/
def routePartWire (X : FloatOps F) (C : Collab F) : Nat → Int → List (Event F) → List Nat
  | 0, _, _ => []
  | n + 1, i, t =>
    pointWire X (C.autopilot_get_route_point t i)
      ++ routePartWire X C n (i + 1) (t ++ [.autopilot_get_route_point i])

/-- The bytes stored by `buffer_append_int64` for the 64-bit pattern `n`. -/
def be64 (n : Nat) : List Nat := be32 (n / 2 ^ 32) ++ be32 n

/-- The bytes of an ENU reference `llh` on the wire: latitude and longitude as
64-bit fixed point with scale `10^16`, then the height as 32-bit fixed point
with scale `10^3`. -/
def enuWire (X : FloatOps F) (llh : F × F × F) : List Nat :=
  be64 (toBits 64 (X.fixed_of_double64 llh.1 (10 ^ 16)))
    ++ be64 (toBits 64 (X.fixed_of_double64 llh.2.1 (10 ^ 16)))
    ++ be32 (toBits 32 (X.fixed_of_float32 llh.2.2 (10 ^ 3)))

/-- The conditions under which the fields of a configuration fit their wire
format: a field sent in one byte is a byte, an integer field fits its width, and
the log name is a string of non-NUL bytes. -/
structure MAIN_CONFIG.Wire (c : MAIN_CONFIG F) : Prop where
  mag_use : c.mag_use < 256
  mag_comp : c.mag_comp < 256
  gps_comp : c.gps_comp < 256
  gps_req_rtk : c.gps_req_rtk < 256
  gps_use_rtcm_base_as_enu_ref : c.gps_use_rtcm_base_as_enu_ref < 256
  gps_send_nmea : c.gps_send_nmea < 256
  gps_use_ubx_info : c.gps_use_ubx_info < 256
  ap_repeat_routes : c.ap_repeat_routes < 256
  ap_mode_time : c.ap_mode_time < 256
  ap_time_add_repeat_ms : -2 ^ 31 ≤ c.ap_time_add_repeat_ms ∧ c.ap_time_add_repeat_ms < 2 ^ 31
  log_rate_hz : -2 ^ 15 ≤ c.log_rate_hz ∧ c.log_rate_hz < 2 ^ 15
  log_en : c.log_en < 256
  log_name : ∀ ch ∈ c.log_name, ch ≠ 0 ∧ ch < 256
  log_name_length : c.log_name.length < ADDR_SPACE
  log_mode_ext : c.log_mode_ext < 256
  log_uart_baud : c.log_uart_baud < 2 ^ 32
  car_yaw_use_odometry : c.car.yaw_use_odometry < 256
  car_disable_motor : c.car.disable_motor < 256
  car_simulate_motor : c.car.simulate_motor < 256
  car_clamp_imu_yaw_stationary : c.car.clamp_imu_yaw_stationary < 256
  car_use_uwb_pos : c.car.use_uwb_pos < 256
  mr_js_mode_rate : c.mr.js_mode_rate < 256
  mr_motor_fl_f : c.mr.motor_fl_f < 256
  mr_motor_bl_l : c.mr.motor_bl_l < 256
  mr_motor_fr_r : c.mr.motor_fr_r < 256
  mr_motor_br_b : c.mr.motor_br_b < 256
  mr_motors_x : c.mr.motors_x < 256
  mr_motors_cw : c.mr.motors_cw < 256
  mr_motor_pwm_min_us : c.mr.motor_pwm_min_us < 2 ^ 16
  mr_motor_pwm_max_us : c.mr.motor_pwm_max_us < 2 ^ 16

/-- The bytes of the magnetometer, GPS, UWB and autopilot fields, in wire order, followed by `tl`. -/
def generalWire (X : FloatOps F) (c : MAIN_CONFIG F) (tl : List Nat) : List Nat :=
  [c.mag_use % 256] ++ ([c.mag_comp % 256] ++ (autoWire X c.yaw_mag_gain ++ (autoWire X
    c.mag_cal_cx ++ (autoWire X c.mag_cal_cy ++ (autoWire X c.mag_cal_cz ++ (autoWire X
    c.mag_cal_xx ++ (autoWire X c.mag_cal_xy ++ (autoWire X c.mag_cal_xz ++ (autoWire X
    c.mag_cal_yx ++ (autoWire X c.mag_cal_yy ++ (autoWire X c.mag_cal_yz ++ (autoWire X
    c.mag_cal_zx ++ (autoWire X c.mag_cal_zy ++ (autoWire X c.mag_cal_zz ++ (autoWire X
    c.gps_ant_x ++ (autoWire X c.gps_ant_y ++ ([c.gps_comp % 256] ++ ([c.gps_req_rtk % 256] ++
    ([c.gps_use_rtcm_base_as_enu_ref % 256] ++ (autoWire X c.gps_corr_gain_stat ++ (autoWire X
    c.gps_corr_gain_dyn ++ (autoWire X c.gps_corr_gain_yaw ++ ([c.gps_send_nmea % 256] ++
    ([c.gps_use_ubx_info % 256] ++ (autoWire X c.gps_ubx_max_acc ++ (autoWire X c.uwb_max_corr
    ++ ([c.ap_repeat_routes % 256] ++ (autoWire X c.ap_base_rad ++ (autoWire X
    c.ap_rad_time_ahead ++ ([c.ap_mode_time % 256] ++ (autoWire X c.ap_max_speed ++ (be32
    (toBits 32 c.ap_time_add_repeat_ms) ++ (tl)))))))))))))))))))))))))))))))))

/-- The bytes of the logging fields, in wire order, followed by `tl`. -/
def logWire (c : MAIN_CONFIG F) (tl : List Nat) : List Nat :=
  be16 (toBits 16 c.log_rate_hz) ++ ([c.log_en % 256] ++ (cstrWire c.log_name ++
    ([c.log_mode_ext % 256] ++ (be32 c.log_uart_baud ++ (tl)))))

/-- The bytes of the car settings, in wire order, followed by `tl`. -/
def carWire (X : FloatOps F) (c : MAIN_CONFIG F) (tl : List Nat) : List Nat :=
  [c.car.yaw_use_odometry % 256] ++ (autoWire X c.car.yaw_imu_gain ++ ([c.car.disable_motor %
    256] ++ ([c.car.simulate_motor % 256] ++ ([c.car.clamp_imu_yaw_stationary % 256] ++
    ([c.car.use_uwb_pos % 256] ++ (autoWire X c.car.gear_ratio ++ (autoWire X c.car.wheel_diam
    ++ (autoWire X c.car.motor_poles ++ (autoWire X c.car.steering_max_angle_rad ++ (autoWire X
    c.car.steering_center ++ (autoWire X c.car.steering_range ++ (autoWire X
    c.car.steering_ramp_time ++ (autoWire X c.car.axis_distance ++ (tl))))))))))))))

/-- The bytes of the multirotor settings, in wire order, followed by `tl`. -/
def mrWire (X : FloatOps F) (c : MAIN_CONFIG F) (tl : List Nat) : List Nat :=
  autoWire X c.mr.vel_decay_e ++ (autoWire X c.mr.vel_decay_l ++ (autoWire X c.mr.vel_max ++
    (autoWire X c.mr.map_min_x ++ (autoWire X c.mr.map_max_x ++ (autoWire X c.mr.map_min_y ++
    (autoWire X c.mr.map_max_y ++ (autoWire X c.mr.vel_gain_p ++ (autoWire X c.mr.vel_gain_i ++
    (autoWire X c.mr.vel_gain_d ++ (autoWire X c.mr.tilt_gain_p ++ (autoWire X c.mr.tilt_gain_i
    ++ (autoWire X c.mr.tilt_gain_d ++ (autoWire X c.mr.max_corr_error ++ (autoWire X
    c.mr.max_tilt_error ++ (autoWire X c.mr.ctrl_gain_roll_p ++ (autoWire X
    c.mr.ctrl_gain_roll_i ++ (autoWire X c.mr.ctrl_gain_roll_dp ++ (autoWire X
    c.mr.ctrl_gain_roll_de ++ (autoWire X c.mr.ctrl_gain_pitch_p ++ (autoWire X
    c.mr.ctrl_gain_pitch_i ++ (autoWire X c.mr.ctrl_gain_pitch_dp ++ (autoWire X
    c.mr.ctrl_gain_pitch_de ++ (autoWire X c.mr.ctrl_gain_yaw_p ++ (autoWire X
    c.mr.ctrl_gain_yaw_i ++ (autoWire X c.mr.ctrl_gain_yaw_dp ++ (autoWire X
    c.mr.ctrl_gain_yaw_de ++ (autoWire X c.mr.ctrl_gain_pos_p ++ (autoWire X
    c.mr.ctrl_gain_pos_i ++ (autoWire X c.mr.ctrl_gain_pos_d ++ (autoWire X
    c.mr.ctrl_gain_alt_p ++ (autoWire X c.mr.ctrl_gain_alt_i ++ (autoWire X
    c.mr.ctrl_gain_alt_d ++ (autoWire X c.mr.js_gain_tilt ++ (autoWire X c.mr.js_gain_yaw ++
    ([c.mr.js_mode_rate % 256] ++ ([c.mr.motor_fl_f % 256] ++ ([c.mr.motor_bl_l % 256] ++
    ([c.mr.motor_fr_r % 256] ++ ([c.mr.motor_br_b % 256] ++ ([c.mr.motors_x % 256] ++
    ([c.mr.motors_cw % 256] ++ (be16 c.mr.motor_pwm_min_us ++ (be16 c.mr.motor_pwm_max_us ++
    (tl))))))))))))))))))))))))))))))))))))))))))))

/-- The wire image of a configuration: the payload of `CMD_SET_MAIN_CONFIG` and
of the reply to `CMD_GET_MAIN_CONFIG`. -/
def configWire (X : FloatOps F) (c : MAIN_CONFIG F) : List Nat :=
  generalWire X c (logWire c (carWire X c (mrWire X c [])))

/-! ## Basic facts about the embedding -/

@[simp] theorem call_trace (e : Event F) (s : State F) : (s.call e).trace = s.trace ++ [e] := rfl

@[simp] theorem call_m_send_func (e : Event F) (s : State F) :
    (s.call e).m_send_func = s.m_send_func := rfl

@[simp] theorem call_m_send_buffer (e : Event F) (s : State F) :
    (s.call e).m_send_buffer = s.m_send_buffer := rfl

@[simp] theorem call_main_config (e : Event F) (s : State F) :
    (s.call e).main_config = s.main_config := rfl

@[simp] theorem call_print_buffer (e : Event F) (s : State F) :
    (s.call e).print_buffer = s.print_buffer := rfl

theorem payloadLen_add_two (n : Nat) (h : n + 2 < 2 ^ 32) : payloadLen (n + 2) = n := by
  unfold payloadLen
  omega

theorem toInt32_of_lt (n : Nat) (h : n < 2 ^ 31) : toInt32 n = (n : Int) := by
  unfold toInt32
  have h1 : n % 2 ^ 32 = n := Nat.mod_eq_of_lt (by omega)
  rw [h1, if_pos h]

theorem bytes_write_succ (m : Mem) (i v : Nat) :
    (m.write i v).bytes (i + 1) = m.bytes i ++ [v % 256] := by
  unfold Mem.bytes
  rw [List.range_succ, List.map_append]
  congr 1
  · apply List.map_congr_left
    intro j hj
    have : j ≠ i := by
      have := List.mem_range.mp hj
      omega
    simp [Mem.write, this]
  · simp [Mem.write]

@[simp] theorem bytes_put (v : Nat) (w : SendBuf) : (w.put v).bytes = w.bytes ++ [v % 256] := by
  unfold SendBuf.bytes SendBuf.put
  exact bytes_write_succ w.buf w.send_index v

@[simp] theorem bytes_mk_zero (m : Mem) : (SendBuf.mk m 0).bytes = [] := rfl

theorem bytes_puts (l : List Nat) (w : SendBuf) :
    (w.puts l).bytes = w.bytes ++ l.map (fun v => v % 256) := by
  induction l generalizing w with
  | nil => simp [SendBuf.puts]
  | cons v l ih => simp [SendBuf.puts, ih]

/-- The acknowledgement block, when a send function is active. -/
theorem send_ack_eq (id_ret packet_id : Nat) (s : State F) (h : s.m_send_func ≠ 0) :
    send_ack id_ret packet_id s
      = { s with
          m_send_buffer := (((SendBuf.mk s.m_send_buffer 0).put id_ret).put packet_id).buf
          trace := s.trace ++ [.send s.m_send_func [id_ret % 256, packet_id % 256]] } := by
  have hb : (((SendBuf.mk s.m_send_buffer 0).put id_ret).put packet_id).bytes
      = [id_ret % 256, packet_id % 256] := by simp
  unfold SendBuf.bytes at hb
  simp only [send_ack, send_buffer, commands_send_packet, ne_eq, h, not_false_eq_true, if_true,
    State.call]
  rw [show (((SendBuf.mk s.m_send_buffer 0).put id_ret).put packet_id).send_index = 2 from rfl] at *
  rw [hb]

theorem get_route_point_snd (X : FloatOps F) (data : Mem) (ind : Nat) :
    (get_route_point X data ind).2 = ind + 24 := by
  simp [get_route_point, buffer_get_float32, buffer_get_int32, buffer_get_uint32]

theorem appended_succ (X : FloatOps F) (payload : Mem) (n : Nat) :
    appended X payload (n + 1)
      = appended X payload n ++ [.autopilot_add_point (pointAt X payload n) (decide (n = 0)) true] := by
  simp [appended, List.range_succ]

/-! ## Growth of the record of calls and of the send buffer -/

theorem Extends.refl (P : Event F → Prop) (s : State F) : Extends P s s :=
  ⟨[], by simp, by simp⟩

theorem Extends.trans {P : Event F → Prop} {s1 s2 s3 : State F} (h1 : Extends P s1 s2)
    (h2 : Extends P s2 s3) : Extends P s1 s3 := by
  obtain ⟨e1, ht1, hp1⟩ := h1
  obtain ⟨e2, ht2, hp2⟩ := h2
  refine ⟨e1 ++ e2, by rw [ht2, ht1, List.append_assoc], ?_⟩
  intro e he
  rcases List.mem_append.mp he with h | h
  · exact hp1 e h
  · exact hp2 e h

theorem Extends.of_trace_eq {P : Event F → Prop} {s1 s2 s3 : State F} (h : Extends P s1 s2)
    (ht : s3.trace = s2.trace) : Extends P s1 s3 := by
  obtain ⟨e1, ht1, hp1⟩ := h
  exact ⟨e1, by rw [ht, ht1], hp1⟩

theorem Extends.call {P : Event F → Prop} {s1 s2 : State F} (h : Extends P s1 s2) (e : Event F)
    (he : P e) : Extends P s1 (s2.call e) :=
  h.trans ⟨[e], rfl, by simpa using he⟩

theorem Extends.set_send_func {P : Event F → Prop} {s1 s2 : State F} (h : Extends P s1 s2)
    (func : Nat) : Extends P s1 (commands_set_send_func func s2) :=
  h.of_trace_eq rfl

theorem Extends.send_packet {P : Event F → Prop} {s1 s2 : State F} (h : Extends P s1 s2)
    (data : Mem) (len : Nat) (hp : ∀ f, P (.send f (data.bytes len))) :
    Extends P s1 (commands_send_packet data len s2) := by
  unfold commands_send_packet
  split
  · exact h.call _ (hp _)
  · exact h

theorem Extends.send_buf {P : Event F → Prop} {s1 s2 : State F} (h : Extends P s1 s2)
    (w : SendBuf) (hp : ∀ f, P (.send f w.bytes)) : Extends P s1 (send_buffer w s2) := by
  unfold send_buffer
  have h2 : Extends P s1 { s2 with m_send_buffer := w.buf } := h.of_trace_eq rfl
  exact Extends.send_packet h2 _ _ hp

theorem SendBuf.Keeps.self (w : SendBuf) : w.Keeps w := ⟨Nat.le_refl _, fun _ _ => rfl⟩

theorem SendBuf.Keeps.step {w1 w2 w3 : SendBuf} (h1 : w1.Keeps w2) (h2 : w2.Keeps w3) :
    w1.Keeps w3 :=
  ⟨Nat.le_trans h1.1 h2.1, fun i hi => by
    rw [h2.2 i (Nat.lt_of_lt_of_le hi h1.1), h1.2 i hi]⟩

theorem SendBuf.Keeps.put {w w' : SendBuf} (h : w.Keeps w') (v : Nat) : w.Keeps (w'.put v) := by
  refine h.step ⟨Nat.le_succ _, fun i hi => ?_⟩
  have : i ≠ w'.send_index := Nat.ne_of_lt hi
  simp [SendBuf.put, Mem.write, this]

theorem SendBuf.Keeps.puts {w w' : SendBuf} (h : w.Keeps w') (l : List Nat) :
    w.Keeps (w'.puts l) := by
  induction l generalizing w' with
  | nil => exact h
  | cons v l ih => exact ih (h.put v)

theorem SendBuf.Keeps.uint16 {w w' : SendBuf} (h : w.Keeps w') (n : Nat) :
    w.Keeps (buffer_append_uint16 n w') := (h.put _).put _

theorem SendBuf.Keeps.int16 {w w' : SendBuf} (h : w.Keeps w') (n : Int) :
    w.Keeps (buffer_append_int16 n w') := h.uint16 _

theorem SendBuf.Keeps.uint32 {w w' : SendBuf} (h : w.Keeps w') (n : Nat) :
    w.Keeps (buffer_append_uint32 n w') := (((h.put _).put _).put _).put _

theorem SendBuf.Keeps.int32 {w w' : SendBuf} (h : w.Keeps w') (n : Int) :
    w.Keeps (buffer_append_int32 n w') := h.uint32 _

theorem SendBuf.Keeps.int64 {w w' : SendBuf} (h : w.Keeps w') (n : Int) :
    w.Keeps (buffer_append_int64 n w') := (h.uint32 _).uint32 _

theorem SendBuf.Keeps.float32 {w w' : SendBuf} (h : w.Keeps w') (X : FloatOps F) (x : F)
    (scale : Nat) : w.Keeps (buffer_append_float32 X x scale w') := h.int32 _

theorem SendBuf.Keeps.double64 {w w' : SendBuf} (h : w.Keeps w') (X : FloatOps F) (x : F)
    (scale : Nat) : w.Keeps (buffer_append_double64 X x scale w') := h.int64 _

theorem SendBuf.Keeps.float32_auto {w w' : SendBuf} (h : w.Keeps w') (X : FloatOps F) (x : F) :
    w.Keeps (buffer_append_float32_auto X x w') := h.puts _

theorem SendBuf.Keeps.strcpy_advance {w w' : SendBuf} (h : w.Keeps w') (src : List Nat)
    (n : Nat) : w.Keeps ⟨strcpy w'.buf w'.send_index src, w'.send_index + n⟩ := by
  have hk : w'.Keeps ((SendBuf.mk w'.buf w'.send_index).puts
      (src.takeWhile (fun c => c ≠ 0) ++ [0])) := (SendBuf.Keeps.self w').puts _
  refine h.step ⟨Nat.le_add_right _ _, fun i hi => ?_⟩
  exact hk.2 i hi

theorem bytes_head (m : Mem) (n : Nat) (h : 0 < n) : (m.bytes n).head? = some (m 0) := by
  obtain ⟨n, rfl⟩ : ∃ k, n = k + 1 := ⟨n - 1, by omega⟩
  simp [Mem.bytes, List.range_succ_eq_map]

theorem SendBuf.Keeps.head {w w' : SendBuf} (h : w.Keeps w') (hw : 0 < w.send_index) :
    w'.bytes.head? = w.bytes.head? := by
  unfold SendBuf.bytes
  rw [bytes_head _ _ (Nat.lt_of_lt_of_le hw h.1), bytes_head _ _ hw, h.2 0 hw]

/-- A buffer that continues `[id_ret, ..]` still starts with `id_ret`. -/
theorem starts_with_of_keeps (buf : Mem) (id_ret : Nat) (w : SendBuf)
    (h : ((SendBuf.mk buf 0).put id_ret).Keeps w) (f : Nat) :
    StartsWith (F := F) (id_ret % 256) (.send f w.bytes) := by
  intro f' d hd
  injection hd with _ hd
  rw [← hd, h.head (by simp [SendBuf.put])]
  simp

theorem get_main_config_general_keeps (X : FloatOps F) (c : MAIN_CONFIG F) {w w' : SendBuf}
    (h : w.Keeps w') : w.Keeps (get_main_config_general X c w') := by
  unfold get_main_config_general
  simp only []
  repeat first
    | exact h
    | apply SendBuf.Keeps.put
    | apply SendBuf.Keeps.float32_auto
    | apply SendBuf.Keeps.int32
    | apply SendBuf.Keeps.uint32
    | apply SendBuf.Keeps.int16
    | apply SendBuf.Keeps.uint16

theorem get_main_config_log_keeps (c c' : MAIN_CONFIG F) {w w' : SendBuf}
    (h : w.Keeps w') : w.Keeps (get_main_config_log c c' w') := by
  unfold get_main_config_log
  simp only []
  repeat first
    | exact h
    | apply SendBuf.Keeps.put
    | apply SendBuf.Keeps.strcpy_advance
    | apply SendBuf.Keeps.int32
    | apply SendBuf.Keeps.uint32
    | apply SendBuf.Keeps.int16
    | apply SendBuf.Keeps.uint16

theorem get_main_config_car_keeps (X : FloatOps F) (c : MAIN_CONFIG F) {w w' : SendBuf}
    (h : w.Keeps w') : w.Keeps (get_main_config_car X c w') := by
  unfold get_main_config_car
  simp only []
  repeat first
    | exact h
    | apply SendBuf.Keeps.put
    | apply SendBuf.Keeps.float32_auto
    | apply SendBuf.Keeps.int32
    | apply SendBuf.Keeps.uint32
    | apply SendBuf.Keeps.int16
    | apply SendBuf.Keeps.uint16

theorem get_main_config_mr_keeps (X : FloatOps F) (c : MAIN_CONFIG F) {w w' : SendBuf}
    (h : w.Keeps w') : w.Keeps (get_main_config_mr X c w') := by
  unfold get_main_config_mr
  simp only []
  repeat first
    | exact h
    | apply SendBuf.Keeps.put
    | apply SendBuf.Keeps.float32_auto
    | apply SendBuf.Keeps.int32
    | apply SendBuf.Keeps.uint32
    | apply SendBuf.Keeps.int16
    | apply SendBuf.Keeps.uint16

/-! ## The loop bounds are never exhausted -/

theorem toInt32_le (n : Nat) : toInt32 n ≤ (n : Int) := by
  unfold toInt32
  split <;> omega

/-- More turns than `fuel` change nothing once `fuel` turns of 24 bytes reach
the end of the payload. -/
theorem ap_add_points_loop_fuel (X : FloatOps F) (C : Collab F) (data : Mem) (len extra : Nat) :
    ∀ (fuel ind : Nat) (first : Bool) (s : State F),
      toInt32 len ≤ ((ind + 24 * fuel : Nat) : Int) →
      ap_add_points_loop X C data len (fuel + extra) ind first s
        = ap_add_points_loop X C data len fuel ind first s := by
  intro fuel
  induction fuel with
  | zero =>
    intro ind first s h
    have hc : ¬ ((ind : Int) < toInt32 len) := by simp at h; omega
    cases extra with
    | zero => rfl
    | succ e => simp [ap_add_points_loop, hc]
  | succ fuel ih =>
    intro ind first s h
    rw [show fuel + 1 + extra = (fuel + extra) + 1 by omega]
    simp only [ap_add_points_loop, get_route_point_snd]
    split
    · split
      · rfl
      · exact ih _ _ _ (by push_cast at h ⊢; omega)
    · rfl

/-- `CMD_AP_ADD_POINTS` passes `len` turns, which is enough. -/
theorem cmd_ap_add_points_fuel (X : FloatOps F) (C : Collab F) (data : Mem) (len extra : Nat)
    (s : State F) :
    ap_add_points_loop X C data len (len + extra) 0 true s
      = ap_add_points_loop X C data len len 0 true s :=
  ap_add_points_loop_fuel X C data len extra len 0 true s (by
    have := toInt32_le len
    push_cast
    omega)

theorem ap_replace_route_loop_fuel (X : FloatOps F) (C : Collab F) (data : Mem)
    (len extra : Nat) :
    ∀ (fuel ind : Nat) (first : Bool) (s : State F),
      toInt32 len ≤ ((ind + 24 * fuel : Nat) : Int) →
      ap_replace_route_loop X C data len (fuel + extra) ind first s
        = ap_replace_route_loop X C data len fuel ind first s := by
  intro fuel
  induction fuel with
  | zero =>
    intro ind first s h
    have hc : ¬ ((ind : Int) < toInt32 len) := by simp at h; omega
    cases extra with
    | zero => rfl
    | succ e => simp [ap_replace_route_loop, hc]
  | succ fuel ih =>
    intro ind first s h
    rw [show fuel + 1 + extra = (fuel + extra) + 1 by omega]
    simp only [ap_replace_route_loop, get_route_point_snd]
    split
    · split
      · exact ih _ _ _ (by push_cast at h ⊢; omega)
      · exact ih _ _ _ (by push_cast at h ⊢; omega)
    · rfl

/-- `CMD_AP_REPLACE_ROUTE` passes `len` turns, which is enough. -/
theorem cmd_ap_replace_route_fuel (X : FloatOps F) (C : Collab F) (data : Mem)
    (len extra : Nat) (s : State F) :
    ap_replace_route_loop X C data len (len + extra) 0 true s
      = ap_replace_route_loop X C data len len 0 true s :=
  ap_replace_route_loop_fuel X C data len extra len 0 true s (by
    have := toInt32_le len
    push_cast
    omega)

/-- More turns than `fuel` change nothing once `fuel` indices reach the bound. -/
theorem ap_get_route_part_loop_fuel (X : FloatOps F) (C : Collab F) (bound : Int)
    (extra : Nat) :
    ∀ (fuel : Nat) (i : Int) (w : SendBuf) (s : State F), bound ≤ i + (fuel : Int) →
      ap_get_route_part_loop X C bound (fuel + extra) i w s
        = ap_get_route_part_loop X C bound fuel i w s := by
  intro fuel
  induction fuel with
  | zero =>
    intro i w s h
    have hc : ¬ (i < bound) := by simp at h; omega
    cases extra with
    | zero => rfl
    | succ e => simp [ap_get_route_part_loop, hc]
  | succ fuel ih =>
    intro i w s h
    rw [show fuel + 1 + extra = (fuel + extra) + 1 by omega]
    simp only [ap_get_route_part_loop]
    split
    · exact ih _ _ _ (by push_cast at h ⊢; omega)
    · rfl

/-- `CMD_AP_GET_ROUTE_PART` passes `num` turns, which is enough: the 32-bit sum
`first + num` is at most `first + num`. -/
theorem cmd_ap_get_route_part_fuel (X : FloatOps F) (C : Collab F) (first : Int)
    (num extra : Nat) (w : SendBuf) (s : State F) (hfirst : -2 ^ 31 ≤ first) :
    ap_get_route_part_loop X C (toInt32 (toBits 32 (first + num))) (num + extra) first w s
      = ap_get_route_part_loop X C (toInt32 (toBits 32 (first + num))) num first w s :=
  ap_get_route_part_loop_fuel X C _ extra num first w s (by
    unfold toInt32 toBits
    have hlt : ((first + (num : Int)) % (2 ^ 32 : Int)).toNat < 2 ^ 32 := by omega
    rw [Nat.mod_eq_of_lt hlt]
    split <;> omega)

/-! ## The route loops -/

theorem pointAt_def (X : FloatOps F) (payload : Mem) (i : Nat) :
    pointAt X payload i = (get_route_point X payload (24 * i)).1 := rfl

/-- The loop of `CMD_AP_ADD_POINTS` from point `j` on, when the collaborator
accepts the points before index `k` and rejects point `k`. -/
theorem ap_add_points_loop_rejected (X : FloatOps F) (C : Collab F) (data : Mem) (len : Nat)
    (t0 : List (Event F)) (k : Nat) (hlen : ((24 * k : Nat) : Int) < toInt32 len)
    (hacc : ∀ i, i < k →
      C.autopilot_add_point (t0 ++ appended X data i) (pointAt X data i) (decide (i = 0)) = true)
    (hrej :
      C.autopilot_add_point (t0 ++ appended X data k) (pointAt X data k) (decide (k = 0)) = false) :
    ∀ (m j fuel : Nat) (s : State F), j + m = k → m < fuel → s.trace = t0 ++ appended X data j →
      ap_add_points_loop X C data len fuel (24 * j) (decide (j = 0)) s
        = { s with trace := t0 ++ appended X data k
              ++ [.autopilot_add_point (pointAt X data k) (decide (k = 0)) false] } := by
  intro m
  induction m with
  | zero =>
    intro j fuel s hj hf ht
    obtain ⟨fuel, rfl⟩ : ∃ f, fuel = f + 1 := ⟨fuel - 1, by omega⟩
    have hjk : j = k := by omega
    subst hjk
    have hc : ((24 * j : Nat) : Int) < toInt32 len := hlen
    simp only [ap_add_points_loop, hc, if_true]
    simp only [ht, ← pointAt_def, hrej, State.call]
    simp
  | succ m ih =>
    intro j fuel s hj hf ht
    obtain ⟨fuel, rfl⟩ : ∃ f, fuel = f + 1 := ⟨fuel - 1, by omega⟩
    have hjk : j < k := by omega
    have hc : ((24 * j : Nat) : Int) < toInt32 len := by
      have : ((24 * j : Nat) : Int) ≤ ((24 * k : Nat) : Int) := by
        exact_mod_cast Nat.mul_le_mul_left 24 (Nat.le_of_lt hjk)
      omega
    simp only [ap_add_points_loop, hc, if_true]
    simp only [ht, ← pointAt_def, hacc j hjk, State.call, get_route_point_snd]
    have h24 : 24 * j + 24 = 24 * (j + 1) := by ring
    have hd : decide (j + 1 = 0) = false := by simp
    simp only [Bool.not_true, Bool.false_eq_true, if_false, h24]
    have hih := ih (j + 1) fuel
      { s with trace := t0 ++ appended X data j
          ++ [.autopilot_add_point (pointAt X data j) (decide (j = 0)) true] }
      (by omega) (by omega) (by simp [appended_succ])
    rw [hd] at hih
    rw [hih]

/-- C3: a payload of exactly `N` route points, of which the collaborator
accepts those at indices `0 .. k-1` and rejects the one at index `k < N`.  The
calls made are: the `k` accepted points in payload order, the rejected point
`k`, one acknowledgement `[reply_id, command_id]` to the supplied send
function, and the vehicle-specific dispatcher; the is-first flag is set for
index 0 only, and no point after index `k` is offered. -/
theorem C3_add_points_stop_at_rejection (X : FloatOps F) (K : Env) (C : Collab F) (data : Mem)
    (N k func : Nat) (s : State F) (hacc : Accepted K data (24 * N + 2))
    (hcmd : K.cmd (data 1) = some .CMD_AP_ADD_POINTS) (hN : 24 * N + 2 < 2 ^ 31) (hk : k < N)
    (hfunc : func ≠ 0) (hid : replyId K (data 0) < 256) (hpid : data 1 < 256)
    (haccept : ∀ i, i < k →
      C.autopilot_add_point (s.trace ++ appended X (data.shift 2) i) (pointAt X (data.shift 2) i)
        (decide (i = 0)) = true)
    (hreject :
      C.autopilot_add_point (s.trace ++ appended X (data.shift 2) k) (pointAt X (data.shift 2) k)
        (decide (k = 0)) = false) :
    (commands_process_packet X K C data (24 * N + 2) func s).1.trace
      = s.trace ++ appended X (data.shift 2) k
          ++ [.autopilot_add_point (pointAt X (data.shift 2) k) (decide (k = 0)) false,
              .send func [replyId K (data 0), data 1],
              specificCall K data (24 * N + 2) func] := by
  obtain ⟨hlen, hpre, hrecv⟩ := hacc
  simp only [replyId] at hid
  have hp : payloadLen (24 * N + 2) = 24 * N := payloadLen_add_two _ (by omega)
  have hp2 : (24 * N + 2 + (2 ^ 32 - 2)) % 2 ^ 32 = 24 * N := hp
  have hti : toInt32 (24 * N) = ((24 * N : Nat) : Int) := toInt32_of_lt _ (by omega)
  have hfuel : 0 < 24 * N := by omega
  have hloop := ap_add_points_loop_rejected X C (data.shift 2) (24 * N) s.trace k
    (by rw [hti]; exact_mod_cast (by omega : 24 * k < 24 * N)) haccept hreject k 0 (24 * N)
    (commands_set_send_func func s) (by omega) (by omega) (by simp [appended, commands_set_send_func])
  simp only [Nat.mul_zero, decide_True] at hloop
  simp only [commands_process_packet, hlen, hpre, hrecv, hcmd, if_true, if_false, hp2,
    cmd_ap_add_points, hloop, specificCall, hp, replyId]
  rw [send_ack_eq _ _ _ (by simpa [commands_set_send_func] using hfunc)]
  simp [commands_set_send_func, Nat.mod_eq_of_lt hid, Nat.mod_eq_of_lt hpid]

/-- C3 at a payload of four points and a route with room for two: points 0
and 1 are appended, point 2 is rejected, point 3 is not offered. -/
theorem C3_add_points_stop_at_rejection_witness :
    (commands_process_packet demoOps demoEnv (demoCollab 2 false)
        (Mem.ofList ([1, 7] ++ demoPoint 1 ++ demoPoint 10 ++ demoPoint 20 ++ demoPoint 30))
        (24 * 4 + 2) 5 (demoState 0 demoConfig)).1.trace
      = [.autopilot_add_point ⟨1, 2, 3, 4, 5, 6⟩ true true,
         .autopilot_add_point ⟨10, 11, 12, 13, 14, 15⟩ false true,
         .autopilot_add_point ⟨20, 21, 22, 23, 24, 25⟩ false false,
         .send 5 [1, 7],
         specificCall demoEnv
           (Mem.ofList ([1, 7] ++ demoPoint 1 ++ demoPoint 10 ++ demoPoint 20 ++ demoPoint 30))
           (24 * 4 + 2) 5] :=
  (C3_add_points_stop_at_rejection demoOps demoEnv (demoCollab 2 false)
    (Mem.ofList ([1, 7] ++ demoPoint 1 ++ demoPoint 10 ++ demoPoint 20 ++ demoPoint 30)) 4 2 5
    (demoState 0 demoConfig) ⟨by decide, by decide, by decide⟩ (by decide) (by decide) (by decide)
    (by decide) (by decide) (by decide) (by decide) (by decide)).trans (by decide)

theorem replaced_succ (X : FloatOps F) (payload : Mem) (n : Nat) :
    replaced X payload (n + 1)
      = replaced X payload n ++ [.autopilot_replace_route (pointAt X payload n) false] := by
  simp [replaced, List.range_succ]

/-- The loop of `CMD_AP_REPLACE_ROUTE` while the replacement is rejected: it
stays in its first-point mode and moves to the next point. -/
theorem ap_replace_route_loop_rejected (X : FloatOps F) (C : Collab F) (data : Mem) (len : Nat)
    (t0 : List (Event F)) (k : Nat) (hlen : ((24 * k : Nat) : Int) ≤ toInt32 len)
    (hrej : ∀ i, i < k →
      C.autopilot_replace_route (t0 ++ replaced X data i) (pointAt X data i) = false) :
    ∀ (m j fuel : Nat) (s : State F), j + m = k → s.trace = t0 ++ replaced X data j →
      ap_replace_route_loop X C data len (fuel + m) (24 * j) true s
        = ap_replace_route_loop X C data len fuel (24 * k) true
            { s with trace := t0 ++ replaced X data k } := by
  intro m
  induction m with
  | zero =>
    intro j fuel s hj ht
    have hjk : j = k := by omega
    subst hjk
    rw [← ht]
    rfl
  | succ m ih =>
    intro j fuel s hj ht
    have hjk : j < k := by omega
    have hc : ((24 * j : Nat) : Int) < toInt32 len := by
      have : ((24 * (j + 1) : Nat) : Int) ≤ ((24 * k : Nat) : Int) := by
        exact_mod_cast Nat.mul_le_mul_left 24 hjk
      have h2 : ((24 * j : Nat) : Int) < ((24 * (j + 1) : Nat) : Int) := by
        exact_mod_cast (by omega : 24 * j < 24 * (j + 1))
      omega
    rw [show fuel + (m + 1) = (fuel + m) + 1 by omega]
    simp only [ap_replace_route_loop, hc, if_true]
    simp only [ht, ← pointAt_def, hrej j hjk, State.call, get_route_point_snd]
    have h24 : 24 * j + 24 = 24 * (j + 1) := by ring
    simp only [Bool.not_false, h24]
    rw [ih (j + 1) fuel _ (by omega) (by simp [replaced_succ])]

/-- The loop of `CMD_AP_REPLACE_ROUTE` once a replacement was accepted: every
remaining point is offered to `autopilot_add_point`. -/
theorem ap_replace_route_loop_append (X : FloatOps F) (C : Collab F) (data : Mem) (len N : Nat)
    (hlen : toInt32 len = ((24 * N : Nat) : Int)) :
    ∀ (n j fuel : Nat) (s : State F), j + n = N → n ≤ fuel →
      ap_replace_route_loop X C data len fuel (24 * j) false s
        = { s with trace := addsFrom X C data n j s.trace } := by
  intro n
  induction n with
  | zero =>
    intro j fuel s hj hf
    have hjN : j = N := by omega
    subst hjN
    cases fuel with
    | zero => rfl
    | succ fuel => simp [ap_replace_route_loop, hlen, addsFrom]
  | succ n ih =>
    intro j fuel s hj hf
    obtain ⟨fuel, rfl⟩ : ∃ f, fuel = f + 1 := ⟨fuel - 1, by omega⟩
    have hc : ((24 * j : Nat) : Int) < toInt32 len := by
      rw [hlen]
      exact_mod_cast (by omega : 24 * j < 24 * N)
    simp only [ap_replace_route_loop, hc, if_true]
    simp only [← pointAt_def, State.call, get_route_point_snd, Bool.false_eq_true, if_false]
    have h24 : 24 * j + 24 = 24 * (j + 1) := by ring
    rw [h24, ih (j + 1) fuel _ (by omega) (by omega)]
    rfl

/-- C4, as stated, fails: with a collaborator that rejects every replacement,
a payload of two points leads to two calls of `autopilot_replace_route` and to
no call of `autopilot_add_point`; the rejected first point is not appended and
the replacement is attempted again for the second point. -/
theorem C4_replace_route_counterexample :
    (commands_process_packet demoOps demoEnv (demoCollab 5 false)
        (Mem.ofList ([1, 12] ++ demoPoint 1 ++ demoPoint 10)) (24 * 2 + 2) 5
        (demoState 0 demoConfig)).1.trace
      = [.autopilot_replace_route ⟨1, 2, 3, 4, 5, 6⟩ false,
         .autopilot_replace_route ⟨10, 11, 12, 13, 14, 15⟩ false,
         .send 5 [1, 12],
         specificCall demoEnv (Mem.ofList ([1, 12] ++ demoPoint 1 ++ demoPoint 10))
           (24 * 2 + 2) 5] := by
  decide

/-- C4 (amended): a payload of exactly `N` route points of which
`autopilot_replace_route` rejects those at indices `0 .. k-1` and, if `k < N`,
accepts the one at index `k`.  The replacement is attempted for each of the
points `0 .. k` in turn, no rejected point is offered to `autopilot_add_point`,
and only the points after index `k` are offered to `autopilot_add_point`, none
flagged as first and whatever the results; then one acknowledgement is sent. -/
theorem C4_replace_route_retries (X : FloatOps F) (K : Env) (C : Collab F) (data : Mem)
    (N k func : Nat) (s : State F) (hacc : Accepted K data (24 * N + 2))
    (hcmd : K.cmd (data 1) = some .CMD_AP_REPLACE_ROUTE) (hN : 24 * N + 2 < 2 ^ 31) (hk : k ≤ N)
    (hfunc : func ≠ 0) (hid : replyId K (data 0) < 256) (hpid : data 1 < 256)
    (hreject : ∀ i, i < k →
      C.autopilot_replace_route (s.trace ++ replaced X (data.shift 2) i)
        (pointAt X (data.shift 2) i) = false)
    (haccept : k < N →
      C.autopilot_replace_route (s.trace ++ replaced X (data.shift 2) k)
        (pointAt X (data.shift 2) k) = true) :
    (commands_process_packet X K C data (24 * N + 2) func s).1.trace
      = (if k < N then
            addsFrom X C (data.shift 2) (N - 1 - k) (k + 1)
              (s.trace ++ replaced X (data.shift 2) k
                ++ [.autopilot_replace_route (pointAt X (data.shift 2) k) true])
          else s.trace ++ replaced X (data.shift 2) N)
          ++ [.send func [replyId K (data 0), data 1], specificCall K data (24 * N + 2) func] := by
  obtain ⟨hlen, hpre, hrecv⟩ := hacc
  simp only [replyId] at hid
  have hp : payloadLen (24 * N + 2) = 24 * N := payloadLen_add_two _ (by omega)
  have hp2 : (24 * N + 2 + (2 ^ 32 - 2)) % 2 ^ 32 = 24 * N := hp
  have hti : toInt32 (24 * N) = ((24 * N : Nat) : Int) := toInt32_of_lt _ (by omega)
  have hskip := ap_replace_route_loop_rejected X C (data.shift 2) (24 * N) s.trace k
    (by rw [hti]; exact_mod_cast (by omega : 24 * k ≤ 24 * N)) hreject k 0 (24 * N - k)
    (commands_set_send_func func s) (by omega) (by simp [replaced, commands_set_send_func])
  rw [show 24 * N - k + k = 24 * N by omega] at hskip
  simp only [Nat.mul_zero] at hskip
  have hrest : ap_replace_route_loop X C (data.shift 2) (24 * N) (24 * N - k) (24 * k) true
      { commands_set_send_func func s with trace := s.trace ++ replaced X (data.shift 2) k }
      = { commands_set_send_func func s with
          trace := if k < N then
              addsFrom X C (data.shift 2) (N - 1 - k) (k + 1)
                (s.trace ++ replaced X (data.shift 2) k
                  ++ [.autopilot_replace_route (pointAt X (data.shift 2) k) true])
            else s.trace ++ replaced X (data.shift 2) N } := by
    by_cases hkN : k < N
    · obtain ⟨fuel, hfuel⟩ : ∃ f, 24 * N - k = f + 1 := ⟨24 * N - k - 1, by omega⟩
      have hc : ((24 * k : Nat) : Int) < toInt32 (24 * N) := by
        rw [hti]
        exact_mod_cast (by omega : 24 * k < 24 * N)
      rw [hfuel]
      simp only [ap_replace_route_loop, hc, if_true, hkN]
      simp only [← pointAt_def, haccept hkN, State.call, get_route_point_snd, Bool.not_true]
      have h24 : 24 * k + 24 = 24 * (k + 1) := by ring
      rw [h24, ap_replace_route_loop_append X C (data.shift 2) (24 * N) N hti (N - 1 - k) (k + 1)
        fuel _ (by omega) (by omega)]
    · have hkN2 : k = N := by omega
      subst hkN2
      cases h : 24 * k - k with
      | zero => simp [ap_replace_route_loop]
      | succ fuel => simp [ap_replace_route_loop, hti]
  simp only [commands_process_packet, hlen, hpre, hrecv, hcmd, if_true, if_false, hp2,
    cmd_ap_replace_route, hskip, hrest, specificCall, hp, replyId]
  rw [send_ack_eq _ _ _ (by simpa [commands_set_send_func] using hfunc)]
  simp [commands_set_send_func, Nat.mod_eq_of_lt hid, Nat.mod_eq_of_lt hpid]

/-- C4 (amended) at a payload of three points where the replacement of the
first is rejected and that of the second accepted: the first point is dropped,
the second replaces the route and the third is appended. -/
theorem C4_replace_route_retries_witness :
    (commands_process_packet demoOps demoEnv
        { demoCollab 5 false with
          autopilot_replace_route := fun t _ => decide (t.length = 1) }
        (Mem.ofList ([1, 12] ++ demoPoint 1 ++ demoPoint 10 ++ demoPoint 20)) (24 * 3 + 2) 5
        (demoState 0 demoConfig)).1.trace
      = [.autopilot_replace_route ⟨1, 2, 3, 4, 5, 6⟩ false,
         .autopilot_replace_route ⟨10, 11, 12, 13, 14, 15⟩ true,
         .autopilot_add_point ⟨20, 21, 22, 23, 24, 25⟩ false true,
         .send 5 [1, 12],
         specificCall demoEnv
           (Mem.ofList ([1, 12] ++ demoPoint 1 ++ demoPoint 10 ++ demoPoint 20)) (24 * 3 + 2) 5] :=
  (C4_replace_route_retries demoOps demoEnv
    { demoCollab 5 false with autopilot_replace_route := fun t _ => decide (t.length = 1) }
    (Mem.ofList ([1, 12] ++ demoPoint 1 ++ demoPoint 10 ++ demoPoint 20)) 3 1 5
    (demoState 0 demoConfig) ⟨by decide, by decide, by decide⟩ (by decide) (by decide) (by decide)
    (by decide) (by decide) (by decide) (by decide) (by decide)).trans (by decide)

/-- C9: an accepted `CMD_AP_GET_ROUTE_PART` request whose count byte (payload
byte 4) exceeds 20 changes nothing but the record of the call of the
vehicle-specific dispatcher: no packet is sent, the route is not queried, the
active send function and the send buffer are as before. -/
theorem C9_oversized_route_part_dropped (X : FloatOps F) (K : Env) (C : Collab F) (data : Mem)
    (len func : Nat) (s : State F) (hacc : Accepted K data len)
    (hcmd : K.cmd (data 1) = some .CMD_AP_GET_ROUTE_PART) (hnum : 20 < data 6) :
    commands_process_packet X K C data len func s
      = (s.call (specificCall K data len func), data) := by
  obtain ⟨hlen, hpre, hrecv⟩ := hacc
  have h6 : 20 < data.shift 2 4 := hnum
  simp only [commands_process_packet, hlen, hpre, hrecv, hcmd, if_true, if_false,
    cmd_ap_get_route_part, buffer_get_int32, Nat.zero_add, gt_iff_lt, h6, specificCall,
    payloadLen, replyId]
  congr 1
  funext j
  by_cases hj : j < 2
  · simp [hj]
  · simp [hj, Mem.shift]
    congr 1
    omega

/-- C9 at a request for 21 points while send function 9 is active. -/
theorem C9_oversized_route_part_dropped_witness :
    commands_process_packet demoOps demoEnv (demoCollab 0 false)
        (Mem.ofList [1, 10, 0, 0, 0, 0, 21]) 7 5 (demoState 9 demoConfig)
      = ((demoState 9 demoConfig).call
          (specificCall demoEnv (Mem.ofList [1, 10, 0, 0, 0, 0, 21]) 7 5),
         Mem.ofList [1, 10, 0, 0, 0, 0, 21]) :=
  C9_oversized_route_part_dropped demoOps demoEnv (demoCollab 0 false)
    (Mem.ofList [1, 10, 0, 0, 0, 0, 21]) 7 5 (demoState 9 demoConfig)
    ⟨by decide, by decide, by decide⟩ (by decide) (by decide)

/-! ## The reply id -/

theorem not_send {e : Event F} (b : Nat) (h : ∀ f d, e ≠ .send f d) : StartsWith b e :=
  fun f d he => absurd he (h f d)

theorem send_ack_extends {b : Nat} {s1 s2 : State F} (id_ret packet_id : Nat)
    (hb : b = id_ret % 256) (h : Extends (StartsWith b) s1 s2) :
    Extends (StartsWith b) s1 (send_ack id_ret packet_id s2) := by
  subst hb
  unfold send_ack
  exact h.send_buf _ (starts_with_of_keeps _ _ _ ((SendBuf.Keeps.self _).put _))

theorem ap_add_points_loop_extends (X : FloatOps F) (C : Collab F) (data : Mem) (len b : Nat) :
    ∀ (fuel ind : Nat) (first : Bool) (s1 s2 : State F), Extends (StartsWith b) s1 s2 →
      Extends (StartsWith b) s1 (ap_add_points_loop X C data len fuel ind first s2) := by
  intro fuel
  induction fuel with
  | zero => intro ind first s1 s2 h; exact h
  | succ fuel ih =>
    intro ind first s1 s2 h
    simp only [ap_add_points_loop]
    split
    · split
      · exact h.call _ (not_send _ (by intro _ _ h; cases h))
      · exact ih _ _ _ _ (h.call _ (not_send _ (by intro _ _ h; cases h)))
    · exact h

theorem ap_replace_route_loop_extends (X : FloatOps F) (C : Collab F) (data : Mem)
    (len b : Nat) :
    ∀ (fuel ind : Nat) (first : Bool) (s1 s2 : State F), Extends (StartsWith b) s1 s2 →
      Extends (StartsWith b) s1 (ap_replace_route_loop X C data len fuel ind first s2) := by
  intro fuel
  induction fuel with
  | zero => intro ind first s1 s2 h; exact h
  | succ fuel ih =>
    intro ind first s1 s2 h
    simp only [ap_replace_route_loop]
    split
    · split
      · exact ih _ _ _ _ (h.call _ (not_send _ (by intro _ _ h; cases h)))
      · exact ih _ _ _ _ (h.call _ (not_send _ (by intro _ _ h; cases h)))
    · exact h

theorem ap_get_route_part_loop_extends (X : FloatOps F) (C : Collab F) (bound : Int) (b : Nat)
    (w0 : SendBuf) :
    ∀ (fuel : Nat) (i : Int) (w : SendBuf) (s1 s2 : State F), w0.Keeps w →
      Extends (StartsWith b) s1 s2 →
      w0.Keeps (ap_get_route_part_loop X C bound fuel i w s2).1 ∧
        Extends (StartsWith b) s1 (ap_get_route_part_loop X C bound fuel i w s2).2 := by
  intro fuel
  induction fuel with
  | zero => intro i w s1 s2 hw h; exact ⟨hw, h⟩
  | succ fuel ih =>
    intro i w s1 s2 hw h
    simp only [ap_get_route_part_loop]
    split
    · exact ih _ _ _ _
        ((((((hw.float32_auto X _).float32_auto X _).float32_auto X _).float32_auto X _).int32
          _).uint32 _)
        (h.call _ (not_send _ (by intro _ _ h; cases h)))
    · exact ⟨hw, h⟩

/-- Whatever the command, the general handler only records calls, and every
packet it hands to a send function starts with the reply id. -/
theorem general_handler_extends (X : FloatOps F) (K : Env) (C : Collab F) (data : Mem)
    (len id_ret packet_id func : Nat) (s : State F) :
    Extends (StartsWith (id_ret % 256)) s (cmd_terminal_cmd data len func s).1 ∧
    Extends (StartsWith (id_ret % 256)) s (cmd_set_pos X K data id_ret packet_id func s) ∧
    Extends (StartsWith (id_ret % 256)) s (cmd_set_enu_ref X data id_ret packet_id func s) ∧
    Extends (StartsWith (id_ret % 256)) s (cmd_get_enu_ref X K C id_ret func s) ∧
    Extends (StartsWith (id_ret % 256)) s (cmd_ap_add_points X C data len id_ret packet_id func s) ∧
    Extends (StartsWith (id_ret % 256)) s (cmd_ap_remove_last_point id_ret packet_id func s) ∧
    Extends (StartsWith (id_ret % 256)) s (cmd_ap_clear_points id_ret packet_id func s) ∧
    Extends (StartsWith (id_ret % 256)) s (cmd_ap_get_route_part X K C data id_ret s) ∧
    Extends (StartsWith (id_ret % 256)) s (cmd_ap_set_active data id_ret packet_id func s) ∧
    Extends (StartsWith (id_ret % 256)) s
      (cmd_ap_replace_route X C data len id_ret packet_id func s) ∧
    Extends (StartsWith (id_ret % 256)) s (cmd_ap_sync_point data id_ret packet_id func s) ∧
    Extends (StartsWith (id_ret % 256)) s (cmd_send_rtcm_usb data len s) ∧
    Extends (StartsWith (id_ret % 256)) s (cmd_set_yaw_offset X K data id_ret packet_id func s) ∧
    Extends (StartsWith (id_ret % 256)) s (cmd_set_main_config X data id_ret packet_id func s) ∧
    Extends (StartsWith (id_ret % 256)) s (cmd_get_main_config X K C id_ret packet_id func s) := by
  have h0 := Extends.refl (StartsWith (F := F) (id_ret % 256)) s
  refine ⟨?_, ?_, ?_, ?_, ?_, ?_, ?_, ?_, ?_, ?_, ?_, ?_, ?_, ?_, ?_⟩
  · exact (h0.set_send_func func).call _ (not_send _ (by intro _ _ h; cases h))
  · unfold cmd_set_pos
    simp only []
    split
    · exact send_ack_extends _ _ rfl
        ((h0.call _ (not_send _ (by intro _ _ h; cases h))).set_send_func func)
    · exact h0.call _ (not_send _ (by intro _ _ h; cases h))
  · exact send_ack_extends _ _ rfl
      ((h0.set_send_func func).call _ (not_send _ (by intro _ _ h; cases h)))
  · unfold cmd_get_enu_ref
    exact ((((h0.call _ (not_send _ (by intro _ _ h; cases h))).set_send_func func).call _
      (not_send _ (by intro _ _ h; cases h))).send_buf _
        (starts_with_of_keeps _ _ _
          (((((SendBuf.Keeps.self _).put _).double64 X _ _).double64 X _ _).float32 X _ _)))
  · exact send_ack_extends _ _ rfl
      (ap_add_points_loop_extends X C data len _ _ _ _ _ _ (h0.set_send_func func))
  · exact send_ack_extends _ _ rfl
      ((h0.set_send_func func).call _ (not_send _ (by intro _ _ h; cases h)))
  · exact send_ack_extends _ _ rfl
      ((h0.set_send_func func).call _ (not_send _ (by intro _ _ h; cases h)))
  · unfold cmd_ap_get_route_part
    simp only []
    split
    · exact h0
    · have hl := ap_get_route_part_loop_extends X C
        (toInt32 (toBits 32 ((buffer_get_int32 data 0).1 + (data (buffer_get_int32 data 0).2 : Nat))))
        (id_ret % 256) ((SendBuf.mk s.m_send_buffer 0).put id_ret)
        (data (buffer_get_int32 data 0).2) (buffer_get_int32 data 0).1
        (buffer_append_int32 (C.autopilot_get_route_len s.trace)
          (((SendBuf.mk s.m_send_buffer 0).put id_ret).put (K.code .CMD_AP_GET_ROUTE_PART)))
        s (s.call .autopilot_get_route_len)
        (((SendBuf.Keeps.self _).put _).int32 _) (h0.call _ (not_send _ (by intro _ _ h; cases h)))
      exact hl.2.send_buf _ (starts_with_of_keeps _ _ _ hl.1)
  · unfold cmd_ap_set_active
    simp only []
    split
    · exact send_ack_extends _ _ rfl
        (((h0.set_send_func func).call _ (not_send _ (by intro _ _ h; cases h))).call _
          (not_send _ (by intro _ _ h; cases h)))
    · exact send_ack_extends _ _ rfl
        ((h0.set_send_func func).call _ (not_send _ (by intro _ _ h; cases h)))
  · exact send_ack_extends _ _ rfl
      (ap_replace_route_loop_extends X C data len _ _ _ _ _ _ (h0.set_send_func func))
  · exact send_ack_extends _ _ rfl
      ((h0.set_send_func func).call _ (not_send _ (by intro _ _ h; cases h)))
  · exact h0.call _ (not_send _ (by intro _ _ h; cases h))
  · unfold cmd_set_yaw_offset
    simp only []
    split
    · exact send_ack_extends _ _ rfl
        ((h0.call _ (not_send _ (by intro _ _ h; cases h))).set_send_func func)
    · exact h0.call _ (not_send _ (by intro _ _ h; cases h))
  · unfold cmd_set_main_config
    refine send_ack_extends _ _ rfl (Extends.call ?_ _ (not_send _ (by intro _ _ h; cases h)))
    refine Extends.of_trace_eq (Extends.call ?_ _ (not_send _ (by intro _ _ h; cases h))) rfl
    refine Extends.of_trace_eq (Extends.call ?_ _ (not_send _ (by intro _ _ h; cases h))) rfl
    refine Extends.call (Extends.call ?_ _ (not_send _ (by intro _ _ h; cases h))) _ (not_send _ (by intro _ _ h; cases h))
    exact Extends.of_trace_eq (h0.set_send_func func) rfl
  · unfold cmd_get_main_config
    simp only []
    refine Extends.send_buf ?_ _ (starts_with_of_keeps _ _ _
      (get_main_config_mr_keeps X _ (get_main_config_car_keeps X _
        (get_main_config_log_keeps _ _ (get_main_config_general_keeps X _
          ((SendBuf.Keeps.self _).put _))))))
    split
    · exact h0.set_send_func func
    · exact (h0.set_send_func func).call _ (not_send _ (by intro _ _ h; cases h))

/-- An accepted packet: the general handler records calls, every packet it
sends starts with the reply id, and then the vehicle-specific dispatcher is
called with the reply id. -/
theorem process_accepted_extends (X : FloatOps F) (K : Env) (C : Collab F) (data : Mem)
    (len func : Nat) (s : State F) (hacc : Accepted K data len) :
    ∃ s1 payload, Extends (StartsWith (replyId K (data 0) % 256)) s s1 ∧
      (commands_process_packet X K C data len func s).1
        = s1.call (.commands_specific_process_packet (data 1) payload (payloadLen len)
            (replyId K (data 0)) func) := by
  obtain ⟨hlen, hpre, hrecv⟩ := hacc
  simp only [commands_process_packet, hlen, hpre, hrecv, if_true, if_false]
  simp only [replyId, payloadLen]
  generalize (if data 0 = K.ID_CAR_CLIENT then K.ID_CAR_CLIENT else K.main_id) = idr
  generalize ((len + (2 ^ 32 - 2)) % 2 ^ 32) = plen
  have h := general_handler_extends X K C (data.shift 2) plen idr (data 1) func s
  have h0 := Extends.refl (StartsWith (F := F) (idr % 256)) s
  split
  · exact ⟨_, _, h0.call _ (not_send _ (by intro _ _ h; cases h)), rfl⟩
  · exact ⟨_, _, h.1, rfl⟩
  · exact ⟨_, _, h.2.1, rfl⟩
  · exact ⟨_, _, h.2.1, rfl⟩
  · exact ⟨_, _, h.2.2.1, rfl⟩
  · exact ⟨_, _, h.2.2.2.1, rfl⟩
  · exact ⟨_, _, h.2.2.2.2.1, rfl⟩
  · exact ⟨_, _, h.2.2.2.2.2.1, rfl⟩
  · exact ⟨_, _, h.2.2.2.2.2.2.1, rfl⟩
  · exact ⟨_, _, h.2.2.2.2.2.2.2.1, rfl⟩
  · exact ⟨_, _, h.2.2.2.2.2.2.2.2.1, rfl⟩
  · exact ⟨_, _, h.2.2.2.2.2.2.2.2.2.1, rfl⟩
  · exact ⟨_, _, h.2.2.2.2.2.2.2.2.2.2.1, rfl⟩
  · exact ⟨_, _, h.2.2.2.2.2.2.2.2.2.2.2.1, rfl⟩
  · exact ⟨_, _, h.2.2.2.2.2.2.2.2.2.2.2.2.1, rfl⟩
  · exact ⟨_, _, h.2.2.2.2.2.2.2.2.2.2.2.2.1, rfl⟩
  · exact ⟨_, _, h.2.2.2.2.2.2.2.2.2.2.2.2.2.1, rfl⟩
  · exact ⟨_, _, h.2.2.2.2.2.2.2.2.2.2.2.2.2.2, rfl⟩
  · exact ⟨_, _, h.2.2.2.2.2.2.2.2.2.2.2.2.2.2, rfl⟩
  · exact ⟨_, _, h0, rfl⟩

/-- C2: for every accepted packet there is one reply id `id_ret`: it is
`ID_CAR_CLIENT` when the receiver id was `ID_CAR_CLIENT` and `main_id`
otherwise (so a broadcast is answered with `main_id`, and, `main_id` not being
the reserved car-client id, it is `ID_CAR_CLIENT` only for a packet addressed
to `ID_CAR_CLIENT`); every packet the general handler passes to a send function
starts with `id_ret`, and the vehicle-specific dispatcher, called last,
receives `id_ret`. -/
theorem C2_reply_id (X : FloatOps F) (K : Env) (C : Collab F) (data : Mem) (len func : Nat)
    (s : State F) (hacc : Accepted K data len) (hm : K.main_id < 256) (hb : data 0 < 256) :
    ∃ id_ret evs payload,
      (data 0 = K.ID_CAR_CLIENT → id_ret = K.ID_CAR_CLIENT) ∧
      (data 0 ≠ K.ID_CAR_CLIENT → id_ret = K.main_id) ∧
      (K.main_id ≠ K.ID_CAR_CLIENT → (id_ret = K.ID_CAR_CLIENT ↔ data 0 = K.ID_CAR_CLIENT)) ∧
      (commands_process_packet X K C data len func s).1.trace
        = s.trace ++ evs
          ++ [.commands_specific_process_packet (data 1) payload (payloadLen len) id_ret func] ∧
      ∀ f d, Event.send f d ∈ evs → d.head? = some id_ret := by
  obtain ⟨s1, payload, ⟨evs, ht, hp⟩, hs⟩ := process_accepted_extends X K C data len func s hacc
  have hlt : replyId K (data 0) < 256 := by
    unfold replyId
    split
    · rename_i h; rw [← h]; exact hb
    · exact hm
  refine ⟨replyId K (data 0), evs, payload, ?_, ?_, ?_, ?_, ?_⟩
  · intro h; simp [replyId, h]
  · intro h; simp [replyId, h]
  · intro hne
    unfold replyId
    split
    · rename_i h; simp [h]
    · rename_i h; simp [h, hne]
  · rw [hs, call_trace, ht]
  · intro f d hmem
    have := hp _ hmem f d rfl
    rwa [Nat.mod_eq_of_lt hlt] at this

/-- C2 at a "remove last point" request addressed to the car-client id 254 and
at one addressed to the broadcast id 255: the first is answered with 254, the
second with the node id 1. -/
theorem C2_reply_id_witness :
    (∃ id_ret evs payload,
      (Mem.ofList [254, 8] 0 = demoEnv.ID_CAR_CLIENT → id_ret = demoEnv.ID_CAR_CLIENT) ∧
      (Mem.ofList [254, 8] 0 ≠ demoEnv.ID_CAR_CLIENT → id_ret = demoEnv.main_id) ∧
      (demoEnv.main_id ≠ demoEnv.ID_CAR_CLIENT →
        (id_ret = demoEnv.ID_CAR_CLIENT ↔ Mem.ofList [254, 8] 0 = demoEnv.ID_CAR_CLIENT)) ∧
      (commands_process_packet demoOps demoEnv (demoCollab 0 false) (Mem.ofList [254, 8]) 2 5
          (demoState 0 demoConfig)).1.trace
        = (demoState 0 demoConfig).trace ++ evs
          ++ [.commands_specific_process_packet (Mem.ofList [254, 8] 1) payload (payloadLen 2)
                id_ret 5] ∧
      ∀ f d, Event.send f d ∈ evs → d.head? = some id_ret) ∧
    (commands_process_packet demoOps demoEnv (demoCollab 0 false) (Mem.ofList [254, 8]) 2 5
        (demoState 0 demoConfig)).1.trace
      = [.autopilot_remove_last_point, .send 5 [254, 8],
         .commands_specific_process_packet 8 [] 0 254 5] ∧
    (commands_process_packet demoOps demoEnv (demoCollab 0 false) (Mem.ofList [255, 8]) 2 5
        (demoState 0 demoConfig)).1.trace
      = [.autopilot_remove_last_point, .send 5 [1, 8],
         .commands_specific_process_packet 8 [] 0 1 5] :=
  ⟨C2_reply_id demoOps demoEnv (demoCollab 0 false) (Mem.ofList [254, 8]) 2 5
    (demoState 0 demoConfig) ⟨by decide, by decide, by decide⟩ (by decide) (by decide),
    by decide, by decide⟩

/-! ## Replies that miss the supplied send function; reads past the length -/

/-- C7 fails for `CMD_AP_GET_ROUTE_PART`, the one replying handler that does
not register the supplied send function: a request for two points that
arrives with send function 5 is answered through the send function registered
before (9), and is not answered at all when none was registered. -/
theorem C7_route_part_reply_misses_sink :
    (commands_process_packet demoOps demoEnv (demoCollab 0 false)
        (Mem.ofList [1, 10, 0, 0, 0, 3, 2]) 7 5 (demoState 9 demoConfig)).1.trace
      = [.autopilot_get_route_len, .autopilot_get_route_point 3, .autopilot_get_route_point 4,
         .send 9 ([1, 10, 0, 0, 0, 7]
            ++ [0, 0, 0, 3, 0, 0, 0, 3, 0, 0, 0, 3, 0, 0, 0, 3, 0, 0, 0, 3, 0, 0, 0, 3]
            ++ [0, 0, 0, 4, 0, 0, 0, 4, 0, 0, 0, 4, 0, 0, 0, 4, 0, 0, 0, 4, 0, 0, 0, 4]),
         .commands_specific_process_packet 10 [0, 0, 0, 3, 2] 5 1 5] ∧
    (commands_process_packet demoOps demoEnv (demoCollab 0 false)
        (Mem.ofList [1, 10, 0, 0, 0, 3, 2]) 7 5 (demoState 0 demoConfig)).1.trace
      = [.autopilot_get_route_len, .autopilot_get_route_point 3, .autopilot_get_route_point 4,
         .commands_specific_process_packet 10 [0, 0, 0, 3, 2] 5 1 5] ∧
    (commands_process_packet demoOps demoEnv (demoCollab 0 false)
        (Mem.ofList [1, 10, 0, 0, 0, 3, 2]) 7 5 (demoState 9 demoConfig)).1.m_send_func = 9 := by
  decide

/-- C8 fails.  (1) With length 1 the command id is read at index 1: two
memories that agree on the one byte handed over lead to different calls.
(2) `CMD_TERMINAL_CMD` stores the terminator at index `len`: a cell holding 7
behind a four-byte buffer holds 0 afterwards.  (3) `CMD_AP_ADD_POINTS` with a
one-byte payload decodes a whole route point from indices 2 to 25. -/
theorem C8_accesses_past_length :
    (commands_process_packet demoOps demoEnv (demoCollab 0 false) (Mem.ofList [1, 1]) 1 5
        (demoState 0 demoConfig)).1.trace.head? = some .timeout_reset ∧
    (commands_process_packet demoOps demoEnv (demoCollab 0 false) (Mem.ofList [1, 9]) 1 5
        (demoState 0 demoConfig)).1.trace.head? = some .autopilot_clear_route ∧
    Mem.ofList [1, 2, 65, 66, 7] 4 = 7 ∧
    (commands_process_packet demoOps demoEnv (demoCollab 0 false) (Mem.ofList [1, 2, 65, 66, 7])
        4 5 (demoState 0 demoConfig)).2 4 = 0 ∧
    (commands_process_packet demoOps demoEnv (demoCollab 1 false)
        (Mem.ofList ([1, 7] ++ demoPoint 1)) 3 5 (demoState 0 demoConfig)).1.trace
      = [.autopilot_add_point ⟨1, 2, 3, 4, 5, 6⟩ true true, .send 5 [1, 7],
         .commands_specific_process_packet 7 [0] 1 1 5] := by
  decide

set_option maxRecDepth 100000 in
/-- C6 fails: the length of the default-configuration report follows the log
name of the live configuration.  With the same default record (empty log name)
and reply id, a live log name of length 0 gives a report of 308 bytes and a
live log name of length 2 gives one of 310 bytes, whereas `CMD_GET_MAIN_CONFIG`
on the default record gives 308 bytes. -/
theorem C6_default_report_follows_live_name :
    (sentPackets (commands_process_packet demoOps demoEnv (demoCollab 0 false)
        (Mem.ofList [1, 19]) 2 5 (demoState 0 demoConfig)).1.trace).map List.length = [308] ∧
    (sentPackets (commands_process_packet demoOps demoEnv (demoCollab 0 false)
        (Mem.ofList [1, 19]) 2 5
        (demoState 0 { demoConfig with log_name := [65, 66] })).1.trace).map List.length
      = [310] ∧
    (sentPackets (commands_process_packet demoOps demoEnv (demoCollab 0 false)
        (Mem.ofList [1, 18]) 2 5 (demoState 0 demoConfig)).1.trace).map List.length = [308] := by
  decide

/-! ## The reply of `CMD_AP_GET_ROUTE_PART` -/

@[simp] theorem put_send_index (v : Nat) (w : SendBuf) :
    (w.put v).send_index = w.send_index + 1 := rfl

theorem puts_send_index (l : List Nat) (w : SendBuf) :
    (w.puts l).send_index = w.send_index + l.length := by
  induction l generalizing w with
  | nil => rfl
  | cons v l ih => simp [SendBuf.puts, ih]; omega

@[simp] theorem buffer_append_uint32_send_index (n : Nat) (w : SendBuf) :
    (buffer_append_uint32 n w).send_index = w.send_index + 4 := rfl

@[simp] theorem buffer_append_int32_send_index (n : Int) (w : SendBuf) :
    (buffer_append_int32 n w).send_index = w.send_index + 4 := rfl

theorem buffer_append_float32_auto_send_index (X : FloatOps F) (x : F) (w : SendBuf) :
    (buffer_append_float32_auto X x w).send_index
      = w.send_index + (X.append_float32_auto x).length :=
  puts_send_index _ _

/-- Reading back the four bytes stored by `buffer_append_uint32`. -/
theorem buffer_get_uint32_append (n : Nat) (w : SendBuf) (h : n < 2 ^ 32) :
    (buffer_get_uint32 (buffer_append_uint32 n w).buf w.send_index).1 = n := by
  simp [buffer_get_uint32, buffer_append_uint32, SendBuf.put, Mem.write, Nat.add_assoc]
  omega

theorem toInt32_toBits (z : Int) (h1 : -2 ^ 31 ≤ z) (h2 : z < 2 ^ 31) :
    toInt32 (toBits 32 z) = z := by
  unfold toInt32 toBits
  have hlt : (z % (2 ^ 32 : Int)).toNat < 2 ^ 32 := by omega
  rw [Nat.mod_eq_of_lt hlt]
  split <;> omega

theorem toBits_lt (z : Int) : toBits 32 z < 2 ^ 32 := by
  unfold toBits
  omega

/-- Reading back the integer stored by `buffer_append_int32`. -/
theorem buffer_get_int32_append (z : Int) (w : SendBuf) (h1 : -2 ^ 31 ≤ z) (h2 : z < 2 ^ 31) :
    (buffer_get_int32 (buffer_append_int32 z w).buf w.send_index).1 = z := by
  unfold buffer_get_int32 buffer_append_int32
  simp only []
  rw [buffer_get_uint32_append _ _ (toBits_lt z), toInt32_toBits z h1 h2]

theorem ofList_bytes (m : Mem) (n i : Nat) (h : i < n) : Mem.ofList (m.bytes n) i = m i := by
  simp [Mem.ofList, Mem.bytes, List.getD, h]

/-- The loop of `CMD_AP_GET_ROUTE_PART` over `n` indices from `i`: it queries
exactly these route points, in ascending order, and moves the cursor by `n`
encoded points. -/
theorem ap_get_route_part_loop_run (X : FloatOps F) (C : Collab F) (asz : Nat)
    (hasz : ∀ x, (X.append_float32_auto x).length = asz) (bound : Int) :
    ∀ (n : Nat) (i : Int) (w : SendBuf) (s : State F), i + n = bound →
      (ap_get_route_part_loop X C bound n i w s).2
          = { s with trace := s.trace
                ++ (List.range n).map fun j => .autopilot_get_route_point (i + (j : Nat)) } ∧
        (ap_get_route_part_loop X C bound n i w s).1.send_index
          = w.send_index + n * (4 * asz + 8) ∧
        w.Keeps (ap_get_route_part_loop X C bound n i w s).1 := by
  intro n
  induction n with
  | zero => intro i w s _; simp [ap_get_route_part_loop, SendBuf.Keeps.self]
  | succ n ih =>
    intro i w s hb
    have hc : i < bound := by omega
    simp only [ap_get_route_part_loop, hc, if_true]
    obtain ⟨h1, h2, h3⟩ := ih (i + 1)
      (buffer_append_uint32 (C.autopilot_get_route_point s.trace i).attributes
        (buffer_append_int32 (C.autopilot_get_route_point s.trace i).time
          (buffer_append_float32_auto X (C.autopilot_get_route_point s.trace i).speed
            (buffer_append_float32_auto X (C.autopilot_get_route_point s.trace i).pz
              (buffer_append_float32_auto X (C.autopilot_get_route_point s.trace i).py
                (buffer_append_float32_auto X (C.autopilot_get_route_point s.trace i).px w))))))
      (s.call (.autopilot_get_route_point i)) (by push_cast at hb ⊢; omega)
    refine ⟨?_, ?_, ?_⟩
    · rw [h1, List.range_succ_eq_map]
      simp [State.call, Int.add_assoc, Function.comp_def, Int.add_comm 1]
    · rw [h2]
      simp only [buffer_append_uint32_send_index, buffer_append_int32_send_index,
        buffer_append_float32_auto_send_index, hasz]
      ring
    · have hk := ((((((SendBuf.Keeps.self w).float32_auto X
        (C.autopilot_get_route_point s.trace i).px).float32_auto X
        (C.autopilot_get_route_point s.trace i).py).float32_auto X
        (C.autopilot_get_route_point s.trace i).pz).float32_auto X
        (C.autopilot_get_route_point s.trace i).speed).int32
        (C.autopilot_get_route_point s.trace i).time).uint32
        (C.autopilot_get_route_point s.trace i).attributes
      exact hk.step h3

theorem bytes_length (m : Mem) (n : Nat) : (m.bytes n).length = n := by
  simp [Mem.bytes]

theorem SendBuf.Keeps.take {w w' : SendBuf} (h : w.Keeps w') :
    w'.bytes.take w.send_index = w.bytes := by
  unfold SendBuf.bytes Mem.bytes
  rw [← List.map_take, List.take_range, Nat.min_eq_left h.1]
  apply List.map_congr_left
  intro i hi
  exact h.2 i (List.mem_range.mp hi)

theorem buffer_get_int32_congr (m m' : Mem) (i : Nat)
    (h : ∀ j, j < 4 → m (i + j) = m' (i + j)) :
    buffer_get_int32 m i = buffer_get_int32 m' i := by
  have h0 := h 0 (by omega)
  have h1 := h 1 (by omega)
  have h2 := h 2 (by omega)
  have h3 := h 3 (by omega)
  simp only [Nat.add_zero] at h0
  simp only [buffer_get_int32, buffer_get_uint32, h0, h1, h2, h3]

theorem toInt32_ge (n : Nat) : -2 ^ 31 ≤ toInt32 n := by
  unfold toInt32
  split <;> omega

set_option maxRecDepth 100000 in
/-- C10, as stated, fails: with 24-byte route points, a request for 20 points
is answered with 486 bytes, not with `2 + 20 * 24 = 482`, and the first four
bytes of the reply (reply id, command id and the two high bytes of the route
length) do not encode the route length 7, which is held by bytes 2 to 5. -/
theorem C10_route_part_size_counterexample :
    4 * (demoOps.append_float32_auto 0).length + 8 = 24 ∧
    (demoCollab 0 false).autopilot_get_route_len [] = 7 ∧
    (sentPackets (commands_process_packet demoOps demoEnv (demoCollab 0 false)
        (Mem.ofList [1, 10, 0, 0, 0, 0, 20]) 7 5 (demoState 9 demoConfig)).1.trace).map
        (fun d => (d.length, (buffer_get_int32 (Mem.ofList d) 0).1,
          (buffer_get_int32 (Mem.ofList d) 2).1))
      = [(486, 17432576, 7)] ∧
    486 ≠ 2 + 20 * 24 := by
  decide

/-- C10 (amended): an accepted `CMD_AP_GET_ROUTE_PART` request with count 20,
while a send function is active, the start index plus 20 fits a signed 32-bit
integer and every adaptive float takes `asz` bytes.  The route length and the
20 points from the start index on are queried, and the one packet sent is
`6 + 20 * point_size` bytes long with `point_size = 4 * asz + 8`: the reply id
and the command id, then four bytes (indices 2 to 5) that encode the route
length, then the points. -/
theorem C10_route_part_reply_size (X : FloatOps F) (K : Env) (C : Collab F) (data : Mem)
    (len func asz : Nat) (s : State F) (hacc : Accepted K data len)
    (hcmd : K.cmd (data 1) = some .CMD_AP_GET_ROUTE_PART) (hnum : data 6 = 20)
    (hsend : s.m_send_func ≠ 0) (hasz : ∀ x, (X.append_float32_auto x).length = asz)
    (hfirst : (buffer_get_int32 (data.shift 2) 0).1 + 20 < 2 ^ 31)
    (hlo : -2 ^ 31 ≤ C.autopilot_get_route_len s.trace)
    (hhi : C.autopilot_get_route_len s.trace < 2 ^ 31) :
    ∃ reply,
      (commands_process_packet X K C data len func s).1.trace
        = s.trace ++ [.autopilot_get_route_len]
          ++ ((List.range 20).map fun j =>
              .autopilot_get_route_point ((buffer_get_int32 (data.shift 2) 0).1 + (j : Nat)))
          ++ [.send s.m_send_func reply, specificCall K data len func] ∧
      reply.length = 6 + 20 * (4 * asz + 8) ∧
      reply.take 2 = [replyId K (data 0) % 256, K.code .CMD_AP_GET_ROUTE_PART % 256] ∧
      (buffer_get_int32 (Mem.ofList reply) 2).1 = C.autopilot_get_route_len s.trace := by
  obtain ⟨hlen, hpre, hrecv⟩ := hacc
  have h6 : data.shift 2 4 = 20 := hnum
  have hge := toInt32_ge (buffer_get_uint32 (data.shift 2) 0).1
  have hb : toInt32 (toBits 32 ((buffer_get_int32 (data.shift 2) 0).1 + ((20 : Nat) : Int)))
      = (buffer_get_int32 (data.shift 2) 0).1 + ((20 : Nat) : Int) := by
    apply toInt32_toBits
    · simp only [buffer_get_int32]; push_cast; omega
    · push_cast; omega
  obtain ⟨h1, h2, h3⟩ := ap_get_route_part_loop_run X C asz hasz
    ((buffer_get_int32 (data.shift 2) 0).1 + ((20 : Nat) : Int)) 20
    (buffer_get_int32 (data.shift 2) 0).1
    (buffer_append_int32 (C.autopilot_get_route_len s.trace)
      (((SendBuf.mk s.m_send_buffer 0).put (replyId K (data 0))).put
        (K.code .CMD_AP_GET_ROUTE_PART)))
    (s.call .autopilot_get_route_len) rfl
  refine ⟨(ap_get_route_part_loop X C
      ((buffer_get_int32 (data.shift 2) 0).1 + ((20 : Nat) : Int)) 20
      (buffer_get_int32 (data.shift 2) 0).1
      (buffer_append_int32 (C.autopilot_get_route_len s.trace)
        (((SendBuf.mk s.m_send_buffer 0).put (replyId K (data 0))).put
          (K.code .CMD_AP_GET_ROUTE_PART)))
      (s.call .autopilot_get_route_len)).1.bytes, ?_, ?_, ?_, ?_⟩
  · have hbuf : (buffer_get_int32 (data.shift 2) 0).2 = 4 := rfl
    simp only [commands_process_packet, hlen, hpre, hrecv, hcmd, if_true, if_false,
      cmd_ap_get_route_part, hbuf, h6, gt_iff_lt, Nat.lt_irrefl, hb, send_buffer,
      commands_send_packet, ← replyId.eq_1]
    rw [h1]
    simp [State.call, hsend, specificCall, payloadLen, SendBuf.bytes]
  · rw [SendBuf.bytes, bytes_length, h2]
    simp
  · have hk := (((SendBuf.Keeps.self (((SendBuf.mk s.m_send_buffer 0).put
      (replyId K (data 0))).put (K.code .CMD_AP_GET_ROUTE_PART))).int32
      (C.autopilot_get_route_len s.trace)).step h3).take
    simpa using hk
  · have hidx : (buffer_append_int32 (C.autopilot_get_route_len s.trace)
        (((SendBuf.mk s.m_send_buffer 0).put (replyId K (data 0))).put
          (K.code .CMD_AP_GET_ROUTE_PART))).send_index = 6 := rfl
    simp only [SendBuf.bytes]
    rw [buffer_get_int32_congr _ _ 2 (fun j hj => ofList_bytes _ _ (2 + j) (by rw [h2]; omega)),
      buffer_get_int32_congr _ _ 2 (fun j hj => h3.2 (2 + j) (by rw [hidx]; omega))]
    exact buffer_get_int32_append _ _ hlo hhi

/-- C10 (amended) at a request for 20 points from index 0, with 4-byte
adaptive floats: the packet sent is `6 + 20 * 24 = 486` bytes long. -/
theorem C10_route_part_reply_size_witness :
    ∃ reply,
      (commands_process_packet demoOps demoEnv (demoCollab 0 false)
          (Mem.ofList [1, 10, 0, 0, 0, 0, 20]) 7 5 (demoState 9 demoConfig)).1.trace
        = (demoState 9 demoConfig).trace ++ [.autopilot_get_route_len]
          ++ ((List.range 20).map fun j =>
              .autopilot_get_route_point
                ((buffer_get_int32 ((Mem.ofList [1, 10, 0, 0, 0, 0, 20]).shift 2) 0).1 + (j : Nat)))
          ++ [.send (demoState 9 demoConfig).m_send_func reply,
              specificCall demoEnv (Mem.ofList [1, 10, 0, 0, 0, 0, 20]) 7 5] ∧
      reply.length = 6 + 20 * (4 * 4 + 8) ∧
      reply.take 2 = [replyId demoEnv (Mem.ofList [1, 10, 0, 0, 0, 0, 20] 0) % 256,
        demoEnv.code .CMD_AP_GET_ROUTE_PART % 256] ∧
      (buffer_get_int32 (Mem.ofList reply) 2).1
        = (demoCollab 0 false).autopilot_get_route_len (demoState 9 demoConfig).trace :=
  C10_route_part_reply_size demoOps demoEnv (demoCollab 0 false)
    (Mem.ofList [1, 10, 0, 0, 0, 0, 20]) 7 5 4 (demoState 9 demoConfig)
    ⟨by decide, by decide, by decide⟩ (by decide) (by decide) (by decide)
    (fun _ => bytes_length _ _) (by decide) (by decide) (by decide)

/-! ## Theorems -/

/-- C1, as stated, fails: a two-byte buffer whose first byte is the RTCM3
preamble `0xD3` is addressed to none of `main_id`, `ID_ALL`, `ID_CAR_CLIENT`,
yet a warning packet is passed to the active send function. -/
theorem C1_preamble_counterexample :
    Mem.ofList [211, 0] 0 ≠ demoEnv.main_id ∧ Mem.ofList [211, 0] 0 ≠ demoEnv.ID_ALL ∧
    Mem.ofList [211, 0] 0 ≠ demoEnv.ID_CAR_CLIENT ∧
    (commands_process_packet demoOps demoEnv (demoCollab 0 false) (Mem.ofList [211, 0]) 2 5
        (demoState 9 demoConfig)).1.trace
      = [.send 9 ([1, 0] ++ rtcm3_warning)] := by
  decide

/-- C1 (amended): a buffer of length at least 2 whose first byte is neither the
RTCM3 preamble nor one of `main_id`, `ID_ALL`, `ID_CAR_CLIENT` is ignored: the
state (record of calls, active send function, buffers, configuration) and the
receive buffer are returned unchanged. -/
theorem C1_unaddressed_packet_ignored (X : FloatOps F) (K : Env) (C : Collab F) (data : Mem)
    (len func : Nat) (s : State F) (hlen : 2 ≤ len) (hpre : data 0 ≠ RTCM3PREAMB)
    (h1 : data 0 ≠ K.main_id) (h2 : data 0 ≠ K.ID_ALL) (h3 : data 0 ≠ K.ID_CAR_CLIENT) :
    commands_process_packet X K C data len func s = (s, data) := by
  have hl : len ≠ 0 := by omega
  simp [commands_process_packet, hl, hpre, h1, h2, h3]

/-- C1 (amended), at a packet addressed to node 3 while this node is 1. -/
theorem C1_unaddressed_packet_ignored_witness :
    commands_process_packet demoOps demoEnv (demoCollab 0 false) (Mem.ofList [3, 1, 65]) 3 5
        (demoState 9 demoConfig)
      = (demoState 9 demoConfig, Mem.ofList [3, 1, 65]) :=
  C1_unaddressed_packet_ignored demoOps demoEnv (demoCollab 0 false) (Mem.ofList [3, 1, 65]) 3 5
    (demoState 9 demoConfig) (by decide) (by decide) (by decide) (by decide) (by decide)

/-! ## Reading an encoded record back -/

theorem holds_append {m : Mem} {i : Nat} {a b : List Nat} (h : Holds m i (a ++ b)) :
    Holds m i a ∧ Holds m (i + a.length) b := by
  constructor
  · intro j hj
    rw [h j (by rw [List.length_append]; omega), List.getD_append _ _ _ _ hj]
  · intro j hj
    have := h (a.length + j) (by rw [List.length_append]; omega)
    rw [List.getD_append_right _ _ _ _ (by omega)] at this
    rw [Nat.add_assoc, this]
    congr 1
    omega

theorem holds_byte {m : Mem} {i v : Nat} {tl : List Nat} (hv : v < 256)
    (h : Holds m i ([v % 256] ++ tl)) : m i = v ∧ Holds m (i + 1) tl := by
  obtain ⟨h1, h2⟩ := holds_append h
  refine ⟨?_, h2⟩
  have := h1 0 (by simp)
  simpa [Nat.mod_eq_of_lt hv] using this

theorem holds_auto {X : FloatOps F} (hrt : AutoRoundTrip X) {m : Mem} {i : Nat} {x : F}
    {tl : List Nat} (h : Holds m i (autoWire X x ++ tl)) :
    buffer_get_float32_auto X m i = (x, i + (X.append_float32_auto x).length) ∧
      Holds m (i + (X.append_float32_auto x).length) tl := by
  obtain ⟨h1, h2⟩ := holds_append h
  refine ⟨hrt x m i h1, ?_⟩
  simpa [autoWire] using h2

theorem holds_uint32 {m : Mem} {i n : Nat} {tl : List Nat} (hn : n < 2 ^ 32)
    (h : Holds m i (be32 n ++ tl)) : buffer_get_uint32 m i = (n, i + 4) ∧ Holds m (i + 4) tl := by
  obtain ⟨h1, h2⟩ := holds_append h
  refine ⟨?_, h2⟩
  have e0 := h1 0 (by simp [be32])
  have e1 := h1 1 (by simp [be32])
  have e2 := h1 2 (by simp [be32])
  have e3 := h1 3 (by simp [be32])
  simp only [be32, List.getD_cons_zero, List.getD_cons_succ, Nat.add_zero] at e0 e1 e2 e3
  simp only [buffer_get_uint32, e0, e1, e2, e3, Prod.mk.injEq, and_true]
  omega

theorem holds_int32 {m : Mem} {i : Nat} {z : Int} {tl : List Nat} (h1 : -2 ^ 31 ≤ z)
    (h2 : z < 2 ^ 31) (h : Holds m i (be32 (toBits 32 z) ++ tl)) :
    buffer_get_int32 m i = (z, i + 4) ∧ Holds m (i + 4) tl := by
  obtain ⟨e, h3⟩ := holds_uint32 (toBits_lt z) h
  refine ⟨?_, h3⟩
  simp only [buffer_get_int32, e, toInt32_toBits z h1 h2]

theorem holds_uint16 {m : Mem} {i n : Nat} {tl : List Nat} (hn : n < 2 ^ 16)
    (h : Holds m i (be16 n ++ tl)) : buffer_get_uint16 m i = (n, i + 2) ∧ Holds m (i + 2) tl := by
  obtain ⟨h1, h2⟩ := holds_append h
  refine ⟨?_, h2⟩
  have e0 := h1 0 (by simp [be16])
  have e1 := h1 1 (by simp [be16])
  simp only [be16, List.getD_cons_zero, List.getD_cons_succ, Nat.add_zero] at e0 e1
  simp only [buffer_get_uint16, e0, e1, Prod.mk.injEq, and_true]
  omega

theorem holds_int16 {m : Mem} {i : Nat} {z : Int} {tl : List Nat} (h1 : -2 ^ 15 ≤ z)
    (h2 : z < 2 ^ 15) (h : Holds m i (be16 (toBits 16 z) ++ tl)) :
    buffer_get_int16 m i = (z, i + 2) ∧ Holds m (i + 2) tl := by
  have hb : toBits 16 z < 2 ^ 16 := by unfold toBits; omega
  obtain ⟨e, h3⟩ := holds_uint16 hb h
  refine ⟨?_, h3⟩
  have hz : toInt16 (toBits 16 z) = z := by
    unfold toInt16
    rw [Nat.mod_eq_of_lt hb]
    unfold toBits
    split <;> omega
  simp only [buffer_get_int16, e, hz]

theorem cstring_of_holds (m : Mem) (s : List Nat) (hs : ∀ c ∈ s, c ≠ 0) :
    ∀ (i fuel : Nat), s.length < fuel → Holds m i (s ++ [0]) → cstring m i fuel = s := by
  induction s with
  | nil =>
    intro i fuel hf h
    obtain ⟨fuel, rfl⟩ : ∃ f, fuel = f + 1 := ⟨fuel - 1, by simp at hf; omega⟩
    have := h 0 (by simp)
    simp at this
    simp [cstring, this]
  | cons c s ih =>
    intro i fuel hf h
    obtain ⟨fuel, rfl⟩ : ∃ f, fuel = f + 1 := ⟨fuel - 1, by omega⟩
    have h0 := h 0 (by simp)
    simp at h0
    have hc : c ≠ 0 := hs c (by simp)
    have htl : Holds m (i + 1) (s ++ [0]) := by
      have := (holds_append (a := [c]) (b := s ++ [0]) (by simpa using h)).2
      simpa using this
    simp [cstring, h0, hc]
    exact ih (fun c hc => hs c (by simp [hc])) (i + 1) fuel (by simp at hf; omega) htl

theorem holds_cstr {m : Mem} {i : Nat} {s tl : List Nat} (hs : ∀ c ∈ s, c ≠ 0 ∧ c < 256)
    (hl : s.length < ADDR_SPACE) (h : Holds m i (cstrWire s ++ tl)) :
    cstring m i ADDR_SPACE = s ∧ Holds m (i + (strlen s + 1)) tl := by
  have htw : s.takeWhile (fun c => c ≠ 0) = s := by
    rw [List.takeWhile_eq_self_iff]
    intro c hc
    simpa using (hs c hc).1
  have hmap : (s ++ [0]).map (fun v => v % 256) = s ++ [0] := by
    rw [List.map_append]
    congr 1
    conv_rhs => rw [← List.map_id s]
    apply List.map_congr_left
    intro c hc
    exact Nat.mod_eq_of_lt (hs c hc).2
  have hw : cstrWire s = s ++ [0] := by rw [cstrWire, htw, hmap]
  have hlen : strlen s = s.length := by rw [strlen, htw]
  rw [hw] at h
  obtain ⟨h1, h2⟩ := holds_append h
  refine ⟨cstring_of_holds m s (fun c hc => (hs c hc).1) i ADDR_SPACE hl h1, ?_⟩
  rw [hlen]
  simpa using h2

/-! ## The configuration encoder writes the wire image -/

theorem bytes_float32_auto (X : FloatOps F) (x : F) (w : SendBuf) :
    (buffer_append_float32_auto X x w).bytes = w.bytes ++ autoWire X x :=
  bytes_puts _ _

theorem bytes_uint32 (n : Nat) (w : SendBuf) :
    (buffer_append_uint32 n w).bytes = w.bytes ++ be32 n := by
  simp [buffer_append_uint32, be32]

theorem bytes_int32 (z : Int) (w : SendBuf) :
    (buffer_append_int32 z w).bytes = w.bytes ++ be32 (toBits 32 z) :=
  bytes_uint32 _ _

theorem bytes_uint16 (n : Nat) (w : SendBuf) :
    (buffer_append_uint16 n w).bytes = w.bytes ++ be16 n := by
  simp [buffer_append_uint16, be16]

theorem bytes_int16 (z : Int) (w : SendBuf) :
    (buffer_append_int16 z w).bytes = w.bytes ++ be16 (toBits 16 z) :=
  bytes_uint16 _ _

theorem bytes_strcpy (s : List Nat) (w : SendBuf) :
    (SendBuf.mk (strcpy w.buf w.send_index s) (w.send_index + (strlen s + 1))).bytes
      = w.bytes ++ cstrWire s := by
  have h : SendBuf.mk (strcpy w.buf w.send_index s) (w.send_index + (strlen s + 1))
      = w.puts (s.takeWhile (fun c => c ≠ 0) ++ [0]) := by
    have hi := puts_send_index (s.takeWhile (fun c => c ≠ 0) ++ [0]) w
    rw [List.length_append] at hi
    cases hw : w.puts (s.takeWhile (fun c => c ≠ 0) ++ [0]) with
    | mk b i =>
      rw [hw] at hi
      simp only [strcpy, strlen]
      congr 1
      · show (SendBuf.puts _ w).buf = b
        rw [hw]
      · simpa using hi.symm
  rw [h, bytes_puts, cstrWire]

theorem get_main_config_general_bytes (X : FloatOps F) (c : MAIN_CONFIG F) (w : SendBuf) (tl : List Nat) :
    (get_main_config_general X c w).bytes ++ tl = w.bytes ++ generalWire X c tl := by
  simp only [get_main_config_general, generalWire, bytes_put, bytes_float32_auto, bytes_uint32, bytes_int32, bytes_uint16, bytes_int16,
    bytes_strcpy, List.append_assoc]

theorem get_main_config_log_bytes (c : MAIN_CONFIG F) (w : SendBuf) (tl : List Nat) :
    (get_main_config_log c c w).bytes ++ tl = w.bytes ++ logWire c tl := by
  simp only [get_main_config_log, logWire, bytes_put, bytes_float32_auto, bytes_uint32, bytes_int32, bytes_uint16, bytes_int16,
    bytes_strcpy, List.append_assoc]

theorem get_main_config_car_bytes (X : FloatOps F) (c : MAIN_CONFIG F) (w : SendBuf) (tl : List Nat) :
    (get_main_config_car X c w).bytes ++ tl = w.bytes ++ carWire X c tl := by
  simp only [get_main_config_car, carWire, bytes_put, bytes_float32_auto, bytes_uint32, bytes_int32, bytes_uint16, bytes_int16,
    bytes_strcpy, List.append_assoc]

theorem get_main_config_mr_bytes (X : FloatOps F) (c : MAIN_CONFIG F) (w : SendBuf) (tl : List Nat) :
    (get_main_config_mr X c w).bytes ++ tl = w.bytes ++ mrWire X c tl := by
  simp only [get_main_config_mr, mrWire, bytes_put, bytes_float32_auto, bytes_uint32, bytes_int32, bytes_uint16, bytes_int16,
    bytes_strcpy, List.append_assoc]

/-! ## The configuration decoder reads the wire image back -/

theorem set_main_config_general_holds (X : FloatOps F) (hrt : AutoRoundTrip X) (c : MAIN_CONFIG F) (hwf : c.Wire)
    (data : Mem) (c0 : MAIN_CONFIG F) (ind : Nat) (tl : List Nat)
    (h : Holds data ind (generalWire X c tl)) :
    ∃ ind', set_main_config_general X data c0 ind
        = ({ c0 with
          mag_use := c.mag_use,
          mag_comp := c.mag_comp,
          yaw_mag_gain := c.yaw_mag_gain,
          mag_cal_cx := c.mag_cal_cx,
          mag_cal_cy := c.mag_cal_cy,
          mag_cal_cz := c.mag_cal_cz,
          mag_cal_xx := c.mag_cal_xx,
          mag_cal_xy := c.mag_cal_xy,
          mag_cal_xz := c.mag_cal_xz,
          mag_cal_yx := c.mag_cal_yx,
          mag_cal_yy := c.mag_cal_yy,
          mag_cal_yz := c.mag_cal_yz,
          mag_cal_zx := c.mag_cal_zx,
          mag_cal_zy := c.mag_cal_zy,
          mag_cal_zz := c.mag_cal_zz,
          gps_ant_x := c.gps_ant_x,
          gps_ant_y := c.gps_ant_y,
          gps_comp := c.gps_comp,
          gps_req_rtk := c.gps_req_rtk,
          gps_use_rtcm_base_as_enu_ref := c.gps_use_rtcm_base_as_enu_ref,
          gps_corr_gain_stat := c.gps_corr_gain_stat,
          gps_corr_gain_dyn := c.gps_corr_gain_dyn,
          gps_corr_gain_yaw := c.gps_corr_gain_yaw,
          gps_send_nmea := c.gps_send_nmea,
          gps_use_ubx_info := c.gps_use_ubx_info,
          gps_ubx_max_acc := c.gps_ubx_max_acc,
          uwb_max_corr := c.uwb_max_corr,
          ap_repeat_routes := c.ap_repeat_routes,
          ap_base_rad := c.ap_base_rad,
          ap_rad_time_ahead := c.ap_rad_time_ahead,
          ap_mode_time := c.ap_mode_time,
          ap_max_speed := c.ap_max_speed,
          ap_time_add_repeat_ms := c.ap_time_add_repeat_ms }, ind') ∧
      Holds data ind' tl := by
  unfold generalWire at h
  obtain ⟨e1, h⟩ := holds_byte hwf.mag_use h
  obtain ⟨e2, h⟩ := holds_byte hwf.mag_comp h
  obtain ⟨e3, h⟩ := holds_auto hrt h
  obtain ⟨e4, h⟩ := holds_auto hrt h
  obtain ⟨e5, h⟩ := holds_auto hrt h
  obtain ⟨e6, h⟩ := holds_auto hrt h
  obtain ⟨e7, h⟩ := holds_auto hrt h
  obtain ⟨e8, h⟩ := holds_auto hrt h
  obtain ⟨e9, h⟩ := holds_auto hrt h
  obtain ⟨e10, h⟩ := holds_auto hrt h
  obtain ⟨e11, h⟩ := holds_auto hrt h
  obtain ⟨e12, h⟩ := holds_auto hrt h
  obtain ⟨e13, h⟩ := holds_auto hrt h
  obtain ⟨e14, h⟩ := holds_auto hrt h
  obtain ⟨e15, h⟩ := holds_auto hrt h
  obtain ⟨e16, h⟩ := holds_auto hrt h
  obtain ⟨e17, h⟩ := holds_auto hrt h
  obtain ⟨e18, h⟩ := holds_byte hwf.gps_comp h
  obtain ⟨e19, h⟩ := holds_byte hwf.gps_req_rtk h
  obtain ⟨e20, h⟩ := holds_byte hwf.gps_use_rtcm_base_as_enu_ref h
  obtain ⟨e21, h⟩ := holds_auto hrt h
  obtain ⟨e22, h⟩ := holds_auto hrt h
  obtain ⟨e23, h⟩ := holds_auto hrt h
  obtain ⟨e24, h⟩ := holds_byte hwf.gps_send_nmea h
  obtain ⟨e25, h⟩ := holds_byte hwf.gps_use_ubx_info h
  obtain ⟨e26, h⟩ := holds_auto hrt h
  obtain ⟨e27, h⟩ := holds_auto hrt h
  obtain ⟨e28, h⟩ := holds_byte hwf.ap_repeat_routes h
  obtain ⟨e29, h⟩ := holds_auto hrt h
  obtain ⟨e30, h⟩ := holds_auto hrt h
  obtain ⟨e31, h⟩ := holds_byte hwf.ap_mode_time h
  obtain ⟨e32, h⟩ := holds_auto hrt h
  obtain ⟨e33, h⟩ := holds_int32 hwf.ap_time_add_repeat_ms.1 hwf.ap_time_add_repeat_ms.2 h
  refine ⟨_, ?_, h⟩
  simp only [set_main_config_general, e1, e2, e3, e4, e5, e6, e7, e8, e9, e10, e11, e12, e13,
    e14, e15, e16, e17, e18, e19, e20, e21, e22, e23, e24, e25, e26, e27, e28, e29, e30, e31,
    e32, e33]

theorem set_main_config_log_holds (c : MAIN_CONFIG F) (hwf : c.Wire)
    (data : Mem) (c0 : MAIN_CONFIG F) (ind : Nat) (tl : List Nat)
    (h : Holds data ind (logWire c tl)) :
    ∃ ind', set_main_config_log data c0 ind
        = ({ c0 with
          log_rate_hz := c.log_rate_hz,
          log_en := c.log_en,
          log_name := c.log_name,
          log_mode_ext := c.log_mode_ext,
          log_uart_baud := c.log_uart_baud }, ind') ∧
      Holds data ind' tl := by
  unfold logWire at h
  obtain ⟨e1, h⟩ := holds_int16 hwf.log_rate_hz.1 hwf.log_rate_hz.2 h
  obtain ⟨e2, h⟩ := holds_byte hwf.log_en h
  obtain ⟨e3, h⟩ := holds_cstr hwf.log_name hwf.log_name_length h
  obtain ⟨e4, h⟩ := holds_byte hwf.log_mode_ext h
  obtain ⟨e5, h⟩ := holds_uint32 hwf.log_uart_baud h
  refine ⟨_, ?_, h⟩
  simp only [set_main_config_log, e1, e2, e3, e4, e5]

theorem set_main_config_car_holds (X : FloatOps F) (hrt : AutoRoundTrip X) (c : MAIN_CONFIG F) (hwf : c.Wire)
    (data : Mem) (c0 : MAIN_CONFIG F) (ind : Nat) (tl : List Nat)
    (h : Holds data ind (carWire X c tl)) :
    ∃ ind', set_main_config_car X data c0 ind
        = ({ c0 with car := c.car }, ind') ∧
      Holds data ind' tl := by
  unfold carWire at h
  obtain ⟨e1, h⟩ := holds_byte hwf.car_yaw_use_odometry h
  obtain ⟨e2, h⟩ := holds_auto hrt h
  obtain ⟨e3, h⟩ := holds_byte hwf.car_disable_motor h
  obtain ⟨e4, h⟩ := holds_byte hwf.car_simulate_motor h
  obtain ⟨e5, h⟩ := holds_byte hwf.car_clamp_imu_yaw_stationary h
  obtain ⟨e6, h⟩ := holds_byte hwf.car_use_uwb_pos h
  obtain ⟨e7, h⟩ := holds_auto hrt h
  obtain ⟨e8, h⟩ := holds_auto hrt h
  obtain ⟨e9, h⟩ := holds_auto hrt h
  obtain ⟨e10, h⟩ := holds_auto hrt h
  obtain ⟨e11, h⟩ := holds_auto hrt h
  obtain ⟨e12, h⟩ := holds_auto hrt h
  obtain ⟨e13, h⟩ := holds_auto hrt h
  obtain ⟨e14, h⟩ := holds_auto hrt h
  refine ⟨_, ?_, h⟩
  simp only [set_main_config_car, e1, e2, e3, e4, e5, e6, e7, e8, e9, e10, e11, e12, e13, e14]

theorem set_main_config_mr_holds (X : FloatOps F) (hrt : AutoRoundTrip X) (c : MAIN_CONFIG F) (hwf : c.Wire)
    (data : Mem) (c0 : MAIN_CONFIG F) (ind : Nat) (tl : List Nat)
    (h : Holds data ind (mrWire X c tl)) :
    ∃ ind', set_main_config_mr X data c0 ind
        = ({ c0 with mr := c.mr }, ind') ∧
      Holds data ind' tl := by
  unfold mrWire at h
  obtain ⟨e1, h⟩ := holds_auto hrt h
  obtain ⟨e2, h⟩ := holds_auto hrt h
  obtain ⟨e3, h⟩ := holds_auto hrt h
  obtain ⟨e4, h⟩ := holds_auto hrt h
  obtain ⟨e5, h⟩ := holds_auto hrt h
  obtain ⟨e6, h⟩ := holds_auto hrt h
  obtain ⟨e7, h⟩ := holds_auto hrt h
  obtain ⟨e8, h⟩ := holds_auto hrt h
  obtain ⟨e9, h⟩ := holds_auto hrt h
  obtain ⟨e10, h⟩ := holds_auto hrt h
  obtain ⟨e11, h⟩ := holds_auto hrt h
  obtain ⟨e12, h⟩ := holds_auto hrt h
  obtain ⟨e13, h⟩ := holds_auto hrt h
  obtain ⟨e14, h⟩ := holds_auto hrt h
  obtain ⟨e15, h⟩ := holds_auto hrt h
  obtain ⟨e16, h⟩ := holds_auto hrt h
  obtain ⟨e17, h⟩ := holds_auto hrt h
  obtain ⟨e18, h⟩ := holds_auto hrt h
  obtain ⟨e19, h⟩ := holds_auto hrt h
  obtain ⟨e20, h⟩ := holds_auto hrt h
  obtain ⟨e21, h⟩ := holds_auto hrt h
  obtain ⟨e22, h⟩ := holds_auto hrt h
  obtain ⟨e23, h⟩ := holds_auto hrt h
  obtain ⟨e24, h⟩ := holds_auto hrt h
  obtain ⟨e25, h⟩ := holds_auto hrt h
  obtain ⟨e26, h⟩ := holds_auto hrt h
  obtain ⟨e27, h⟩ := holds_auto hrt h
  obtain ⟨e28, h⟩ := holds_auto hrt h
  obtain ⟨e29, h⟩ := holds_auto hrt h
  obtain ⟨e30, h⟩ := holds_auto hrt h
  obtain ⟨e31, h⟩ := holds_auto hrt h
  obtain ⟨e32, h⟩ := holds_auto hrt h
  obtain ⟨e33, h⟩ := holds_auto hrt h
  obtain ⟨e34, h⟩ := holds_auto hrt h
  obtain ⟨e35, h⟩ := holds_auto hrt h
  obtain ⟨e36, h⟩ := holds_byte hwf.mr_js_mode_rate h
  obtain ⟨e37, h⟩ := holds_byte hwf.mr_motor_fl_f h
  obtain ⟨e38, h⟩ := holds_byte hwf.mr_motor_bl_l h
  obtain ⟨e39, h⟩ := holds_byte hwf.mr_motor_fr_r h
  obtain ⟨e40, h⟩ := holds_byte hwf.mr_motor_br_b h
  obtain ⟨e41, h⟩ := holds_byte hwf.mr_motors_x h
  obtain ⟨e42, h⟩ := holds_byte hwf.mr_motors_cw h
  obtain ⟨e43, h⟩ := holds_uint16 hwf.mr_motor_pwm_min_us h
  obtain ⟨e44, h⟩ := holds_uint16 hwf.mr_motor_pwm_max_us h
  refine ⟨_, ?_, h⟩
  simp only [set_main_config_mr, e1, e2, e3, e4, e5, e6, e7, e8, e9, e10, e11, e12, e13, e14,
    e15, e16, e17, e18, e19, e20, e21, e22, e23, e24, e25, e26, e27, e28, e29, e30, e31, e32,
    e33, e34, e35, e36, e37, e38, e39, e40, e41, e42, e43, e44]

/-! ## Configuration round trip -/

theorem cmd_code {K : Env} {p : Nat} {c : CMD_PACKET} (h : K.cmd p = some c) : K.code c = p := by
  have := List.find?_some h
  simpa using this

/-- The reply to `CMD_GET_MAIN_CONFIG`: the two header bytes and the wire image
of the live configuration. -/
theorem cmd_get_main_config_current (X : FloatOps F) (K : Env) (C : Collab F)
    (id_ret packet_id func : Nat) (s : State F) (hp : packet_id = K.code .CMD_GET_MAIN_CONFIG)
    (hfunc : func ≠ 0) :
    (cmd_get_main_config X K C id_ret packet_id func s).trace
      = s.trace ++ [.send func ([id_ret % 256, packet_id % 256] ++ configWire X s.main_config)] := by
  have hb := get_main_config_mr_bytes X s.main_config
    (get_main_config_car X s.main_config
      (get_main_config_log s.main_config s.main_config
        (get_main_config_general X s.main_config
          (((SendBuf.mk s.m_send_buffer 0).put id_ret).put packet_id)))) []
  rw [get_main_config_car_bytes, get_main_config_log_bytes, get_main_config_general_bytes,
    List.append_nil] at hb
  simp only [bytes_put, bytes_mk_zero, List.nil_append] at hb
  simp only [cmd_get_main_config, hp, if_true, commands_set_send_func, send_buffer,
    commands_send_packet, ne_eq, hfunc, not_false_eq_true, State.call, ← SendBuf.bytes.eq_1]
  rw [← hp, hb]
  simp [configWire]

/-- `CMD_SET_MAIN_CONFIG` on a payload that holds the wire image of `c`: the live
configuration becomes `c`. -/
theorem cmd_set_main_config_decodes (X : FloatOps F) (hrt : AutoRoundTrip X) (c : MAIN_CONFIG F)
    (hwf : c.Wire) (data : Mem) (id_ret packet_id func : Nat) (s : State F)
    (h : Holds data 0 (configWire X c)) :
    (cmd_set_main_config X data id_ret packet_id func s).main_config = c := by
  unfold configWire at h
  obtain ⟨i1, e1, h⟩ := set_main_config_general_holds X hrt c hwf data s.main_config 0 _ h
  obtain ⟨i2, e2, h⟩ := set_main_config_log_holds c hwf data
    (set_main_config_general X data s.main_config 0).1 i1 _ h
  obtain ⟨i3, e3, h⟩ := set_main_config_car_holds X hrt c hwf data
    (set_main_config_log data (set_main_config_general X data s.main_config 0).1 i1).1 i2 _ h
  obtain ⟨i4, e4, h⟩ := set_main_config_mr_holds X hrt c hwf data
    (set_main_config_car X data
      (set_main_config_log data (set_main_config_general X data s.main_config 0).1 i1).1 i2).1
    i3 _ h
  have key : ∀ t : State F, (send_ack id_ret packet_id t).main_config = t.main_config := by
    intro t
    simp only [send_ack, send_buffer, commands_send_packet]
    split <;> rfl
  simp only [cmd_set_main_config, key, call_main_config, commands_set_send_func]
  simp only [e1] at e2 e3 e4 ⊢
  simp only [e2] at e3 e4 ⊢
  simp only [e3] at e4 ⊢
  simp only [e4]

theorem holds_ofList_payload (a b : Nat) (l : List Nat) :
    Holds ((Mem.ofList ([a, b] ++ l)).shift 2) 0 l := by
  intro j _
  simp [Mem.shift, Mem.ofList, Nat.add_comm]

/-- C5: when the live configuration is `cfg`, the reply to `CMD_GET_MAIN_CONFIG`
is one packet; feeding its bytes after the two header bytes as the payload of
`CMD_SET_MAIN_CONFIG`, in any state, leaves the live configuration equal to
`cfg`.  The scalar codecs are assumed to round-trip on the field values: the
adaptive decoder undoes the adaptive encoder, and the fields of `cfg` fit
their wire format (`cfg.Wire`); the log name may have any length, 0 included. -/
theorem C5_config_round_trip (X : FloatOps F) (K : Env) (C : Collab F) (cfg : MAIN_CONFIG F)
    (hrt : AutoRoundTrip X) (hwf : cfg.Wire)
    (get : Mem) (glen gfunc : Nat) (s : State F) (hs : s.main_config = cfg)
    (hget : Accepted K get glen) (hgcmd : K.cmd (get 1) = some .CMD_GET_MAIN_CONFIG)
    (hgfunc : gfunc ≠ 0)
    (rid pid sfunc : Nat) (s2 : State F) (hpre : rid ≠ RTCM3PREAMB)
    (hrecv : rid = K.main_id ∨ rid = K.ID_ALL ∨ rid = K.ID_CAR_CLIENT)
    (hscmd : K.cmd pid = some .CMD_SET_MAIN_CONFIG) :
    ∃ reply,
      (commands_process_packet X K C get glen gfunc s).1.trace
        = s.trace ++ [.send gfunc reply, specificCall K get glen gfunc] ∧
      (commands_process_packet X K C (Mem.ofList ([rid, pid] ++ reply.drop 2))
        (2 + (reply.length - 2)) sfunc s2).1.main_config = cfg := by
  obtain ⟨hlen, hgpre, hgrecv⟩ := hget
  refine ⟨[replyId K (get 0) % 256, get 1 % 256] ++ configWire X cfg, ?_, ?_⟩
  · have ht := cmd_get_main_config_current X K C (replyId K (get 0)) (get 1) gfunc s
      (cmd_code hgcmd).symm hgfunc
    simp only [commands_process_packet, hlen, hgpre, hgrecv, hgcmd, if_true, if_false,
      specificCall, payloadLen, call_trace, ← replyId.eq_1]
    rw [ht, hs]
    simp
  · have hh := holds_ofList_payload rid pid
      (([replyId K (get 0) % 256, get 1 % 256] ++ configWire X cfg).drop 2)
    have hd : ([replyId K (get 0) % 256, get 1 % 256] ++ configWire X cfg).drop 2
        = configWire X cfg := rfl
    rw [hd] at hh ⊢
    have h0 : (Mem.ofList ([rid, pid] ++ configWire X cfg)) 0 = rid := rfl
    have h1 : (Mem.ofList ([rid, pid] ++ configWire X cfg)) 1 = pid := rfl
    have hl : 2 + (([replyId K (get 0) % 256, get 1 % 256] ++ configWire X cfg).length - 2) ≠ 0 := by
      omega
    simp only [commands_process_packet, hl, h0, h1, hpre, hrecv, hscmd, if_true, if_false,
      call_main_config]
    exact cmd_set_main_config_decodes X hrt cfg hwf _ _ _ _ _ hh

theorem patternOps_round_trip : AutoRoundTrip patternOps := by
  intro x m i h
  have h' : Holds m i (be32 x.val ++ []) := by
    have hm : ∀ l : List Nat, (∀ v ∈ l, v < 256) → l.map (fun v => v % 256) = l := by
      intro l hl
      conv_rhs => rw [← List.map_id l]
      exact List.map_congr_left fun v hv => Nat.mod_eq_of_lt (hl v hv)
    have hb : (be32 x.val).map (fun v => v % 256) = be32 x.val := by
      apply hm
      intro v hv
      simp only [be32, List.mem_cons, List.mem_singleton, List.not_mem_nil, or_false] at hv
      rcases hv with rfl | rfl | rfl | rfl <;> exact Nat.mod_lt _ (by decide)
    simpa [autoWire, patternOps, hb] using h
  obtain ⟨e, _⟩ := holds_uint32 x.isLt h'
  show ((⟨(buffer_get_uint32 m i).1 % 2 ^ 32, _⟩ : Fin (2 ^ 32)), i + 4) = (x, i + 4)
  congr 1
  apply Fin.ext
  simp only [e]
  exact Nat.mod_eq_of_lt x.isLt

/-- C5 at the configuration `tripConfig` (log name "trip1"), read by node 1 and
written back into a state whose configuration is `zeroConfig 0`. -/
theorem C5_config_round_trip_witness :
    ∃ reply,
      (commands_process_packet patternOps demoEnv (idleCollab 0) (Mem.ofList [1, 18]) 2 5
          ⟨fun _ => 0, 0, fun _ => 0, tripConfig, []⟩).1.trace
        = (State.mk (fun _ => 0) 0 (fun _ => 0) tripConfig []).trace
          ++ [.send 5 reply, specificCall demoEnv (Mem.ofList [1, 18]) 2 5] ∧
      (commands_process_packet patternOps demoEnv (idleCollab 0)
          (Mem.ofList ([1, 17] ++ reply.drop 2)) (2 + (reply.length - 2)) 6
          ⟨fun _ => 0, 0, fun _ => 0, zeroConfig 0, []⟩).1.main_config = tripConfig :=
  C5_config_round_trip patternOps demoEnv (idleCollab 0) tripConfig patternOps_round_trip
    (by constructor <;> decide) (Mem.ofList [1, 18]) 2 5
    ⟨fun _ => 0, 0, fun _ => 0, tripConfig, []⟩ rfl ⟨by decide, by decide, by decide⟩
    (by decide) (by decide) 1 17 6 ⟨fun _ => 0, 0, fun _ => 0, zeroConfig 0, []⟩ (by decide)
    (by decide) (by decide)

/-! ## Unknown ids, set-active, sync point, plain and acknowledged variants -/

theorem shift_restore (data : Mem) :
    (fun j => if j < 2 then data j else data.shift 2 (j - 2)) = data := by
  funext j
  by_cases hj : j < 2
  · simp [hj]
  · simp only [hj, if_false, Mem.shift]
    congr 1
    omega

/-- C16: an accepted packet whose command id is none of the case labels of the
general switch.  The state after processing is the state before plus the
recorded call of the vehicle-specific dispatcher: no other collaborator is
called, no packet is sent, and the active send function, the send buffer and
the live configuration are as before. -/
theorem C16_unknown_command_ignored (X : FloatOps F) (K : Env) (C : Collab F) (data : Mem)
    (len func : Nat) (s : State F) (hacc : Accepted K data len)
    (hunknown : ∀ c ∈ CMD_PACKET.caseLabels, K.code c ≠ data 1) :
    commands_process_packet X K C data len func s
      = (s.call (specificCall K data len func), data) := by
  obtain ⟨hlen, hpre, hrecv⟩ := hacc
  have hnone : K.cmd (data 1) = none := by
    unfold Env.cmd
    rw [List.find?_eq_none]
    intro c hc
    simpa using hunknown c hc
  simp only [commands_process_packet, hlen, hpre, hrecv, hnone, if_true, if_false, specificCall,
    payloadLen, replyId, shift_restore]

/-- C16 at command id 200, which the demo numbering gives to no command. -/
theorem C16_unknown_command_ignored_witness :
    commands_process_packet demoOps demoEnv (demoCollab 0 false) (Mem.ofList [1, 200, 7]) 3 5
        (demoState 9 demoConfig)
      = ((demoState 9 demoConfig).call (specificCall demoEnv (Mem.ofList [1, 200, 7]) 3 5),
         Mem.ofList [1, 200, 7]) :=
  C16_unknown_command_ignored demoOps demoEnv (demoCollab 0 false) (Mem.ofList [1, 200, 7]) 3 5
    (demoState 9 demoConfig) ⟨by decide, by decide, by decide⟩ (by decide)

/-- C17: an accepted `CMD_AP_SET_ACTIVE` packet.  `autopilot_set_active` is
called once with payload byte 0, then `autopilot_reset_state` once exactly when
payload byte 1 is non-zero, then the acknowledgement `[reply_id, command_id]`
is sent to the supplied send function, in both cases. -/
theorem C17_set_active (X : FloatOps F) (K : Env) (C : Collab F) (data : Mem)
    (len func : Nat) (s : State F) (hacc : Accepted K data len)
    (hcmd : K.cmd (data 1) = some .CMD_AP_SET_ACTIVE) (hfunc : func ≠ 0)
    (hid : replyId K (data 0) < 256) (hpid : data 1 < 256) :
    (commands_process_packet X K C data len func s).1.trace
      = s.trace ++ [.autopilot_set_active (data 2)]
          ++ (if data 3 ≠ 0 then [.autopilot_reset_state] else [])
          ++ [.send func [replyId K (data 0), data 1], specificCall K data len func] := by
  obtain ⟨hlen, hpre, hrecv⟩ := hacc
  simp only [replyId] at hid
  have h2 : data.shift 2 0 = data 2 := rfl
  have h3 : data.shift 2 1 = data 3 := rfl
  simp only [commands_process_packet, hlen, hpre, hrecv, hcmd, if_true, if_false,
    cmd_ap_set_active, specificCall, payloadLen, replyId, h2, h3, call_trace]
  by_cases hr : data 3 = 0
  · rw [send_ack_eq _ _ _ (by simpa [commands_set_send_func, hr] using hfunc)]
    simp [commands_set_send_func, hr, Nat.mod_eq_of_lt hid, Nat.mod_eq_of_lt hpid]
  · rw [send_ack_eq _ _ _ (by simpa [commands_set_send_func, hr] using hfunc)]
    simp [commands_set_send_func, hr, Nat.mod_eq_of_lt hid, Nat.mod_eq_of_lt hpid]

/-- C17 with the reset flag set and with the reset flag clear. -/
theorem C17_set_active_witness :
    (commands_process_packet demoOps demoEnv (demoCollab 0 false) (Mem.ofList [1, 11, 1, 1]) 4 5
        (demoState 0 demoConfig)).1.trace
      = [.autopilot_set_active 1, .autopilot_reset_state, .send 5 [1, 11],
         specificCall demoEnv (Mem.ofList [1, 11, 1, 1]) 4 5] ∧
    (commands_process_packet demoOps demoEnv (demoCollab 0 false) (Mem.ofList [1, 11, 1, 0]) 4 5
        (demoState 0 demoConfig)).1.trace
      = [.autopilot_set_active 1, .send 5 [1, 11],
         specificCall demoEnv (Mem.ofList [1, 11, 1, 0]) 4 5] :=
  ⟨(C17_set_active demoOps demoEnv (demoCollab 0 false) (Mem.ofList [1, 11, 1, 1]) 4 5
      (demoState 0 demoConfig) ⟨by decide, by decide, by decide⟩ (by decide) (by decide)
      (by decide) (by decide)).trans (by decide),
   (C17_set_active demoOps demoEnv (demoCollab 0 false) (Mem.ofList [1, 11, 1, 0]) 4 5
      (demoState 0 demoConfig) ⟨by decide, by decide, by decide⟩ (by decide) (by decide)
      (by decide) (by decide)).trans (by decide)⟩

/-- C18: an accepted `CMD_AP_SYNC_POINT` packet.  The signed 32-bit integers at
payload offsets 0, 4 and 8 are passed, in this order, as point index, target
time and minimum difference of one `autopilot_sync_point` call, which is
followed by the acknowledgement `[reply_id, command_id]`. -/
theorem C18_sync_point (X : FloatOps F) (K : Env) (C : Collab F) (data : Mem)
    (len func : Nat) (s : State F) (hacc : Accepted K data len)
    (hcmd : K.cmd (data 1) = some .CMD_AP_SYNC_POINT) (hfunc : func ≠ 0)
    (hid : replyId K (data 0) < 256) (hpid : data 1 < 256) :
    (commands_process_packet X K C data len func s).1.trace
      = s.trace ++ [.autopilot_sync_point (buffer_get_int32 (data.shift 2) 0).1
            (buffer_get_int32 (data.shift 2) 4).1 (buffer_get_int32 (data.shift 2) 8).1,
          .send func [replyId K (data 0), data 1], specificCall K data len func] := by
  obtain ⟨hlen, hpre, hrecv⟩ := hacc
  simp only [replyId] at hid
  have hi : ∀ i, (buffer_get_int32 (data.shift 2) i).2 = i + 4 := fun _ => rfl
  simp only [commands_process_packet, hlen, hpre, hrecv, hcmd, if_true, if_false,
    cmd_ap_sync_point, specificCall, payloadLen, replyId, hi, call_trace]
  rw [send_ack_eq _ _ _ (by simpa [commands_set_send_func] using hfunc)]
  simp [commands_set_send_func, Nat.mod_eq_of_lt hid, Nat.mod_eq_of_lt hpid]

/-- C18 at the payload (point 3, time -2, minimum difference 500). -/
theorem C18_sync_point_witness :
    (commands_process_packet demoOps demoEnv (demoCollab 0 false)
        (Mem.ofList [1, 13, 0, 0, 0, 3, 255, 255, 255, 254, 0, 0, 1, 244]) 14 5
        (demoState 0 demoConfig)).1.trace
      = [.autopilot_sync_point 3 (-2) 500, .send 5 [1, 13],
         specificCall demoEnv (Mem.ofList [1, 13, 0, 0, 0, 3, 255, 255, 255, 254, 0, 0, 1, 244])
           14 5] :=
  (C18_sync_point demoOps demoEnv (demoCollab 0 false)
    (Mem.ofList [1, 13, 0, 0, 0, 3, 255, 255, 255, 254, 0, 0, 1, 244]) 14 5
    (demoState 0 demoConfig) ⟨by decide, by decide, by decide⟩ (by decide) (by decide)
    (by decide) (by decide)).trans (by decide)

/-- C12: the plain and the acknowledged variants of "set position" and "set yaw
offset".  Both variants make the same collaborator call with the values decoded
from the payload (`x`, `y` at scale 1e4 and the heading at scale 1e6 for
`pos_set_xya`; the angle at scale 1e6 for `pos_set_yaw_offset`).  The plain
variant does nothing else before the vehicle-specific dispatcher is called: no
packet, same active send function.  The acknowledged variant then sends
`[reply_id, command_id]` to the supplied send function. -/
theorem C12_plain_and_ack_variants (X : FloatOps F) (K : Env) (C : Collab F) (data : Mem)
    (len func : Nat) (s : State F) (hacc : Accepted K data len) (hfunc : func ≠ 0)
    (hid : replyId K (data 0) < 256) (hpid : data 1 < 256)
    (hpos : K.code .CMD_SET_POS ≠ K.code .CMD_SET_POS_ACK)
    (hyaw : K.code .CMD_SET_YAW_OFFSET ≠ K.code .CMD_SET_YAW_OFFSET_ACK) :
    (K.cmd (data 1) = some .CMD_SET_POS →
      commands_process_packet X K C data len func s
        = ((s.call (.pos_set_xya (buffer_get_float32 X (data.shift 2) (10 ^ 4) 0).1
              (buffer_get_float32 X (data.shift 2) (10 ^ 4) 4).1
              (buffer_get_float32 X (data.shift 2) (10 ^ 6) 8).1)).call
            (specificCall K data len func), data)) ∧
    (K.cmd (data 1) = some .CMD_SET_POS_ACK →
      (commands_process_packet X K C data len func s).1.trace
        = s.trace ++ [.pos_set_xya (buffer_get_float32 X (data.shift 2) (10 ^ 4) 0).1
              (buffer_get_float32 X (data.shift 2) (10 ^ 4) 4).1
              (buffer_get_float32 X (data.shift 2) (10 ^ 6) 8).1,
            .send func [replyId K (data 0), data 1], specificCall K data len func]) ∧
    (K.cmd (data 1) = some .CMD_SET_YAW_OFFSET →
      commands_process_packet X K C data len func s
        = ((s.call (.pos_set_yaw_offset (buffer_get_float32 X (data.shift 2) (10 ^ 6) 0).1)).call
            (specificCall K data len func), data)) ∧
    (K.cmd (data 1) = some .CMD_SET_YAW_OFFSET_ACK →
      (commands_process_packet X K C data len func s).1.trace
        = s.trace ++ [.pos_set_yaw_offset (buffer_get_float32 X (data.shift 2) (10 ^ 6) 0).1,
            .send func [replyId K (data 0), data 1], specificCall K data len func]) := by
  obtain ⟨hlen, hpre, hrecv⟩ := hacc
  simp only [replyId] at hid
  have hi : ∀ sc i, (buffer_get_float32 X (data.shift 2) sc i).2 = i + 4 := fun _ _ => rfl
  refine ⟨?_, ?_, ?_, ?_⟩
  · intro hcmd
    have hne : data 1 ≠ K.code .CMD_SET_POS_ACK := by
      rw [← cmd_code hcmd]
      exact hpos
    simp only [commands_process_packet, hlen, hpre, hrecv, hcmd, if_true, if_false, cmd_set_pos,
      specificCall, payloadLen, replyId, hi, hne, shift_restore]
  · intro hcmd
    have he : data 1 = K.code .CMD_SET_POS_ACK := (cmd_code hcmd).symm
    simp only [commands_process_packet, hlen, hpre, hrecv, hcmd, if_true, if_false, cmd_set_pos,
      specificCall, payloadLen, replyId, hi, call_trace]
    rw [if_pos he, send_ack_eq _ _ _ (by simpa [commands_set_send_func] using hfunc)]
    simp [commands_set_send_func, Nat.mod_eq_of_lt hid, Nat.mod_eq_of_lt hpid]
  · intro hcmd
    have hne : data 1 ≠ K.code .CMD_SET_YAW_OFFSET_ACK := by
      rw [← cmd_code hcmd]
      exact hyaw
    simp only [commands_process_packet, hlen, hpre, hrecv, hcmd, if_true, if_false,
      cmd_set_yaw_offset, specificCall, payloadLen, replyId, hne, shift_restore]
  · intro hcmd
    have he : data 1 = K.code .CMD_SET_YAW_OFFSET_ACK := (cmd_code hcmd).symm
    simp only [commands_process_packet, hlen, hpre, hrecv, hcmd, if_true, if_false,
      cmd_set_yaw_offset, specificCall, payloadLen, replyId, call_trace]
    rw [if_pos he, send_ack_eq _ _ _ (by simpa [commands_set_send_func] using hfunc)]
    simp [commands_set_send_func, Nat.mod_eq_of_lt hid, Nat.mod_eq_of_lt hpid]

/-- C12 at one position payload (x = 1, y = 2, heading = 3) sent once as
`CMD_SET_POS` and once as `CMD_SET_POS_ACK`, while send function 9 is active. -/
theorem C12_plain_and_ack_variants_witness :
    (commands_process_packet demoOps demoEnv (demoCollab 0 false)
        (Mem.ofList [1, 3, 0, 0, 0, 1, 0, 0, 0, 2, 0, 0, 0, 3]) 14 5 (demoState 9 demoConfig)
      = (((demoState 9 demoConfig).call (.pos_set_xya 1 2 3)).call
          (specificCall demoEnv (Mem.ofList [1, 3, 0, 0, 0, 1, 0, 0, 0, 2, 0, 0, 0, 3]) 14 5),
         Mem.ofList [1, 3, 0, 0, 0, 1, 0, 0, 0, 2, 0, 0, 0, 3])) ∧
    (commands_process_packet demoOps demoEnv (demoCollab 0 false)
        (Mem.ofList [1, 4, 0, 0, 0, 1, 0, 0, 0, 2, 0, 0, 0, 3]) 14 5
        (demoState 9 demoConfig)).1.trace
      = [.pos_set_xya 1 2 3, .send 5 [1, 4],
         specificCall demoEnv (Mem.ofList [1, 4, 0, 0, 0, 1, 0, 0, 0, 2, 0, 0, 0, 3]) 14 5] :=
  ⟨(C12_plain_and_ack_variants demoOps demoEnv (demoCollab 0 false)
      (Mem.ofList [1, 3, 0, 0, 0, 1, 0, 0, 0, 2, 0, 0, 0, 3]) 14 5 (demoState 9 demoConfig)
      ⟨by decide, by decide, by decide⟩ (by decide) (by decide) (by decide) (by decide)
      (by decide)).1 (by decide),
   ((C12_plain_and_ack_variants demoOps demoEnv (demoCollab 0 false)
      (Mem.ofList [1, 4, 0, 0, 0, 1, 0, 0, 0, 2, 0, 0, 0, 3]) 14 5 (demoState 9 demoConfig)
      ⟨by decide, by decide, by decide⟩ (by decide) (by decide) (by decide) (by decide)
      (by decide)).2.1 (by decide)).trans (by decide)⟩

/-! ## What the general handlers call -/

theorem Extends.mono {P Q : Event F → Prop} {s1 s2 : State F} (h : ∀ e, P e → Q e)
    (hx : Extends P s1 s2) : Extends Q s1 s2 := by
  obtain ⟨evs, ht, hp⟩ := hx
  exact ⟨evs, ht, fun e he => h e (hp e he)⟩

theorem ap_add_points_loop_calls (X : FloatOps F) (C : Collab F) (data : Mem) (len : Nat) :
    ∀ (fuel ind : Nat) (first : Bool) (s1 s2 : State F), Extends IsCall s1 s2 →
      Extends IsCall s1 (ap_add_points_loop X C data len fuel ind first s2) ∧
        (ap_add_points_loop X C data len fuel ind first s2).m_send_func = s2.m_send_func := by
  intro fuel
  induction fuel with
  | zero => intro ind first s1 s2 h; exact ⟨h, rfl⟩
  | succ fuel ih =>
    intro ind first s1 s2 h
    simp only [ap_add_points_loop]
    split
    · split
      · exact ⟨h.call _ ⟨(by intro _ _ h; cases h), (by intro _ _ _ _ _ h; cases h)⟩, rfl⟩
      · exact ih _ _ _ _ (h.call _ ⟨(by intro _ _ h; cases h), (by intro _ _ _ _ _ h; cases h)⟩)
    · exact ⟨h, rfl⟩

theorem ap_replace_route_loop_calls (X : FloatOps F) (C : Collab F) (data : Mem) (len : Nat) :
    ∀ (fuel ind : Nat) (first : Bool) (s1 s2 : State F), Extends IsCall s1 s2 →
      Extends IsCall s1 (ap_replace_route_loop X C data len fuel ind first s2) ∧
        (ap_replace_route_loop X C data len fuel ind first s2).m_send_func = s2.m_send_func := by
  intro fuel
  induction fuel with
  | zero => intro ind first s1 s2 h; exact ⟨h, rfl⟩
  | succ fuel ih =>
    intro ind first s1 s2 h
    simp only [ap_replace_route_loop]
    split
    · split
      · exact ih _ _ _ _ (h.call _ ⟨(by intro _ _ h; cases h), (by intro _ _ _ _ _ h; cases h)⟩)
      · exact ih _ _ _ _ (h.call _ ⟨(by intro _ _ h; cases h), (by intro _ _ _ _ _ h; cases h)⟩)
    · exact ⟨h, rfl⟩

theorem ap_get_route_part_loop_calls (X : FloatOps F) (C : Collab F) (bound : Int) :
    ∀ (fuel : Nat) (i : Int) (w : SendBuf) (s1 s2 : State F), Extends IsCall s1 s2 →
      Extends IsCall s1 (ap_get_route_part_loop X C bound fuel i w s2).2 := by
  intro fuel
  induction fuel with
  | zero => intro i w s1 s2 h; exact h
  | succ fuel ih =>
    intro i w s1 s2 h
    simp only [ap_get_route_part_loop]
    split
    · exact ih _ _ _ _ (h.call _ ⟨(by intro _ _ h; cases h), (by intro _ _ _ _ _ h; cases h)⟩)
    · exact h

/-- The statements of `cmd_set_main_config` before its acknowledgement: they
record calls only and leave the send function registered at the start. -/
theorem cmd_set_main_config_before_ack (X : FloatOps F) (data : Mem)
    (id_ret packet_id func : Nat) (s : State F) :
    ∃ s1, cmd_set_main_config X data id_ret packet_id func s = send_ack id_ret packet_id s1 ∧
      s1.m_send_func = func ∧ Extends IsCall s s1 := by
  refine ⟨_, rfl, rfl, ?_⟩
  refine Extends.call ?_ _ ⟨(by intro _ _ h; cases h), (by intro _ _ _ _ _ h; cases h)⟩
  refine Extends.of_trace_eq
    (Extends.call ?_ _ ⟨(by intro _ _ h; cases h), (by intro _ _ _ _ _ h; cases h)⟩) rfl
  refine Extends.of_trace_eq
    (Extends.call ?_ _ ⟨(by intro _ _ h; cases h), (by intro _ _ _ _ _ h; cases h)⟩) rfl
  refine Extends.call
    (Extends.call ?_ _ ⟨(by intro _ _ h; cases h), (by intro _ _ _ _ _ h; cases h)⟩) _
    ⟨(by intro _ _ h; cases h), (by intro _ _ _ _ _ h; cases h)⟩
  exact Extends.of_trace_eq ((Extends.refl IsCall s).set_send_func func) rfl

/-- Each of the eight handlers that end in the acknowledgement block: before the
block they record calls only, and the supplied send function is registered. -/
theorem ack_handlers_before_ack (X : FloatOps F) (C : Collab F) (data : Mem)
    (len id_ret packet_id func : Nat) (s : State F) :
    (∃ s1, cmd_set_enu_ref X data id_ret packet_id func s = send_ack id_ret packet_id s1 ∧
      s1.m_send_func = func ∧ Extends IsCall s s1) ∧
    (∃ s1, cmd_ap_add_points X C data len id_ret packet_id func s
        = send_ack id_ret packet_id s1 ∧ s1.m_send_func = func ∧ Extends IsCall s s1) ∧
    (∃ s1, cmd_ap_remove_last_point id_ret packet_id func s = send_ack id_ret packet_id s1 ∧
      s1.m_send_func = func ∧ Extends IsCall s s1) ∧
    (∃ s1, cmd_ap_clear_points id_ret packet_id func s = send_ack id_ret packet_id s1 ∧
      s1.m_send_func = func ∧ Extends IsCall s s1) ∧
    (∃ s1, cmd_ap_set_active data id_ret packet_id func s = send_ack id_ret packet_id s1 ∧
      s1.m_send_func = func ∧ Extends IsCall s s1) ∧
    (∃ s1, cmd_ap_replace_route X C data len id_ret packet_id func s
        = send_ack id_ret packet_id s1 ∧ s1.m_send_func = func ∧ Extends IsCall s s1) ∧
    (∃ s1, cmd_ap_sync_point data id_ret packet_id func s = send_ack id_ret packet_id s1 ∧
      s1.m_send_func = func ∧ Extends IsCall s s1) ∧
    (∃ s1, cmd_set_main_config X data id_ret packet_id func s = send_ack id_ret packet_id s1 ∧
      s1.m_send_func = func ∧ Extends IsCall s s1) := by
  have h0 := (Extends.refl (IsCall (F := F)) s).set_send_func func
  refine ⟨?_, ?_, ?_, ?_, ?_, ?_, ?_, ?_⟩
  · exact ⟨_, rfl, rfl, h0.call _ ⟨(by intro _ _ h; cases h), (by intro _ _ _ _ _ h; cases h)⟩⟩
  · have hl := ap_add_points_loop_calls X C data len len 0 true s _ h0
    exact ⟨_, rfl, hl.2, hl.1⟩
  · exact ⟨_, rfl, rfl, h0.call _ ⟨(by intro _ _ h; cases h), (by intro _ _ _ _ _ h; cases h)⟩⟩
  · exact ⟨_, rfl, rfl, h0.call _ ⟨(by intro _ _ h; cases h), (by intro _ _ _ _ _ h; cases h)⟩⟩
  · refine ⟨_, rfl, ?_, ?_⟩
    · split <;> rfl
    · split
      · exact (h0.call _ ⟨(by intro _ _ h; cases h), (by intro _ _ _ _ _ h; cases h)⟩).call _
          ⟨(by intro _ _ h; cases h), (by intro _ _ _ _ _ h; cases h)⟩
      · exact h0.call _ ⟨(by intro _ _ h; cases h), (by intro _ _ _ _ _ h; cases h)⟩
  · have hl := ap_replace_route_loop_calls X C data len len 0 true s _ h0
    exact ⟨_, rfl, hl.2, hl.1⟩
  · exact ⟨_, rfl, rfl, h0.call _ ⟨(by intro _ _ h; cases h), (by intro _ _ _ _ _ h; cases h)⟩⟩
  · exact cmd_set_main_config_before_ack X data id_ret packet_id func s

theorem ack_then_call {id_ret packet_id func : Nat} {s r : State F} (e : Event F)
    (h : ∃ s1, r = send_ack id_ret packet_id s1 ∧ s1.m_send_func = func ∧ Extends IsCall s s1)
    (hfunc : func ≠ 0) (hid : id_ret < 256) (hpid : packet_id < 256) :
    ∃ evs, (r.call e).trace = s.trace ++ evs ++ [.send func [id_ret, packet_id], e] ∧
      ∀ e ∈ evs, IsCall e := by
  obtain ⟨s1, hr, hm, evs, ht, hp⟩ := h
  refine ⟨evs, ?_, hp⟩
  rw [hr, send_ack_eq _ _ _ (by rw [hm]; exact hfunc)]
  simp [ht, hm, Nat.mod_eq_of_lt hid, Nat.mod_eq_of_lt hpid]

/-- C11: an accepted packet whose command is one of `CMD_SET_ENU_REF`,
`CMD_AP_ADD_POINTS`, `CMD_AP_REMOVE_LAST_POINT`, `CMD_AP_CLEAR_POINTS`,
`CMD_AP_SET_ACTIVE`, `CMD_AP_REPLACE_ROUTE`, `CMD_AP_SYNC_POINT` and
`CMD_SET_MAIN_CONFIG`.  Whatever the payload and whatever the collaborators
return, the general handler makes collaborator calls and then sends exactly one
packet, the two bytes `[reply_id, command_id]`, to the supplied send function;
the call of the vehicle-specific dispatcher follows. -/
theorem C11_unconditional_ack (X : FloatOps F) (K : Env) (C : Collab F) (data : Mem)
    (len func : Nat) (s : State F) (c : CMD_PACKET) (hacc : Accepted K data len)
    (hcmd : K.cmd (data 1) = some c)
    (hc : c ∈ [CMD_PACKET.CMD_SET_ENU_REF, .CMD_AP_ADD_POINTS, .CMD_AP_REMOVE_LAST_POINT,
      .CMD_AP_CLEAR_POINTS, .CMD_AP_SET_ACTIVE, .CMD_AP_REPLACE_ROUTE, .CMD_AP_SYNC_POINT,
      .CMD_SET_MAIN_CONFIG])
    (hfunc : func ≠ 0) (hid : replyId K (data 0) < 256) (hpid : data 1 < 256) :
    ∃ evs,
      (commands_process_packet X K C data len func s).1.trace
        = s.trace ++ evs
          ++ [.send func [replyId K (data 0), data 1], specificCall K data len func] ∧
      ∀ e ∈ evs, IsCall e := by
  obtain ⟨hlen, hpre, hrecv⟩ := hacc
  simp only [commands_process_packet, hlen, hpre, hrecv, hcmd, if_true, if_false,
    specificCall, replyId, payloadLen]
  simp only [replyId] at hid
  generalize (if data 0 = K.ID_CAR_CLIENT then K.ID_CAR_CLIENT else K.main_id) = idr at hid ⊢
  generalize ((len + (2 ^ 32 - 2)) % 2 ^ 32) = plen
  obtain ⟨h1, h2, h3, h4, h5, h6, h7, h8⟩ := ack_handlers_before_ack X C (data.shift 2)
    plen idr (data 1) func s
  simp only [List.mem_cons, List.mem_singleton, List.not_mem_nil, or_false] at hc
  rcases hc with rfl | rfl | rfl | rfl | rfl | rfl | rfl | rfl <;> simp only []
  · exact ack_then_call _ h1 hfunc hid hpid
  · exact ack_then_call _ h2 hfunc hid hpid
  · exact ack_then_call _ h3 hfunc hid hpid
  · exact ack_then_call _ h4 hfunc hid hpid
  · exact ack_then_call _ h5 hfunc hid hpid
  · exact ack_then_call _ h6 hfunc hid hpid
  · exact ack_then_call _ h7 hfunc hid hpid
  · exact ack_then_call _ h8 hfunc hid hpid

/-- C11 at a "clear route" request addressed to the broadcast id. -/
theorem C11_unconditional_ack_witness :
    (∃ evs,
      (commands_process_packet demoOps demoEnv (demoCollab 0 false) (Mem.ofList [255, 9]) 2 5
          (demoState 0 demoConfig)).1.trace
        = (demoState 0 demoConfig).trace ++ evs
          ++ [.send 5 [replyId demoEnv (Mem.ofList [255, 9] 0), Mem.ofList [255, 9] 1],
              specificCall demoEnv (Mem.ofList [255, 9]) 2 5] ∧
      ∀ e ∈ evs, IsCall e) ∧
    (commands_process_packet demoOps demoEnv (demoCollab 0 false) (Mem.ofList [255, 9]) 2 5
        (demoState 0 demoConfig)).1.trace
      = [.autopilot_clear_route, .send 5 [1, 9],
         .commands_specific_process_packet 9 [] 0 1 5] :=
  ⟨C11_unconditional_ack demoOps demoEnv (demoCollab 0 false) (Mem.ofList [255, 9]) 2 5
    (demoState 0 demoConfig) .CMD_AP_CLEAR_POINTS ⟨by decide, by decide, by decide⟩ (by decide)
    (by decide) (by decide) (by decide) (by decide), by decide⟩

/-! ## Forwarding to the vehicle-specific dispatcher -/

theorem send_ack_not_specific {s1 s2 : State F} (id_ret packet_id : Nat)
    (h : Extends NotSpecific s1 s2) : Extends NotSpecific s1 (send_ack id_ret packet_id s2) := by
  unfold send_ack
  exact h.send_buf _ (fun _ => by intro _ _ _ _ _ h; cases h)

theorem Extends.then_calls {s1 s2 s3 : State F} (h : Extends NotSpecific s1 s2)
    (h2 : Extends IsCall s2 s3) : Extends NotSpecific s1 s3 :=
  h.trans (h2.mono fun _ he => he.2)

/-- Whatever the command, the general handler does not call the
vehicle-specific dispatcher. -/
theorem general_handler_not_specific (X : FloatOps F) (K : Env) (C : Collab F) (data : Mem)
    (len id_ret packet_id func : Nat) (s : State F) :
    Extends NotSpecific s (cmd_terminal_cmd data len func s).1 ∧
    Extends NotSpecific s (cmd_set_pos X K data id_ret packet_id func s) ∧
    Extends NotSpecific s (cmd_set_enu_ref X data id_ret packet_id func s) ∧
    Extends NotSpecific s (cmd_get_enu_ref X K C id_ret func s) ∧
    Extends NotSpecific s (cmd_ap_add_points X C data len id_ret packet_id func s) ∧
    Extends NotSpecific s (cmd_ap_remove_last_point id_ret packet_id func s) ∧
    Extends NotSpecific s (cmd_ap_clear_points id_ret packet_id func s) ∧
    Extends NotSpecific s (cmd_ap_get_route_part X K C data id_ret s) ∧
    Extends NotSpecific s (cmd_ap_set_active data id_ret packet_id func s) ∧
    Extends NotSpecific s
      (cmd_ap_replace_route X C data len id_ret packet_id func s) ∧
    Extends NotSpecific s (cmd_ap_sync_point data id_ret packet_id func s) ∧
    Extends NotSpecific s (cmd_send_rtcm_usb data len s) ∧
    Extends NotSpecific s (cmd_set_yaw_offset X K data id_ret packet_id func s) ∧
    Extends NotSpecific s (cmd_set_main_config X data id_ret packet_id func s) ∧
    Extends NotSpecific s (cmd_get_main_config X K C id_ret packet_id func s) := by
  have h0 := Extends.refl (NotSpecific (F := F)) s
  refine ⟨?_, ?_, ?_, ?_, ?_, ?_, ?_, ?_, ?_, ?_, ?_, ?_, ?_, ?_, ?_⟩
  · exact (h0.set_send_func func).call _ (by intro _ _ _ _ _ h; cases h)
  · unfold cmd_set_pos
    simp only []
    split
    · exact send_ack_not_specific _ _
        ((h0.call _ (by intro _ _ _ _ _ h; cases h)).set_send_func func)
    · exact h0.call _ (by intro _ _ _ _ _ h; cases h)
  · exact send_ack_not_specific _ _
      ((h0.set_send_func func).call _ (by intro _ _ _ _ _ h; cases h))
  · unfold cmd_get_enu_ref
    exact ((((h0.call _ (by intro _ _ _ _ _ h; cases h)).set_send_func func).call _
      (by intro _ _ _ _ _ h; cases h)).send_buf _
        (fun _ => by intro _ _ _ _ _ h; cases h))
  · exact send_ack_not_specific _ _
      ((h0.set_send_func func).then_calls
        (ap_add_points_loop_calls X C data len _ _ _ _ _ (Extends.refl IsCall _)).1)
  · exact send_ack_not_specific _ _
      ((h0.set_send_func func).call _ (by intro _ _ _ _ _ h; cases h))
  · exact send_ack_not_specific _ _
      ((h0.set_send_func func).call _ (by intro _ _ _ _ _ h; cases h))
  · unfold cmd_ap_get_route_part
    simp only []
    split
    · exact h0
    · exact Extends.send_buf
        ((h0.call _ (by intro _ _ _ _ _ h; cases h)).then_calls
          (ap_get_route_part_loop_calls X C _ _ _ _ _ _ (Extends.refl IsCall _)))
        _ (fun _ => by intro _ _ _ _ _ h; cases h)
  · unfold cmd_ap_set_active
    simp only []
    split
    · exact send_ack_not_specific _ _
        (((h0.set_send_func func).call _ (by intro _ _ _ _ _ h; cases h)).call _
          (by intro _ _ _ _ _ h; cases h))
    · exact send_ack_not_specific _ _
        ((h0.set_send_func func).call _ (by intro _ _ _ _ _ h; cases h))
  · exact send_ack_not_specific _ _
      ((h0.set_send_func func).then_calls
        (ap_replace_route_loop_calls X C data len _ _ _ _ _ (Extends.refl IsCall _)).1)
  · exact send_ack_not_specific _ _
      ((h0.set_send_func func).call _ (by intro _ _ _ _ _ h; cases h))
  · exact h0.call _ (by intro _ _ _ _ _ h; cases h)
  · unfold cmd_set_yaw_offset
    simp only []
    split
    · exact send_ack_not_specific _ _
        ((h0.call _ (by intro _ _ _ _ _ h; cases h)).set_send_func func)
    · exact h0.call _ (by intro _ _ _ _ _ h; cases h)
  · unfold cmd_set_main_config
    refine send_ack_not_specific _ _ (Extends.call ?_ _ (by intro _ _ _ _ _ h; cases h))
    refine Extends.of_trace_eq (Extends.call ?_ _ (by intro _ _ _ _ _ h; cases h)) rfl
    refine Extends.of_trace_eq (Extends.call ?_ _ (by intro _ _ _ _ _ h; cases h)) rfl
    refine Extends.call (Extends.call ?_ _ (by intro _ _ _ _ _ h; cases h)) _ (by intro _ _ _ _ _ h; cases h)
    exact Extends.of_trace_eq (h0.set_send_func func) rfl
  · unfold cmd_get_main_config
    simp only []
    refine Extends.send_buf ?_ _ (fun _ => by intro _ _ _ _ _ h; cases h)
    split
    · exact h0.set_send_func func
    · exact (h0.set_send_func func).call _ (by intro _ _ _ _ _ h; cases h)


theorem bytes_write_end (m : Mem) (n v : Nat) : (m.write n v).bytes n = m.bytes n := by
  unfold Mem.bytes
  apply List.map_congr_left
  intro j hj
  have : j ≠ n := Nat.ne_of_lt (List.mem_range.mp hj)
  simp [Mem.write, this]

/-- An accepted packet: the general handler does not call the vehicle-specific
dispatcher, which is called afterwards with the command id, the payload, its
length, the reply id and the supplied send function. -/
theorem process_accepted_forwards (X : FloatOps F) (K : Env) (C : Collab F) (data : Mem)
    (len func : Nat) (s : State F) (hacc : Accepted K data len) :
    ∃ s1, Extends NotSpecific s s1 ∧
      (commands_process_packet X K C data len func s).1
        = s1.call (specificCall K data len func) := by
  obtain ⟨hlen, hpre, hrecv⟩ := hacc
  simp only [commands_process_packet, hlen, hpre, hrecv, if_true, if_false, specificCall]
  simp only [replyId, payloadLen]
  generalize (if data 0 = K.ID_CAR_CLIENT then K.ID_CAR_CLIENT else K.main_id) = idr
  generalize ((len + (2 ^ 32 - 2)) % 2 ^ 32) = plen
  have h := general_handler_not_specific X K C (data.shift 2) plen idr (data 1) func s
  have h0 := Extends.refl (NotSpecific (F := F)) s
  split
  · exact ⟨_, h0.call _ (by intro _ _ _ _ _ h; cases h), rfl⟩
  · refine ⟨_, h.1, ?_⟩
    simp only [cmd_terminal_cmd, bytes_write_end]
  · exact ⟨_, h.2.1, rfl⟩
  · exact ⟨_, h.2.1, rfl⟩
  · exact ⟨_, h.2.2.1, rfl⟩
  · exact ⟨_, h.2.2.2.1, rfl⟩
  · exact ⟨_, h.2.2.2.2.1, rfl⟩
  · exact ⟨_, h.2.2.2.2.2.1, rfl⟩
  · exact ⟨_, h.2.2.2.2.2.2.1, rfl⟩
  · exact ⟨_, h.2.2.2.2.2.2.2.1, rfl⟩
  · exact ⟨_, h.2.2.2.2.2.2.2.2.1, rfl⟩
  · exact ⟨_, h.2.2.2.2.2.2.2.2.2.1, rfl⟩
  · exact ⟨_, h.2.2.2.2.2.2.2.2.2.2.1, rfl⟩
  · exact ⟨_, h.2.2.2.2.2.2.2.2.2.2.2.1, rfl⟩
  · exact ⟨_, h.2.2.2.2.2.2.2.2.2.2.2.2.1, rfl⟩
  · exact ⟨_, h.2.2.2.2.2.2.2.2.2.2.2.2.1, rfl⟩
  · exact ⟨_, h.2.2.2.2.2.2.2.2.2.2.2.2.2.1, rfl⟩
  · exact ⟨_, h.2.2.2.2.2.2.2.2.2.2.2.2.2.2, rfl⟩
  · exact ⟨_, h.2.2.2.2.2.2.2.2.2.2.2.2.2.2, rfl⟩
  · exact ⟨_, h0, rfl⟩

/-- C13: for every accepted packet, whatever its command id and whatever the
general handler did, the vehicle-specific dispatcher is called exactly once and
last: the calls recorded before it are not calls of the dispatcher, and it
receives the command id, the payload (the buffer behind its first two bytes),
the payload length, the reply id and the supplied send function.  The payload
length is `len - 2` for every packet that has its two header bytes. -/
theorem C13_extension_forwarding (X : FloatOps F) (K : Env) (C : Collab F) (data : Mem)
    (len func : Nat) (s : State F) (hacc : Accepted K data len) :
    ∃ evs,
      (commands_process_packet X K C data len func s).1.trace
        = s.trace ++ evs
          ++ [.commands_specific_process_packet (data 1)
                ((data.shift 2).bytes (payloadLen len)) (payloadLen len)
                (replyId K (data 0)) func] ∧
      (∀ e ∈ evs, NotSpecific e) ∧
      (2 ≤ len → len < 2 ^ 32 → payloadLen len = len - 2) := by
  obtain ⟨s1, ⟨evs, ht, hp⟩, hs⟩ := process_accepted_forwards X K C data len func s hacc
  refine ⟨evs, ?_, hp, ?_⟩
  · rw [hs, call_trace, ht]
    rfl
  · intro h2 h32
    unfold payloadLen
    omega

/-- C13 at a `CMD_AP_GET_ROUTE_PART` request rejected for its count of 21 and at
a packet with the unknown command id 200. -/
theorem C13_extension_forwarding_witness :
    (∃ evs,
      (commands_process_packet demoOps demoEnv (demoCollab 0 false)
          (Mem.ofList [1, 10, 0, 0, 0, 0, 21]) 7 5 (demoState 9 demoConfig)).1.trace
        = (demoState 9 demoConfig).trace ++ evs
          ++ [.commands_specific_process_packet (Mem.ofList [1, 10, 0, 0, 0, 0, 21] 1)
                (((Mem.ofList [1, 10, 0, 0, 0, 0, 21]).shift 2).bytes (payloadLen 7))
                (payloadLen 7) (replyId demoEnv (Mem.ofList [1, 10, 0, 0, 0, 0, 21] 0)) 5] ∧
      (∀ e ∈ evs, NotSpecific e) ∧
      (2 ≤ 7 → 7 < 2 ^ 32 → payloadLen 7 = 7 - 2)) ∧
    (commands_process_packet demoOps demoEnv (demoCollab 0 false)
        (Mem.ofList [1, 10, 0, 0, 0, 0, 21]) 7 5 (demoState 9 demoConfig)).1.trace
      = [.commands_specific_process_packet 10 [0, 0, 0, 0, 21] 5 1 5] ∧
    (commands_process_packet demoOps demoEnv (demoCollab 0 false)
        (Mem.ofList [1, 200, 7]) 3 5 (demoState 9 demoConfig)).1.trace
      = [.commands_specific_process_packet 200 [7] 1 1 5] :=
  ⟨C13_extension_forwarding demoOps demoEnv (demoCollab 0 false)
    (Mem.ofList [1, 10, 0, 0, 0, 0, 21]) 7 5 (demoState 9 demoConfig)
    ⟨by decide, by decide, by decide⟩, by decide, by decide⟩

/-! ## Side effects of `CMD_SET_MAIN_CONFIG` -/

/-- `cmd_set_main_config` on a payload that holds the wire image of `c`: the
log collaborator, the motor simulation and the configuration store are called
with the decoded values, and the acknowledgement block follows. -/
theorem cmd_set_main_config_effects (X : FloatOps F) (hrt : AutoRoundTrip X)
    (c : MAIN_CONFIG F) (hwf : c.Wire) (data : Mem) (id_ret packet_id func : Nat) (s : State F)
    (h : Holds data 0 (configWire X c)) :
    cmd_set_main_config X data id_ret packet_id func s
      = send_ack id_ret packet_id
          { s with
            m_send_func := func
            main_config := c
            trace := s.trace ++ [.log_set_rate c.log_rate_hz, .log_set_enabled c.log_en,
              .log_set_name c.log_name, .motor_sim_set_running c.car.simulate_motor,
              .conf_general_store_main_config c] } := by
  unfold configWire at h
  obtain ⟨i1, e1, h⟩ := set_main_config_general_holds X hrt c hwf data s.main_config 0 _ h
  obtain ⟨i2, e2, h⟩ := set_main_config_log_holds c hwf data
    (set_main_config_general X data s.main_config 0).1 i1 _ h
  obtain ⟨i3, e3, h⟩ := set_main_config_car_holds X hrt c hwf data
    (set_main_config_log data (set_main_config_general X data s.main_config 0).1 i1).1 i2 _ h
  obtain ⟨i4, e4, h⟩ := set_main_config_mr_holds X hrt c hwf data
    (set_main_config_car X data
      (set_main_config_log data (set_main_config_general X data s.main_config 0).1 i1).1 i2).1
    i3 _ h
  simp only [e1] at e2 e3 e4
  simp only [e2] at e3 e4
  simp only [e3] at e4
  simp only [cmd_set_main_config, commands_set_send_func, State.call, e1, e2, e3, e4,
    List.append_assoc, List.singleton_append]
  rfl

/-- C14: an accepted `CMD_SET_MAIN_CONFIG` packet whose payload is the wire
image of a configuration `c` (the log name as its bytes followed by a NUL, the
`log_mode_ext` byte right behind that NUL).  The log collaborator receives
`log_set_rate`, `log_set_enabled` and `log_set_name` with `c.log_rate_hz`,
`c.log_en` and `c.log_name`, `motor_sim_set_running` receives
`c.car.simulate_motor`, the record `c` is stored, and the only packet sent is
`[reply_id, command_id]`; the live configuration is `c` afterwards. -/
theorem C14_set_main_config_effects (X : FloatOps F) (K : Env) (C : Collab F)
    (c : MAIN_CONFIG F) (hrt : AutoRoundTrip X) (hwf : c.Wire) (data : Mem) (len func : Nat)
    (s : State F) (hacc : Accepted K data len)
    (hcmd : K.cmd (data 1) = some .CMD_SET_MAIN_CONFIG) (hfunc : func ≠ 0)
    (hid : replyId K (data 0) < 256) (hpid : data 1 < 256)
    (hpayload : Holds (data.shift 2) 0 (configWire X c)) :
    (commands_process_packet X K C data len func s).1.trace
        = s.trace ++ [.log_set_rate c.log_rate_hz, .log_set_enabled c.log_en,
            .log_set_name c.log_name, .motor_sim_set_running c.car.simulate_motor,
            .conf_general_store_main_config c,
            .send func [replyId K (data 0), data 1], specificCall K data len func] ∧
      (commands_process_packet X K C data len func s).1.main_config = c := by
  obtain ⟨hlen, hpre, hrecv⟩ := hacc
  simp only [replyId] at hid
  have he := cmd_set_main_config_effects X hrt c hwf (data.shift 2)
    (if data 0 = K.ID_CAR_CLIENT then K.ID_CAR_CLIENT else K.main_id) (data 1) func s hpayload
  simp only [commands_process_packet, hlen, hpre, hrecv, hcmd, if_true, if_false, specificCall,
    payloadLen, replyId, call_trace, call_main_config, he]
  rw [send_ack_eq _ _ _ hfunc]
  simp [Nat.mod_eq_of_lt hid, Nat.mod_eq_of_lt hpid]

/-- C14 at the wire image of `tripConfig`: rate 50, enabled 1, name "trip1". -/
theorem C14_set_main_config_effects_witness :
    (commands_process_packet patternOps demoEnv (idleCollab 0)
        (Mem.ofList ([1, 17] ++ configWire patternOps tripConfig)) 313 5
        ⟨fun _ => 0, 0, fun _ => 0, zeroConfig 0, []⟩).1.trace
      = [] ++ [.log_set_rate 50, .log_set_enabled 1, .log_set_name [116, 114, 105, 112, 49],
          .motor_sim_set_running 0, .conf_general_store_main_config tripConfig,
          .send 5 [1, 17],
          specificCall demoEnv (Mem.ofList ([1, 17] ++ configWire patternOps tripConfig)) 313 5] ∧
    (commands_process_packet patternOps demoEnv (idleCollab 0)
        (Mem.ofList ([1, 17] ++ configWire patternOps tripConfig)) 313 5
        ⟨fun _ => 0, 0, fun _ => 0, zeroConfig 0, []⟩).1.main_config = tripConfig :=
  C14_set_main_config_effects patternOps demoEnv (idleCollab 0) tripConfig
    patternOps_round_trip (by constructor <;> decide)
    (Mem.ofList ([1, 17] ++ configWire patternOps tripConfig)) 313 5
    ⟨fun _ => 0, 0, fun _ => 0, zeroConfig 0, []⟩ ⟨by decide, by decide, by decide⟩
    (by decide) (by decide) (by decide) (by decide) (holds_ofList_payload 1 17 _)

/-! ## Status text -/

theorem put_buf_of_ne (v : Nat) (w : SendBuf) (j : Nat) (h : j ≠ w.send_index) :
    (w.put v).buf j = w.buf j := by
  simp [SendBuf.put, Mem.write, h]

theorem puts_buf_of_ge (l : List Nat) :
    ∀ (w : SendBuf) (j : Nat), w.send_index + l.length ≤ j → (w.puts l).buf j = w.buf j := by
  induction l with
  | nil => intro w j _; rfl
  | cons v l ih =>
    intro w j h
    simp only [List.length_cons] at h
    simp only [SendBuf.puts]
    rw [ih (w.put v) j (by simp only [put_send_index]; omega),
      put_buf_of_ne v w j (by omega)]

theorem map_mod_of_lt (l : List Nat) (h : ∀ c ∈ l, c < 256) : l.map (fun v => v % 256) = l := by
  conv_rhs => rw [← List.map_id l]
  exact List.map_congr_left fun v hv => Nat.mod_eq_of_lt (h v hv)

/-- `commands_vprintf` written with the cursor operations: the two header
bytes, at most 508 characters of the text and a NUL are stored from index 0
on; the packet is sent when the text is not empty. -/
theorem commands_vprintf_eq (K : Env) (text : List Nat) (s : State F) :
    commands_vprintf K text s
      = if text.length > 0 then
          commands_send_packet
            (((((SendBuf.mk s.print_buffer 0).put K.main_id).put (K.code .CMD_PRINTF)).puts
              (text.take 508)).put 0).buf
            (if text.length < 509 then text.length + 2 else 512)
            { s with print_buffer :=
                (((((SendBuf.mk s.print_buffer 0).put K.main_id).put (K.code .CMD_PRINTF)).puts
                  (text.take 508)).put 0).buf }
        else
          { s with print_buffer :=
              (((((SendBuf.mk s.print_buffer 0).put K.main_id).put (K.code .CMD_PRINTF)).puts
                (text.take 508)).put 0).buf } := rfl

theorem bytes_take (m : Mem) (n k : Nat) (h : n ≤ k) : (m.bytes k).take n = m.bytes n := by
  unfold Mem.bytes
  rw [← List.map_take, List.take_range, Nat.min_eq_left h]

/-- The bytes of the print buffer that make up the packet of a text shorter
than 509 characters. -/
theorem print_bytes_short (K : Env) (text : List Nat) (pb : Mem) (h : text.length < 509) :
    Mem.bytes (((((SendBuf.mk pb 0).put K.main_id).put (K.code .CMD_PRINTF)).puts
        (text.take 508)).put 0).buf (text.length + 2)
      = [K.main_id % 256, K.code .CMD_PRINTF % 256] ++ text.map (fun v => v % 256) := by
  have ht : text.take 508 = text := List.take_of_length_le (by omega)
  rw [ht]
  have hidx : ((((SendBuf.mk pb 0).put K.main_id).put (K.code .CMD_PRINTF)).puts
      text).send_index = text.length + 2 := by
    rw [puts_send_index]
    simp only [put_send_index]
    omega
  have hk := ((SendBuf.Keeps.self ((((SendBuf.mk pb 0).put K.main_id).put
    (K.code .CMD_PRINTF)).puts text)).put 0).take
  have hb : ((((SendBuf.mk pb 0).put K.main_id).put (K.code .CMD_PRINTF)).puts text).bytes
      = [K.main_id % 256, K.code .CMD_PRINTF % 256] ++ text.map (fun v => v % 256) := by
    rw [bytes_puts]
    simp
  rw [← hb, ← hk, hidx, SendBuf.bytes, bytes_take]
  simp only [put_send_index, hidx]
  omega

/-- Bytes of the print buffer from index 511 on are never stored to. -/
theorem print_buffer_tail (K : Env) (text : List Nat) (pb : Mem) (j : Nat) (hj : 511 ≤ j) :
    (((((SendBuf.mk pb 0).put K.main_id).put (K.code .CMD_PRINTF)).puts
        (text.take 508)).put 0).buf j = pb j := by
  have hl : (text.take 508).length ≤ 508 := by
    rw [List.length_take]
    omega
  rw [put_buf_of_ne _ _ _ (by rw [puts_send_index]; simp only [put_send_index]; omega),
    puts_buf_of_ge _ _ _ (by simp only [put_send_index]; omega),
    put_buf_of_ne _ _ _ (by simp only [put_send_index]; omega),
    put_buf_of_ne _ _ _ (by show j ≠ 0; omega)]

/-- The 512 bytes sent for a text of 509 characters or more. -/
theorem print_bytes_long (K : Env) (text : List Nat) (pb : Mem) (h : 509 ≤ text.length) :
    Mem.bytes (((((SendBuf.mk pb 0).put K.main_id).put (K.code .CMD_PRINTF)).puts
        (text.take 508)).put 0).buf 512
      = [K.main_id % 256, K.code .CMD_PRINTF % 256] ++ (text.take 508).map (fun v => v % 256)
          ++ [0, pb 511] := by
  have hl : (text.take 508).length = 508 := by
    rw [List.length_take]
    omega
  have hidx : (((((SendBuf.mk pb 0).put K.main_id).put (K.code .CMD_PRINTF)).puts
      (text.take 508)).put 0).send_index = 511 := by
    simp only [put_send_index, puts_send_index, hl]
  have hb : (((((SendBuf.mk pb 0).put K.main_id).put (K.code .CMD_PRINTF)).puts
      (text.take 508)).put 0).bytes
      = [K.main_id % 256, K.code .CMD_PRINTF % 256] ++ (text.take 508).map (fun v => v % 256)
          ++ [0] := by
    rw [bytes_put, bytes_puts]
    simp
  rw [SendBuf.bytes, hidx] at hb
  rw [show (512 : Nat) = 511 + 1 from rfl, Mem.bytes, List.range_succ, List.map_append, ← Mem.bytes,
    hb, List.map_singleton, print_buffer_tail K text pb 511 (Nat.le_refl _)]
  simp

/-- C19: `commands_vprintf` on a text of length `L` made of bytes, while a send
function is active.  Nothing is sent when `L = 0`.  When `0 < L < 509` the
packet is `[main_id, CMD_PRINTF]` followed by the whole text, `L + 2` bytes.
When `L ≥ 509` the packet is 512 bytes long: `[main_id, CMD_PRINTF]`, the first
508 characters of the text, the terminating NUL and the last byte of the print
buffer; the rest of the text is dropped.  Indices from 511 on are never stored
to, and no packet reads past index 511. -/
theorem C19_vprintf_truncation (K : Env) (text : List Nat) (s : State F)
    (hs : s.m_send_func ≠ 0) (hid : K.main_id < 256) (hc : K.code .CMD_PRINTF < 256)
    (htext : ∀ c ∈ text, c < 256) :
    (text.length = 0 → (commands_vprintf K text s).trace = s.trace) ∧
    (0 < text.length → text.length < 509 →
      (commands_vprintf K text s).trace
          = s.trace ++ [.send s.m_send_func ([K.main_id, K.code .CMD_PRINTF] ++ text)] ∧
        ([K.main_id, K.code .CMD_PRINTF] ++ text).length = text.length + 2) ∧
    (509 ≤ text.length →
      (commands_vprintf K text s).trace
          = s.trace ++ [.send s.m_send_func
              ([K.main_id, K.code .CMD_PRINTF] ++ text.take 508 ++ [0, s.print_buffer 511])] ∧
        ([K.main_id, K.code .CMD_PRINTF] ++ text.take 508
          ++ [0, s.print_buffer 511]).length = 512) ∧
    (∀ f d, Event.send f d ∈ (commands_vprintf K text s).trace.drop s.trace.length →
      d.length ≤ 512) ∧
    (∀ j, 511 ≤ j → (commands_vprintf K text s).print_buffer j = s.print_buffer j) := by
  have htake : ∀ c ∈ text.take 508, c < 256 := fun c hc => htext c (List.mem_of_mem_take hc)
  have h1 : text.length = 0 → (commands_vprintf K text s).trace = s.trace := by
    intro h0
    rw [commands_vprintf_eq]
    simp [h0]
  have h2 : 0 < text.length → text.length < 509 → (commands_vprintf K text s).trace
      = s.trace ++ [.send s.m_send_func ([K.main_id, K.code .CMD_PRINTF] ++ text)] := by
    intro hpos hlt
    rw [commands_vprintf_eq]
    simp only [gt_iff_lt, hpos, hlt, if_true, commands_send_packet, ne_eq, hs,
      not_false_eq_true, call_trace, print_bytes_short K text s.print_buffer hlt,
      map_mod_of_lt text htext, Nat.mod_eq_of_lt hid, Nat.mod_eq_of_lt hc]
  have h3 : 509 ≤ text.length → (commands_vprintf K text s).trace
      = s.trace ++ [.send s.m_send_func
          ([K.main_id, K.code .CMD_PRINTF] ++ text.take 508 ++ [0, s.print_buffer 511])] := by
    intro hge
    have hpos : 0 < text.length := by omega
    have hnl : ¬ text.length < 509 := by omega
    rw [commands_vprintf_eq]
    simp only [gt_iff_lt, hpos, hnl, if_true, if_false, commands_send_packet, ne_eq, hs,
      not_false_eq_true, call_trace, print_bytes_long K text s.print_buffer hge,
      map_mod_of_lt _ htake, Nat.mod_eq_of_lt hid, Nat.mod_eq_of_lt hc]
  have hlen3 : 509 ≤ text.length → ([K.main_id, K.code .CMD_PRINTF] ++ text.take 508
      ++ [0, s.print_buffer 511]).length = 512 := by
    intro hge
    simp only [List.length_append, List.length_cons, List.length_nil, List.length_take]
    omega
  refine ⟨h1, fun hpos hlt => ⟨h2 hpos hlt, by simp⟩, fun hge => ⟨h3 hge, hlen3 hge⟩,
    ?_, ?_⟩
  · intro f d hmem
    rcases Nat.eq_zero_or_pos text.length with h0 | hpos
    · rw [h1 h0] at hmem
      simp at hmem
    · by_cases hlt : text.length < 509
      · rw [h2 hpos hlt] at hmem
        simp at hmem
        rw [hmem.2]
        simp
        omega
      · rw [h3 (by omega)] at hmem
        simp at hmem
        rw [hmem.2]
        exact Nat.le_of_eq (hlen3 (by omega))
  · intro j hj
    rw [commands_vprintf_eq]
    split
    · simp only [commands_send_packet]
      split
      · exact print_buffer_tail K text s.print_buffer j hj
      · exact print_buffer_tail K text s.print_buffer j hj
    · exact print_buffer_tail K text s.print_buffer j hj

/-- C19 at the two-character text "Hi" and at a text of 600 characters. -/
theorem C19_vprintf_truncation_witness :
    ((commands_vprintf demoEnv [72, 105] (demoState 9 demoConfig)).trace
        = (demoState 9 demoConfig).trace
          ++ [.send (demoState 9 demoConfig).m_send_func
                ([demoEnv.main_id, demoEnv.code .CMD_PRINTF] ++ [72, 105])] ∧
      ([demoEnv.main_id, demoEnv.code .CMD_PRINTF] ++ [72, 105]).length
        = [72, 105].length + 2) ∧
    ((commands_vprintf demoEnv (List.replicate 600 65) (demoState 9 demoConfig)).trace
        = (demoState 9 demoConfig).trace
          ++ [.send (demoState 9 demoConfig).m_send_func
                ([demoEnv.main_id, demoEnv.code .CMD_PRINTF] ++ (List.replicate 600 65).take 508
                  ++ [0, (demoState 9 demoConfig).print_buffer 511])] ∧
      ([demoEnv.main_id, demoEnv.code .CMD_PRINTF] ++ (List.replicate 600 65).take 508
        ++ [0, (demoState 9 demoConfig).print_buffer 511]).length = 512) :=
  ⟨(C19_vprintf_truncation demoEnv [72, 105] (demoState 9 demoConfig) (by decide) (by decide)
      (by decide) (by decide)).2.1 (by decide) (by decide),
   (C19_vprintf_truncation demoEnv (List.replicate 600 65) (demoState 9 demoConfig) (by decide)
      (by decide) (by decide)
      (fun c hc => by rw [List.eq_of_mem_replicate hc]; decide)).2.2.1
      (by rw [List.length_replicate]; decide)⟩

/-- `commands_vprintf` changes the print buffer and records at most a send. -/
theorem commands_vprintf_frame (K : Env) (text : List Nat) (s : State F) :
    (commands_vprintf K text s).m_send_func = s.m_send_func ∧
    (commands_vprintf K text s).m_send_buffer = s.m_send_buffer ∧
    (commands_vprintf K text s).main_config = s.main_config := by
  rw [commands_vprintf_eq]
  split
  · unfold commands_send_packet
    split
    · exact ⟨rfl, rfl, rfl⟩
    · exact ⟨rfl, rfl, rfl⟩
  · exact ⟨rfl, rfl, rfl⟩

/-- C15: a buffer of length at least 1 whose first byte is the RTCM3 preamble.
Processing is one `commands_printf` of the warning and nothing else, whatever
`main_id`, `ID_ALL` and `ID_CAR_CLIENT` are: the receive buffer, the active
send function, the send buffer and the live configuration are as before, and
the only call recorded is the hand-over of the warning packet to the active
send function, if there is one; no handler runs and the vehicle-specific
dispatcher is not called. -/
theorem C15_rtcm3_preamble_discarded (X : FloatOps F) (K : Env) (C : Collab F) (data : Mem)
    (len func : Nat) (s : State F) (hlen : 1 ≤ len) (hpre : data 0 = RTCM3PREAMB) :
    commands_process_packet X K C data len func s = (commands_printf K rtcm3_warning s, data) ∧
    (commands_printf K rtcm3_warning s).m_send_func = s.m_send_func ∧
    (commands_printf K rtcm3_warning s).m_send_buffer = s.m_send_buffer ∧
    (commands_printf K rtcm3_warning s).main_config = s.main_config ∧
    (commands_printf K rtcm3_warning s).trace
      = s.trace ++ (if s.m_send_func ≠ 0 then
          [.send s.m_send_func ([K.main_id % 256, K.code .CMD_PRINTF % 256] ++ rtcm3_warning)]
        else []) := by
  have hl : len ≠ 0 := by omega
  have hw : rtcm3_warning.length = 34 := by decide
  have hm : rtcm3_warning.map (fun v => v % 256) = rtcm3_warning := by decide
  have hb := print_bytes_short K rtcm3_warning s.print_buffer (by rw [hw]; decide)
  rw [hw, hm] at hb
  refine ⟨by simp [commands_process_packet, hl, hpre], ?_, ?_, ?_, ?_⟩
  · exact (commands_vprintf_frame K rtcm3_warning s).1
  · exact (commands_vprintf_frame K rtcm3_warning s).2.1
  · exact (commands_vprintf_frame K rtcm3_warning s).2.2
  · simp only [commands_printf, commands_vprintf_eq, hw, commands_send_packet]
    by_cases hs : s.m_send_func = 0
    · simp [hs]
    · simp [hs, hb]

/-- C15 at a node whose id is the preamble value `0xD3` itself. -/
theorem C15_rtcm3_preamble_discarded_witness :
    (commands_process_packet demoOps { demoEnv with main_id := 211 } (demoCollab 0 false)
        (Mem.ofList [211, 1]) 2 5 (demoState 9 demoConfig)).1.trace
      = [.send 9 ([211, 0] ++ rtcm3_warning)] :=
  ((congrArg (fun r => r.1.trace)
    (C15_rtcm3_preamble_discarded demoOps { demoEnv with main_id := 211 } (demoCollab 0 false)
      (Mem.ofList [211, 1]) 2 5 (demoState 9 demoConfig) (by decide) (by decide)).1).trans
    (by decide))

/-! ## NMEA sentences -/

theorem toBits_toInt32 (n : Nat) : toBits 32 (toInt32 n) = n % 2 ^ 32 := by
  unfold toBits toInt32
  split <;> omega

set_option maxRecDepth 100000 in
/-- C20 as stated fails for a sentence that does not fit the send buffer.
With the flag set and a send buffer of 512 bytes, a sentence of 510 bytes is
sent in a packet of 512 bytes, but for a sentence of 511 bytes `memcpy` stores
its last byte at index 512, outside the buffer, and the call has no defined
result; likewise for 1023 bytes and a buffer of 1024 bytes. -/
theorem C20_nmea_overflow_counterexample :
    ((commands_send_nmea demoEnv 512 (fun _ => 65) 510
        (demoState 9 { demoConfig with gps_send_nmea := 1 })).map
          (fun s => (sentPackets s.trace).map List.length)) = some [512] ∧
    (commands_send_nmea demoEnv 512 (fun _ => 65) 511
        (demoState 9 { demoConfig with gps_send_nmea := 1 })).isNone = true ∧
    (commands_send_nmea demoEnv 1024 (fun _ => 65) 1023
        (demoState 9 { demoConfig with gps_send_nmea := 1 })).isNone = true := by
  decide

/-- C20 (amended): `commands_send_nmea` on the `len` bytes at `data`, for a
send buffer of `PACKET_MAX_PL_LEN` bytes.  With `main_config.gps_send_nmea`
zero the state, send buffer included, is unchanged and nothing is sent.  With
the flag set, a send function active and `len + 2 <= PACKET_MAX_PL_LEN`,
exactly one packet is passed to the send function: `[main_id,
CMD_SEND_NMEA_RADIO]` followed by the `len` bytes of `data`, `len + 2` bytes in
all.  With the flag set and `len + 2 > PACKET_MAX_PL_LEN` the copy leaves the
send buffer and the call has no defined result. -/
theorem C20_nmea_gating (K : Env) (PACKET_MAX_PL_LEN : Nat) (data : Mem) (len : Nat)
    (s : State F) (hid : K.main_id < 256) (hc : K.code CMD_PACKET.CMD_SEND_NMEA_RADIO < 256)
    (hdata : ∀ i, i < len → data i < 256) (hcap : PACKET_MAX_PL_LEN < ADDR_SPACE) :
    (s.main_config.gps_send_nmea = 0 →
      commands_send_nmea K PACKET_MAX_PL_LEN data len s = some s) ∧
    (s.main_config.gps_send_nmea ≠ 0 → s.m_send_func ≠ 0 → len + 2 ≤ PACKET_MAX_PL_LEN →
      (commands_send_nmea K PACKET_MAX_PL_LEN data len s).map State.trace
          = some (s.trace ++ [.send s.m_send_func
              ([K.main_id, K.code CMD_PACKET.CMD_SEND_NMEA_RADIO] ++ data.bytes len)]) ∧
        ([K.main_id, K.code CMD_PACKET.CMD_SEND_NMEA_RADIO] ++ data.bytes len).length
          = len + 2) ∧
    (s.main_config.gps_send_nmea ≠ 0 → PACKET_MAX_PL_LEN < len + 2 →
      commands_send_nmea K PACKET_MAX_PL_LEN data len s = none) := by
  refine ⟨?_, ?_, ?_⟩
  · intro h0
    simp [commands_send_nmea, h0]
  · intro hne hs hfit
    have hmod : (data.bytes len).map (fun v => v % 256) = data.bytes len := by
      apply map_mod_of_lt
      intro c hc
      simp only [Mem.bytes, List.mem_map, List.mem_range] at hc
      obtain ⟨i, hi, rfl⟩ := hc
      exact hdata i hi
    have hb : ((((SendBuf.mk s.m_send_buffer 0).put K.main_id).put
        (K.code CMD_PACKET.CMD_SEND_NMEA_RADIO)).puts (data.bytes len)).bytes
        = [K.main_id, K.code CMD_PACKET.CMD_SEND_NMEA_RADIO] ++ data.bytes len := by
      rw [bytes_puts, hmod]
      simp [Nat.mod_eq_of_lt hid, Nat.mod_eq_of_lt hc]
    have hidx : ((((SendBuf.mk s.m_send_buffer 0).put K.main_id).put
        (K.code CMD_PACKET.CMD_SEND_NMEA_RADIO)).puts (data.bytes len)).send_index
        = 0 + 1 + 1 + len := by
      rw [puts_send_index, bytes_length]
      rfl
    have hw : toBits 32 (toInt32 (0 + 1 + 1 + len)) = 0 + 1 + 1 + len := by
      rw [toBits_toInt32]
      apply Nat.mod_eq_of_lt
      simp only [ADDR_SPACE] at hcap
      omega
    have hfit2 : 0 + 1 + 1 + len ≤ PACKET_MAX_PL_LEN := by omega
    refine ⟨?_, by simp [bytes_length]⟩
    simp only [commands_send_nmea, ne_eq, hne, not_false_eq_true, if_true, put_send_index, hfit2,
      hw, commands_send_packet, hs, Option.map_some', call_trace]
    rw [← hidx, ← SendBuf.bytes.eq_1, hb]
  · intro hne hover
    have hfit2 : ¬ 0 + 1 + 1 + len ≤ PACKET_MAX_PL_LEN := by omega
    simp only [commands_send_nmea, ne_eq, hne, not_false_eq_true, if_true, put_send_index, hfit2,
      if_false]

/-- C20 (amended) at the sentence "$GP" and a send buffer of 512 bytes, with
the flag set and with the flag clear, and at a buffer of 4 bytes, which the
sentence and the two header bytes do not fit. -/
theorem C20_nmea_gating_witness :
    (commands_send_nmea demoEnv 512 (Mem.ofList [36, 71, 80]) 3
        (demoState 9 { demoConfig with gps_send_nmea := 1 })).map State.trace
      = some [.send 9 [1, 20, 36, 71, 80]] ∧
    commands_send_nmea demoEnv 512 (Mem.ofList [36, 71, 80]) 3 (demoState 9 demoConfig)
      = some (demoState 9 demoConfig) ∧
    commands_send_nmea demoEnv 4 (Mem.ofList [36, 71, 80]) 3
        (demoState 9 { demoConfig with gps_send_nmea := 1 }) = none :=
  ⟨((C20_nmea_gating demoEnv 512 (Mem.ofList [36, 71, 80]) 3
      (demoState 9 { demoConfig with gps_send_nmea := 1 }) (by decide) (by decide)
      (by decide) (by decide)).2.1 (by decide) (by decide) (by decide)).1.trans (by decide),
   (C20_nmea_gating demoEnv 512 (Mem.ofList [36, 71, 80]) 3 (demoState 9 demoConfig) (by decide)
      (by decide) (by decide) (by decide)).1 (by decide),
   (C20_nmea_gating demoEnv 4 (Mem.ofList [36, 71, 80]) 3
      (demoState 9 { demoConfig with gps_send_nmea := 1 }) (by decide) (by decide)
      (by decide) (by decide)).2.2 (by decide) (by decide)⟩

/-! ## An accepted replacement -/

/-- The calls recorded by `addsFrom`: one `autopilot_add_point` per point, in
payload order, none flagged as first. -/
theorem addsFrom_calls (X : FloatOps F) (C : Collab F) (payload : Mem) :
    ∀ (n j : Nat) (t : List (Event F)), ∃ results : List Bool, results.length = n ∧
      addsFrom X C payload n j t
        = t ++ (List.range n).map fun i =>
            .autopilot_add_point (pointAt X payload (j + i)) false (results.getD i false) := by
  intro n
  induction n with
  | zero => intro j t; exact ⟨[], rfl, by simp [addsFrom]⟩
  | succ n ih =>
    intro j t
    obtain ⟨rs, hrs, heq⟩ := ih (j + 1)
      (t ++ [.autopilot_add_point (pointAt X payload j) false
              (C.autopilot_add_point t (pointAt X payload j) false)])
    refine ⟨C.autopilot_add_point t (pointAt X payload j) false :: rs, by simp [hrs], ?_⟩
    have hstep : addsFrom X C payload (n + 1) j t
        = addsFrom X C payload n (j + 1)
            (t ++ [.autopilot_add_point (pointAt X payload j) false
                    (C.autopilot_add_point t (pointAt X payload j) false)]) := rfl
    rewrite [hstep, heq]
    simp only [List.range_succ_eq_map, List.map_cons, List.map_map, List.append_assoc, List.singleton_append,
      Nat.add_zero, List.getD_cons_zero]
    have hmap : List.map
        (fun i => Event.autopilot_add_point (pointAt X payload (j + 1 + i)) false (rs.getD i false))
        (List.range n)
        = List.map
          ((fun i => Event.autopilot_add_point (pointAt X payload (j + i)) false
              ((C.autopilot_add_point t (pointAt X payload j) false :: rs).getD i false)) ∘
            Nat.succ) (List.range n) := by
      apply List.map_congr_left
      intro i _
      simp only [Function.comp, Nat.succ_eq_add_one, List.getD_cons_succ]
      rw [show j + 1 + i = j + (i + 1) by omega]
    rw [hmap]

/-- C23: a payload of exactly `N >= 1` route points whose first point
`autopilot_replace_route` accepts.  The replacement is called once, with point
0; then the points `1 .. N-1` are offered to `autopilot_add_point` in payload
order, none flagged as first, `N - 1` calls whatever their results; then the
acknowledgement is sent. -/
theorem C23_replace_route_accepted (X : FloatOps F) (K : Env) (C : Collab F) (data : Mem)
    (N func : Nat) (s : State F) (hacc : Accepted K data (24 * N + 2))
    (hcmd : K.cmd (data 1) = some .CMD_AP_REPLACE_ROUTE) (hN1 : 1 ≤ N)
    (hN : 24 * N + 2 < 2 ^ 31) (hfunc : func ≠ 0) (hid : replyId K (data 0) < 256)
    (hpid : data 1 < 256)
    (haccept : C.autopilot_replace_route s.trace (pointAt X (data.shift 2) 0) = true) :
    (commands_process_packet X K C data (24 * N + 2) func s).1.trace
        = addsFrom X C (data.shift 2) (N - 1) 1
            (s.trace ++ [.autopilot_replace_route (pointAt X (data.shift 2) 0) true])
          ++ [.send func [replyId K (data 0), data 1], specificCall K data (24 * N + 2) func]
      ∧ ∃ results : List Bool, results.length = N - 1 ∧
        addsFrom X C (data.shift 2) (N - 1) 1
            (s.trace ++ [.autopilot_replace_route (pointAt X (data.shift 2) 0) true])
          = s.trace ++ [.autopilot_replace_route (pointAt X (data.shift 2) 0) true]
            ++ (List.range (N - 1)).map fun i =>
                .autopilot_add_point (pointAt X (data.shift 2) (1 + i)) false
                  (results.getD i false) := by
  refine ⟨?_, addsFrom_calls X C (data.shift 2) (N - 1) 1 _⟩
  obtain ⟨hlen, hpre, hrecv⟩ := hacc
  simp only [replyId] at hid
  have hp : payloadLen (24 * N + 2) = 24 * N := payloadLen_add_two _ (by omega)
  have hp2 : (24 * N + 2 + (2 ^ 32 - 2)) % 2 ^ 32 = 24 * N := hp
  have hti : toInt32 (24 * N) = ((24 * N : Nat) : Int) := toInt32_of_lt _ (by omega)
  obtain ⟨fuel, hfuel⟩ : ∃ f, 24 * N = f + 1 := ⟨24 * N - 1, by omega⟩
  have hc : ((24 * 0 : Nat) : Int) < toInt32 (24 * N) := by
    rw [hti]
    exact_mod_cast (by omega : 24 * 0 < 24 * N)
  have hloop : ap_replace_route_loop X C (data.shift 2) (24 * N) (24 * N) 0 true
      (commands_set_send_func func s)
      = { commands_set_send_func func s with
          trace := addsFrom X C (data.shift 2) (N - 1) 1
            (s.trace ++ [.autopilot_replace_route (pointAt X (data.shift 2) 0) true]) } := by
    have hacc2 : C.autopilot_replace_route (commands_set_send_func func s).trace
        (pointAt X (data.shift 2) 0) = true := by
      simpa [commands_set_send_func] using haccept
    rw [show (0 : Nat) = 24 * 0 by rfl]
    nth_rewrite 2 [hfuel]
    simp only [ap_replace_route_loop, hc, if_true]
    simp only [← pointAt_def, hacc2, State.call, get_route_point_snd, Bool.not_true]
    rw [show 24 * 0 + 24 = 24 * (0 + 1) by rfl,
      ap_replace_route_loop_append X C (data.shift 2) (24 * N) N hti (N - 1) (0 + 1)
        fuel _ (by omega) (by omega)]
    simp [commands_set_send_func]
  simp only [commands_process_packet, hlen, hpre, hrecv, hcmd, if_true, if_false, hp2,
    cmd_ap_replace_route, hloop, specificCall, hp, replyId]
  rw [send_ack_eq _ _ _ (by simpa [commands_set_send_func] using hfunc)]
  simp [commands_set_send_func, Nat.mod_eq_of_lt hid, Nat.mod_eq_of_lt hpid]

/-- C23 at a payload of four points where the route, once replaced, takes one
more point: the first point replaces the route, the second is appended, and the
third and fourth are still offered after the rejections. -/
theorem C23_replace_route_accepted_witness :
    (commands_process_packet demoOps demoEnv (demoCollab 1 true)
        (Mem.ofList ([1, 12] ++ demoPoint 1 ++ demoPoint 10 ++ demoPoint 20 ++ demoPoint 30))
        (24 * 4 + 2) 5 (demoState 0 demoConfig)).1.trace
      = [.autopilot_replace_route ⟨1, 2, 3, 4, 5, 6⟩ true,
         .autopilot_add_point ⟨10, 11, 12, 13, 14, 15⟩ false true,
         .autopilot_add_point ⟨20, 21, 22, 23, 24, 25⟩ false false,
         .autopilot_add_point ⟨30, 31, 32, 33, 34, 35⟩ false false,
         .send 5 [1, 12],
         specificCall demoEnv
           (Mem.ofList ([1, 12] ++ demoPoint 1 ++ demoPoint 10 ++ demoPoint 20 ++ demoPoint 30))
           (24 * 4 + 2) 5] :=
  (C23_replace_route_accepted demoOps demoEnv (demoCollab 1 true)
    (Mem.ofList ([1, 12] ++ demoPoint 1 ++ demoPoint 10 ++ demoPoint 20 ++ demoPoint 30)) 4 5
    (demoState 0 demoConfig) ⟨by decide, by decide, by decide⟩ (by decide) (by decide)
    (by decide) (by decide) (by decide) (by decide) (by decide)).1.trans (by decide)

/-! ## The payload length of a one-byte packet -/

/-- C25 fails at length 1.  A one-byte packet addressed to this node, with the
id of `CMD_SEND_RTCM_USB` in the cell behind it, is accepted; `len -= 2` wraps
and both `pos_gnss_input_rtcm3` and the vehicle-specific dispatcher are handed
the length 4294967295, which is neither `1 - 2` nor smaller than the received
length.  With the same two bytes received as a packet of length 2 both are
handed the length 0. -/
theorem C25_payload_length_wraps :
    Accepted demoEnv (Mem.ofList [1, 14]) 1 ∧
    handedLengths (commands_process_packet demoOps demoEnv (demoCollab 0 false)
        (Mem.ofList [1, 14]) 1 5 (demoState 0 demoConfig)).1.trace
      = [4294967295, 4294967295] ∧
    payloadLen 1 = 4294967295 ∧ ¬ payloadLen 1 < 1 ∧
    handedLengths (commands_process_packet demoOps demoEnv (demoCollab 0 false)
        (Mem.ofList [1, 14]) 2 5 (demoState 0 demoConfig)).1.trace
      = [0, 0] := by
  refine ⟨⟨by decide, by decide, by decide⟩, by decide, by decide, by decide, by decide⟩

/-! ## Size of the configuration report -/

theorem autoWire_length (X : FloatOps F) (x : F) :
    (autoWire X x).length = (X.append_float32_auto x).length := by
  simp [autoWire]

/-- The log name takes its characters and one terminator. -/
theorem cstrWire_length (s : List Nat) : (cstrWire s).length = strlen s + 1 := by
  simp [cstrWire, strlen]

/-- With 4-byte adaptive floats the fields of a configuration other than the
log name take 305 bytes. -/
theorem configWire_length (X : FloatOps F) (hasz : ∀ x, (X.append_float32_auto x).length = 4)
    (c : MAIN_CONFIG F) :
    (configWire X c).length = 305 + (cstrWire c.log_name).length := by
  simp only [configWire, generalWire, logWire, carWire, mrWire, List.length_append,
    List.length_cons, List.length_nil, autoWire_length, hasz, be32, be16]
  omega

set_option maxRecDepth 100000 in
/-- C24 as stated fails in its byte count: with an empty log name the reply
to `CMD_GET_MAIN_CONFIG` is 308 bytes long, of which the log name with its
terminator takes 1 and the header 2, which leaves 305 bytes of fixed-width
fields, not 306. -/
theorem C24_fixed_fields_counterexample :
    (sentPackets (commands_process_packet demoOps demoEnv (demoCollab 0 false)
        (Mem.ofList [1, 18]) 2 5 (demoState 0 demoConfig)).1.trace).map List.length = [308] ∧
    (cstrWire demoConfig.log_name).length = 1 ∧
    (configWire demoOps demoConfig).length = 305 + (cstrWire demoConfig.log_name).length ∧
    308 ≠ 2 + 306 + (cstrWire demoConfig.log_name).length := by
  decide

/-- C24 (amended): for every live configuration the reply to
`CMD_GET_MAIN_CONFIG` consists of the 2 header bytes and the wire image of the
configuration; with every adaptive float taking 4 bytes the wire image is 305
bytes of fixed-width fields and the log name with its terminator, so the reply
is exactly `308 + strlen(log_name)` bytes long, and it fits a send buffer of
`PACKET_MAX_PL_LEN` bytes exactly when
`strlen(log_name) <= PACKET_MAX_PL_LEN - 308`. -/
theorem C24_config_report_size (X : FloatOps F) (K : Env) (C : Collab F) (data : Mem)
    (len func PACKET_MAX_PL_LEN : Nat) (s : State F) (hacc : Accepted K data len)
    (hcmd : K.cmd (data 1) = some .CMD_GET_MAIN_CONFIG) (hfunc : func ≠ 0)
    (hasz : ∀ x, (X.append_float32_auto x).length = 4) :
    ∃ reply,
      (commands_process_packet X K C data len func s).1.trace
        = s.trace ++ [.send func reply, specificCall K data len func] ∧
      reply = [replyId K (data 0) % 256, data 1 % 256] ++ configWire X s.main_config ∧
      (configWire X s.main_config).length = 305 + (strlen s.main_config.log_name + 1) ∧
      reply.length = 308 + strlen s.main_config.log_name ∧
      (reply.length ≤ PACKET_MAX_PL_LEN ↔
        (strlen s.main_config.log_name : Int) ≤ (PACKET_MAX_PL_LEN : Int) - 308) := by
  obtain ⟨hlen, hgpre, hgrecv⟩ := hacc
  have hw := configWire_length X hasz s.main_config
  rw [cstrWire_length] at hw
  have hl : ([replyId K (data 0) % 256, data 1 % 256] ++ configWire X s.main_config).length
      = 308 + strlen s.main_config.log_name := by
    simp only [List.length_append, List.length_cons, List.length_nil, hw]
    omega
  refine ⟨[replyId K (data 0) % 256, data 1 % 256] ++ configWire X s.main_config, ?_, rfl, hw,
    hl, ?_⟩
  · have ht := cmd_get_main_config_current X K C (replyId K (data 0)) (data 1) func s
      (cmd_code hcmd).symm hfunc
    simp only [commands_process_packet, hlen, hgpre, hgrecv, hcmd, if_true, if_false,
      specificCall, payloadLen, call_trace, ← replyId.eq_1]
    rw [ht]
    simp
  · rw [hl]
    omega

/-- C24 (amended) at the configuration `tripConfig`, whose log name "trip1" has
5 characters, and a send buffer of 512 bytes: the reply is 313 bytes long. -/
theorem C24_config_report_size_witness :
    ∃ reply,
      (commands_process_packet patternOps demoEnv (idleCollab 0) (Mem.ofList [1, 18]) 2 5
          ⟨fun _ => 0, 0, fun _ => 0, tripConfig, []⟩).1.trace
        = [] ++ [.send 5 reply, specificCall demoEnv (Mem.ofList [1, 18]) 2 5] ∧
      reply = [1, 18] ++ configWire patternOps tripConfig ∧
      (configWire patternOps tripConfig).length = 305 + (5 + 1) ∧
      reply.length = 308 + 5 ∧
      (reply.length ≤ 512 ↔ ((5 : Nat) : Int) ≤ ((512 : Nat) : Int) - 308) :=
  C24_config_report_size patternOps demoEnv (idleCollab 0) (Mem.ofList [1, 18]) 2 5 512
    ⟨fun _ => 0, 0, fun _ => 0, tripConfig, []⟩ ⟨by decide, by decide, by decide⟩ (by decide)
    (by decide) (fun _ => rfl)

/-! ## Layout of the reply of `CMD_AP_GET_ROUTE_PART` -/

/-- The bytes stored by the loop of `CMD_AP_GET_ROUTE_PART` over `n` indices
from `i`. -/
theorem ap_get_route_part_loop_bytes (X : FloatOps F) (C : Collab F) (bound : Int) :
    ∀ (n : Nat) (i : Int) (w : SendBuf) (s : State F), i + n = bound →
      (ap_get_route_part_loop X C bound n i w s).1.bytes
        = w.bytes ++ routePartWire X C n i s.trace := by
  intro n
  induction n with
  | zero => intro i w s _; simp [ap_get_route_part_loop, routePartWire]
  | succ n ih =>
    intro i w s hb
    have hc : i < bound := by omega
    simp only [ap_get_route_part_loop, hc, if_true]
    rw [ih (i + 1) _ _ (by push_cast at hb ⊢; omega)]
    simp only [bytes_uint32, bytes_int32, bytes_float32_auto, routePartWire, pointWire,
      State.call, List.append_assoc]

/-- The calls made by the loop of `CMD_AP_GET_ROUTE_PART` over `n` indices
from `i`, whatever the size of the encoded points. -/
theorem ap_get_route_part_loop_trace (X : FloatOps F) (C : Collab F) (bound : Int) :
    ∀ (n : Nat) (i : Int) (w : SendBuf) (s : State F), i + n = bound →
      (ap_get_route_part_loop X C bound n i w s).2
        = { s with trace := s.trace
              ++ (List.range n).map fun j => .autopilot_get_route_point (i + (j : Nat)) } := by
  intro n
  induction n with
  | zero => intro i w s _; simp [ap_get_route_part_loop]
  | succ n ih =>
    intro i w s hb
    have hc : i < bound := by omega
    simp only [ap_get_route_part_loop, hc, if_true]
    rw [ih (i + 1) _ _ (by push_cast at hb ⊢; omega), List.range_succ_eq_map]
    simp [State.call, Int.add_assoc, Function.comp_def, Int.add_comm 1]

/-- With 4-byte adaptive floats a route point takes 24 bytes. -/
theorem routePartWire_length (X : FloatOps F) (C : Collab F)
    (hasz : ∀ x, (X.append_float32_auto x).length = 4) :
    ∀ (n : Nat) (i : Int) (t : List (Event F)), (routePartWire X C n i t).length = 24 * n := by
  intro n
  induction n with
  | zero => intro i t; rfl
  | succ n ih =>
    intro i t
    simp only [routePartWire, pointWire, List.length_append, autoWire_length, hasz, be32,
      List.length_cons, List.length_nil, ih]
    omega

/-- C22: an accepted `CMD_AP_GET_ROUTE_PART` request for `n <= 20` points from
index `first`, with `first + n` below `2^31`, while a send function is active.
The route length is queried, then the route points at `first`, `first + 1`, ..,
`first + n - 1`, in ascending order and whatever the route length; the one
packet sent holds the reply id and the command id, the route length as a
32-bit integer and the `n` points in that order.  With 4-byte adaptive floats
it is `6 + 24 * n <= 486` bytes long. -/
theorem C22_route_part_reply_layout (X : FloatOps F) (K : Env) (C : Collab F) (data : Mem)
    (len func n : Nat) (s : State F) (hacc : Accepted K data len)
    (hcmd : K.cmd (data 1) = some .CMD_AP_GET_ROUTE_PART) (hnum : data 6 = n) (hn : n ≤ 20)
    (hsend : s.m_send_func ≠ 0)
    (hfirst : (buffer_get_int32 (data.shift 2) 0).1 + (n : Int) < 2 ^ 31) :
    (commands_process_packet X K C data len func s).1.trace
        = s.trace ++ [.autopilot_get_route_len]
          ++ ((List.range n).map fun j =>
              .autopilot_get_route_point ((buffer_get_int32 (data.shift 2) 0).1 + (j : Nat)))
          ++ [.send s.m_send_func
                ([replyId K (data 0) % 256, K.code .CMD_AP_GET_ROUTE_PART % 256]
                  ++ be32 (toBits 32 (C.autopilot_get_route_len s.trace))
                  ++ routePartWire X C n (buffer_get_int32 (data.shift 2) 0).1
                      (s.trace ++ [.autopilot_get_route_len])),
              specificCall K data len func] ∧
      ((∀ x, (X.append_float32_auto x).length = 4) →
        ([replyId K (data 0) % 256, K.code .CMD_AP_GET_ROUTE_PART % 256]
            ++ be32 (toBits 32 (C.autopilot_get_route_len s.trace))
            ++ routePartWire X C n (buffer_get_int32 (data.shift 2) 0).1
                (s.trace ++ [.autopilot_get_route_len])).length = 6 + 24 * n ∧
        6 + 24 * n ≤ 486) := by
  obtain ⟨hlen, hpre, hrecv⟩ := hacc
  have h6 : data.shift 2 4 = n := hnum
  have hn2 : ¬ 20 < n := by omega
  have hge := toInt32_ge (buffer_get_uint32 (data.shift 2) 0).1
  have hb : toInt32 (toBits 32 ((buffer_get_int32 (data.shift 2) 0).1 + (n : Int)))
      = (buffer_get_int32 (data.shift 2) 0).1 + (n : Int) := by
    apply toInt32_toBits
    · simp only [buffer_get_int32]; omega
    · exact hfirst
  have h1 := ap_get_route_part_loop_trace X C
    ((buffer_get_int32 (data.shift 2) 0).1 + (n : Int)) n
    (buffer_get_int32 (data.shift 2) 0).1
    (buffer_append_int32 (C.autopilot_get_route_len s.trace)
      (((SendBuf.mk s.m_send_buffer 0).put (replyId K (data 0))).put
        (K.code .CMD_AP_GET_ROUTE_PART)))
    (s.call .autopilot_get_route_len) rfl
  have h2 := ap_get_route_part_loop_bytes X C
    ((buffer_get_int32 (data.shift 2) 0).1 + (n : Int)) n
    (buffer_get_int32 (data.shift 2) 0).1
    (buffer_append_int32 (C.autopilot_get_route_len s.trace)
      (((SendBuf.mk s.m_send_buffer 0).put (replyId K (data 0))).put
        (K.code .CMD_AP_GET_ROUTE_PART)))
    (s.call .autopilot_get_route_len) rfl
  refine ⟨?_, ?_⟩
  · have hbuf : (buffer_get_int32 (data.shift 2) 0).2 = 4 := rfl
    simp only [commands_process_packet, hlen, hpre, hrecv, hcmd, if_true, if_false,
      cmd_ap_get_route_part, hbuf, h6, gt_iff_lt, hn2, hb, send_buffer,
      commands_send_packet, ← replyId.eq_1, ← SendBuf.bytes.eq_1]
    rw [h1, h2]
    simp [State.call, hsend, specificCall, payloadLen, bytes_int32]
  · intro hasz
    refine ⟨?_, by omega⟩
    simp only [List.length_append, List.length_cons, List.length_nil, be32,
      routePartWire_length X C hasz]

/-- C22 at a request for two points from index 3 while send function 9 is
active, with 4-byte adaptive floats: the route length 7 and the points 3 and 4
are reported in `6 + 24 * 2 = 54` bytes. -/
theorem C22_route_part_reply_layout_witness :
    (commands_process_packet demoOps demoEnv (demoCollab 0 false)
        (Mem.ofList [1, 10, 0, 0, 0, 3, 2]) 7 5 (demoState 9 demoConfig)).1.trace
      = [.autopilot_get_route_len, .autopilot_get_route_point 3, .autopilot_get_route_point 4,
         .send 9 ([1, 10] ++ [0, 0, 0, 7]
            ++ [0, 0, 0, 3, 0, 0, 0, 3, 0, 0, 0, 3, 0, 0, 0, 3, 0, 0, 0, 3, 0, 0, 0, 3]
            ++ [0, 0, 0, 4, 0, 0, 0, 4, 0, 0, 0, 4, 0, 0, 0, 4, 0, 0, 0, 4, 0, 0, 0, 4]),
         specificCall demoEnv (Mem.ofList [1, 10, 0, 0, 0, 3, 2]) 7 5] ∧
    ([replyId demoEnv 1 % 256, demoEnv.code .CMD_AP_GET_ROUTE_PART % 256]
        ++ be32 (toBits 32 ((demoCollab 0 false).autopilot_get_route_len []))
        ++ routePartWire demoOps (demoCollab 0 false) 2 3 [.autopilot_get_route_len]).length
      = 6 + 24 * 2 :=
  ⟨(C22_route_part_reply_layout demoOps demoEnv (demoCollab 0 false)
      (Mem.ofList [1, 10, 0, 0, 0, 3, 2]) 7 5 2 (demoState 9 demoConfig)
      ⟨by decide, by decide, by decide⟩ (by decide) (by decide) (by decide) (by decide)
      (by decide)).1.trans (by decide),
   ((C22_route_part_reply_layout demoOps demoEnv (demoCollab 0 false)
      (Mem.ofList [1, 10, 0, 0, 0, 3, 2]) 7 5 2 (demoState 9 demoConfig)
      ⟨by decide, by decide, by decide⟩ (by decide) (by decide) (by decide) (by decide)
      (by decide)).2 (fun _ => bytes_length _ _)).1⟩

/-! ## The ENU reference on the wire -/

theorem bytes_int64 (z : Int) (w : SendBuf) :
    (buffer_append_int64 z w).bytes = w.bytes ++ be64 (toBits 64 z) := by
  simp only [buffer_append_int64, bytes_uint32, be64, List.append_assoc]

theorem be32_mod (n : Nat) : be32 (n % 2 ^ 32) = be32 n := by
  simp only [be32, List.cons.injEq, and_true]
  refine ⟨?_, ?_, ?_, ?_⟩ <;> omega

/-- Reading back the eight bytes stored by `buffer_append_int64`. -/
theorem holds_int64 {m : Mem} {i n : Nat} {tl : List Nat} (hn : n < 2 ^ 64)
    (h : Holds m i (be64 n ++ tl)) :
    buffer_get_int64 m i = (toInt64 n, i + 8) ∧ Holds m (i + 8) tl := by
  rw [be64, List.append_assoc] at h
  obtain ⟨e1, h1⟩ := holds_uint32 (by omega : n / 2 ^ 32 < 2 ^ 32) h
  rw [← be32_mod] at h1
  obtain ⟨e2, h2⟩ := holds_uint32 (Nat.mod_lt _ (by decide)) h1
  refine ⟨?_, h2⟩
  simp only [buffer_get_int64, e1, e2, Nat.div_add_mod']

theorem send_ack_trace (id_ret packet_id : Nat) (s : State F) :
    ∃ evs, (send_ack id_ret packet_id s).trace = s.trace ++ evs := by
  simp only [send_ack, send_buffer, commands_send_packet]
  split
  · exact ⟨[_], rfl⟩
  · exact ⟨[], by simp⟩

/-- `CMD_SET_ENU_REF` on a payload that holds the wire image of a reference:
the fields are decoded in the order, with the widths and with the scales of
`enuWire`. -/
theorem cmd_set_enu_ref_decodes (X : FloatOps F) (llh : F × F × F) (data : Mem)
    (id_ret packet_id func : Nat) (s : State F) (h : Holds data 0 (enuWire X llh)) :
    ∃ evs, (cmd_set_enu_ref X data id_ret packet_id func s).trace
      = s.trace ++ .pos_gnss_set_enu_ref
          (X.double64_of_fixed (toInt64 (toBits 64 (X.fixed_of_double64 llh.1 (10 ^ 16))))
            (10 ^ 16))
          (X.double64_of_fixed (toInt64 (toBits 64 (X.fixed_of_double64 llh.2.1 (10 ^ 16))))
            (10 ^ 16))
          (X.float32_of_fixed (toInt32 (toBits 32 (X.fixed_of_float32 llh.2.2 (10 ^ 3))))
            (10 ^ 3)) :: evs := by
  have hb : ∀ z : Int, toBits 64 z < 2 ^ 64 := by
    intro z
    unfold toBits
    omega
  rw [enuWire, List.append_assoc] at h
  obtain ⟨e1, h⟩ := holds_int64 (hb _) h
  obtain ⟨e2, h⟩ := holds_int64 (hb _) h
  rw [← List.append_nil (be32 _)] at h
  obtain ⟨e3, -⟩ := holds_uint32 (toBits_lt _) h
  obtain ⟨evs, hevs⟩ := send_ack_trace id_ret packet_id
    ((commands_set_send_func func s).call (.pos_gnss_set_enu_ref
      (X.double64_of_fixed (toInt64 (toBits 64 (X.fixed_of_double64 llh.1 (10 ^ 16))))
        (10 ^ 16))
      (X.double64_of_fixed (toInt64 (toBits 64 (X.fixed_of_double64 llh.2.1 (10 ^ 16))))
        (10 ^ 16))
      (X.float32_of_fixed (toInt32 (toBits 32 (X.fixed_of_float32 llh.2.2 (10 ^ 3))))
        (10 ^ 3))))
  refine ⟨evs, ?_⟩
  simp only [cmd_set_enu_ref, buffer_get_double64, buffer_get_float32, buffer_get_int32, e1, e2,
    e3, Nat.zero_add]
  rw [hevs]
  simp [State.call, commands_set_send_func]

/-- C21 as stated fails in its frame: `CMD_GET_ENU_REF` calls `timeout_reset`
before it reads the reference, the call that is the whole effect of
`CMD_HEARTBEAT`. -/
theorem C21_get_enu_ref_counterexample :
    (commands_process_packet demoOps demoEnv (demoCollab 0 false) (Mem.ofList [1, 6]) 2 5
        (demoState 0 demoConfig)).1.trace
      = [.timeout_reset, .pos_gnss_get_enu_ref,
         .send 5 ([1, 6] ++ [0, 0, 0, 0, 0, 0, 0, 1] ++ [0, 0, 0, 0, 0, 0, 0, 2] ++ [0, 0, 0, 3]),
         .commands_specific_process_packet 6 [] 0 1 5] ∧
    (commands_process_packet demoOps demoEnv (demoCollab 0 false) (Mem.ofList [1, 1]) 2 5
        (demoState 0 demoConfig)).1.trace
      = [.timeout_reset, .commands_specific_process_packet 1 [] 0 1 5] := by
  decide

/-- C21 (amended): an accepted `CMD_GET_ENU_REF` request resets the liveness
timeout and reads the ENU reference; these are its only calls of collaborators
before the reply and the call of the vehicle-specific dispatcher.  The reply
is the reply id and the command id, then latitude and longitude as 64-bit
fixed point with scale `10^16` and the height as 32-bit fixed point with scale
`10^3`, 22 bytes in all; `CMD_SET_ENU_REF` on these 20 payload bytes decodes
the three fields in the same order, with the same widths and scales. -/
theorem C21_get_enu_ref_reply (X : FloatOps F) (K : Env) (C : Collab F) (data : Mem)
    (len func : Nat) (s : State F) (hacc : Accepted K data len)
    (hcmd : K.cmd (data 1) = some .CMD_GET_ENU_REF) (hfunc : func ≠ 0)
    (rid pid sfunc : Nat) (s2 : State F) (hpre : rid ≠ RTCM3PREAMB)
    (hrecv : rid = K.main_id ∨ rid = K.ID_ALL ∨ rid = K.ID_CAR_CLIENT)
    (hscmd : K.cmd pid = some .CMD_SET_ENU_REF) :
    (commands_process_packet X K C data len func s).1.trace
        = s.trace ++ [.timeout_reset, .pos_gnss_get_enu_ref,
            .send func ([replyId K (data 0) % 256, K.code .CMD_GET_ENU_REF % 256]
              ++ enuWire X (C.pos_gnss_get_enu_ref (s.trace ++ [.timeout_reset]))),
            specificCall K data len func] ∧
      ([replyId K (data 0) % 256, K.code .CMD_GET_ENU_REF % 256]
        ++ enuWire X (C.pos_gnss_get_enu_ref (s.trace ++ [.timeout_reset]))).length = 22 ∧
      ∃ rest,
        (commands_process_packet X K C
            (Mem.ofList ([rid, pid]
              ++ enuWire X (C.pos_gnss_get_enu_ref (s.trace ++ [.timeout_reset]))))
            22 sfunc s2).1.trace
          = s2.trace ++ .pos_gnss_set_enu_ref
              (X.double64_of_fixed (toInt64 (toBits 64 (X.fixed_of_double64
                (C.pos_gnss_get_enu_ref (s.trace ++ [.timeout_reset])).1 (10 ^ 16)))) (10 ^ 16))
              (X.double64_of_fixed (toInt64 (toBits 64 (X.fixed_of_double64
                (C.pos_gnss_get_enu_ref (s.trace ++ [.timeout_reset])).2.1 (10 ^ 16)))) (10 ^ 16))
              (X.float32_of_fixed (toInt32 (toBits 32 (X.fixed_of_float32
                (C.pos_gnss_get_enu_ref (s.trace ++ [.timeout_reset])).2.2 (10 ^ 3)))) (10 ^ 3))
            :: rest := by
  obtain ⟨hlen, hgpre, hgrecv⟩ := hacc
  refine ⟨?_, ?_, ?_⟩
  · simp only [commands_process_packet, hlen, hgpre, hgrecv, hcmd, if_true, if_false,
      cmd_get_enu_ref, send_buffer, commands_send_packet, buffer_append_double64,
      buffer_append_float32, ← replyId.eq_1, ← SendBuf.bytes.eq_1, bytes_int64, bytes_int32,
      bytes_put, bytes_mk_zero]
    simp [State.call, commands_set_send_func, hfunc, specificCall, payloadLen, enuWire]
  · simp [enuWire, be64, be32]
  · have hh := holds_ofList_payload rid pid
      (enuWire X (C.pos_gnss_get_enu_ref (s.trace ++ [.timeout_reset])))
    obtain ⟨evs, hevs⟩ := cmd_set_enu_ref_decodes X _ _ (replyId K rid) pid sfunc s2 hh
    have h0 : (Mem.ofList ([rid, pid]
        ++ enuWire X (C.pos_gnss_get_enu_ref (s.trace ++ [.timeout_reset])))) 0 = rid := rfl
    have h1 : (Mem.ofList ([rid, pid]
        ++ enuWire X (C.pos_gnss_get_enu_ref (s.trace ++ [.timeout_reset])))) 1 = pid := rfl
    refine ⟨evs ++ [.commands_specific_process_packet pid
      (((Mem.ofList ([rid, pid]
        ++ enuWire X (C.pos_gnss_get_enu_ref (s.trace ++ [.timeout_reset])))).shift 2).bytes
          (payloadLen 22)) (payloadLen 22) (replyId K rid) sfunc], ?_⟩
    simp only [commands_process_packet, h0, h1, hpre, hrecv, hscmd, if_true, if_false,
      call_trace, ← replyId.eq_1, ← payloadLen.eq_1, show (22 : Nat) ≠ 0 by decide,
      ne_eq, not_false_eq_true]
    rw [hevs]
    simp

/-- C21 (amended) at the reference `(1, 2, 3)` read by node 1: the reply holds
the three fields in 22 bytes, and `CMD_SET_ENU_REF` on its payload sets the
reference `(1, 2, 3)`. -/
theorem C21_get_enu_ref_reply_witness :
    (commands_process_packet demoOps demoEnv (demoCollab 0 false) (Mem.ofList [1, 6]) 2 5
        (demoState 0 demoConfig)).1.trace
      = [.timeout_reset, .pos_gnss_get_enu_ref,
         .send 5 ([1, 6] ++ enuWire demoOps (1, 2, 3)),
         specificCall demoEnv (Mem.ofList [1, 6]) 2 5] ∧
    ([1, 6] ++ enuWire demoOps ((1 : Int), (2 : Int), (3 : Int))).length = 22 ∧
    ∃ rest,
      (commands_process_packet demoOps demoEnv (demoCollab 0 false)
          (Mem.ofList ([1, 5] ++ enuWire demoOps (1, 2, 3))) 22 6
          (demoState 0 demoConfig)).1.trace
        = .pos_gnss_set_enu_ref 1 2 3 :: rest :=
  C21_get_enu_ref_reply demoOps demoEnv (demoCollab 0 false) (Mem.ofList [1, 6]) 2 5
    (demoState 0 demoConfig) ⟨by decide, by decide, by decide⟩ (by decide) (by decide)
    1 5 6 (demoState 0 demoConfig) (by decide) (by decide) (by decide)

end Commands
